import Mathlib

/-! Shallow embedding of the MIOpen batch-normalization host reference engine
(`driver/miopen_BatchNormHost.hpp`) and of the HIP per-activation inference
kernel (`src/kernels/MIOpenBatchNormFwdInferPerActHIP.cpp`).

Buffers are modelled as total functions `ℕ → ℝ`; both the element type `T`
and `double` are modelled as real numbers (exact real arithmetic stands in
for IEEE-754 `double`, and `Real.sqrt` for `sqrt`, which returns `0` on a
negative radicand where C would produce NaN).  C loops become left folds
over `List.range`, a store `buf[i] = v` becomes the pointwise update
`updW buf i v`, and an in-memory increment `buf[g] += e` is threaded through
the loop as an accumulator initialized with the buffer's current value and
written back after the loop, which performs the same read-modify-write
sequence.  Array indices are small enough in every statement here that
`unsigned int` arithmetic never wraps, so indices are plain naturals. -/

/-- Pointwise buffer update: the shallow embedding of the store `buf[i] = v`. -/
def updW (f : ℕ → ℝ) (i : ℕ) (v : ℝ) : ℕ → ℝ := fun j => if j = i then v else f j

@[simp] theorem updW_same (f : ℕ → ℝ) (i : ℕ) (v : ℝ) : updW f i v i = v := by
  simp [updW]

theorem updW_ne (f : ℕ → ℝ) (i j : ℕ) (v : ℝ) (h : j ≠ i) : updW f i v j = f j := by
  simp [updW, h]

/-- Splitting `List.range n` at an interior point `i`. -/
theorem range_split (n i : ℕ) (hi : i < n) :
    List.range n = List.range i ++ i :: (List.range (n - i - 1)).map (fun x => i + 1 + x) := by
  have h1 : n = i + ((n - i - 1) + 1) := by omega
  conv_lhs => rw [h1]
  rw [List.range_add, List.range_succ_eq_map, List.map_cons, List.map_map]
  have h3 : i + 0 = i := by omega
  have h4 : ((fun x => i + x) ∘ Nat.succ) = fun x => i + 1 + x := by
    funext x; simp [Function.comp]; omega
  rw [h3, h4]

/-- A fold each of whose steps preserves an observation preserves it overall. -/
theorem foldl_obs_const {σ α β : Type} (f : σ → β → σ) (obs : σ → α) (l : List β)
    (h : ∀ s b, b ∈ l → obs (f s b) = obs s) : ∀ s, obs (l.foldl f s) = obs s := by
  induction l with
  | nil => intro s; rfl
  | cons a t ih =>
    intro s
    rw [List.foldl_cons, ih (fun s b hb => h s b (List.mem_cons_of_mem a hb)),
      h s a (List.mem_cons_self a t)]

/-- Locality of a fold over `List.range n`: if every step other than step `i`
preserves the observation, and the observation after step `i` depends only on
the observation before it, then the whole fold observes as step `i` alone does,
started from any state with the same observation. -/
theorem foldl_range_locality {σ α : Type} (f : σ → ℕ → σ) (obs : σ → α) (G : σ → α)
    (n i : ℕ) (hi : i < n)
    (hframe : ∀ s j, j < n → j ≠ i → obs (f s j) = obs s)
    (hstep : ∀ s s', obs s = obs s' → obs (f s i) = G s') :
    ∀ s s', obs s = obs s' → obs ((List.range n).foldl f s) = G s' := by
  intro s s' hss
  rw [range_split n i hi, List.foldl_append, List.foldl_cons]
  have h1 : obs ((List.range i).foldl f s) = obs s := by
    refine foldl_obs_const f obs _ (fun s b hb => ?_) s
    have hb' := List.mem_range.mp hb
    exact hframe s b (by omega) (by omega)
  have h2 : obs (f ((List.range i).foldl f s) i) = G s' :=
    hstep _ s' (h1.trans hss)
  calc obs (((List.range (n - i - 1)).map (fun x => i + 1 + x)).foldl f
          (f ((List.range i).foldl f s) i))
      = obs (f ((List.range i).foldl f s) i) := by
        refine foldl_obs_const f obs _ (fun s b hb => ?_) _
        obtain ⟨x, hx, hxe⟩ := List.mem_map.mp hb
        have hx' := List.mem_range.mp hx
        exact hframe s b (by omega) (by omega)
    _ = G s' := h2

/-- Locality for the triple `(cidx,row,column)` loop nest shared by the
per-activation host routines. -/
theorem tripleLoop_locality {σ α : Type} (body : ℕ → ℕ → ℕ → σ → σ) (obs : σ → α)
    (G : σ → α) (channels height width cidx row column : ℕ)
    (hc : cidx < channels) (hr : row < height) (hw : column < width)
    (hframe : ∀ c r w s, c < channels → r < height → w < width →
      ¬(c = cidx ∧ r = row ∧ w = column) → obs (body c r w s) = obs s)
    (hstep : ∀ s s', obs s = obs s' → obs (body cidx row column s) = G s') :
    ∀ s s', obs s = obs s' →
      obs ((List.range channels).foldl (fun s1 c =>
        (List.range height).foldl (fun s2 r =>
          (List.range width).foldl (fun s3 w => body c r w s3) s2) s1) s) = G s' := by
  refine foldl_range_locality _ obs G channels cidx hc ?_ ?_
  · intro s c hcn hne
    refine foldl_obs_const _ obs _ (fun s2 r hrm => ?_) s
    have hr' := List.mem_range.mp hrm
    refine foldl_obs_const _ obs _ (fun s3 w hwm => ?_) s2
    have hw' := List.mem_range.mp hwm
    exact hframe c r w s3 hcn hr' hw' (fun hand => hne hand.1)
  · intro s s' hss
    refine foldl_range_locality _ obs G height row hr ?_ ?_ s s' hss
    · intro s2 r hrn hne
      refine foldl_obs_const _ obs _ (fun s3 w hwm => ?_) s2
      have hw' := List.mem_range.mp hwm
      exact hframe cidx r w s3 hc hrn hw' (fun hand => hne hand.2.1)
    · intro s2 s2' hss2
      refine foldl_range_locality _ obs G width column hw ?_ ?_ s2 s2' hss2
      · intro s3 w hwn hne
        exact hframe cidx row w s3 hc hr hwn (fun hand => hne hand.2.2)
      · exact hstep

/-- A write-only or read-modify-write loop leaves untouched locations alone. -/
theorem foldl_rmw_frame {β : Type} (l : List β) (idx : β → ℕ) (val : β → ℝ → ℝ)
    (o : ℕ → ℝ) (j : ℕ) (h : ∀ b ∈ l, idx b ≠ j) :
    (l.foldl (fun o b => updW o (idx b) (val b (o (idx b)))) o) j = o j := by
  induction l generalizing o with
  | nil => rfl
  | cons a t ih =>
    rw [List.foldl_cons, ih _ (fun b hb => h b (List.mem_cons_of_mem a hb))]
    exact updW_ne _ _ _ _ (Ne.symm (h a (List.mem_cons_self a t)))

/-- In a loop writing `buf[idx b] = val b (buf[idx b])` over `b < n` with
injective addressing, the final value at `idx i` is the single write made at
step `i`, applied to the original content. -/
theorem foldl_rmw_range_eval (n : ℕ) (idx : ℕ → ℕ) (val : ℕ → ℝ → ℝ) (o : ℕ → ℝ)
    (i : ℕ) (hi : i < n) (hinj : ∀ j, j < n → idx j = idx i → j = i) :
    ((List.range n).foldl (fun o b => updW o (idx b) (val b (o (idx b)))) o) (idx i)
      = val i (o (idx i)) := by
  rw [range_split n i hi, List.foldl_append, List.foldl_cons]
  have h1 : ((List.range i).foldl (fun o b => updW o (idx b) (val b (o (idx b)))) o) (idx i)
      = o (idx i) := by
    refine foldl_rmw_frame _ idx val o (idx i) (fun b hb => ?_)
    have hb' := List.mem_range.mp hb
    exact fun he => absurd (hinj b (by omega) he) (by omega)
  rw [foldl_rmw_frame _ idx val _ (idx i) (fun b hb => ?_)]
  · rw [updW_same, h1]
  · obtain ⟨x, hx, hxe⟩ := List.mem_map.mp hb
    have hx' := List.mem_range.mp hx
    exact fun he => absurd (hinj b (by omega) he) (by omega)

/-- Pure additive accumulation over `List.range n` is a `Finset` sum. -/
theorem foldl_add_range (n : ℕ) (g : ℕ → ℝ) (a : ℝ) :
    (List.range n).foldl (fun acc b => acc + g b) a = a + ∑ b ∈ Finset.range n, g b := by
  induction n with
  | zero => simp
  | succ m ih =>
    rw [List.range_succ, List.foldl_append, ih, List.foldl_cons, List.foldl_nil,
      Finset.sum_range_succ, add_assoc]

/-- A fold whose step acts componentwise on a pair is the pair of folds. -/
theorem foldl_prod_split {α β γ : Type} (step : α × β → γ → α × β) (F : α → γ → α)
    (G : β → γ → β) (l : List γ) (h : ∀ p b, b ∈ l → step p b = (F p.1 b, G p.2 b)) :
    ∀ p, l.foldl step p = (l.foldl F p.1, l.foldl G p.2) := by
  induction l with
  | nil => intro p; rfl
  | cons a t ih =>
    intro p
    rw [List.foldl_cons, h p a (List.mem_cons_self a t),
      ih (fun p b hb => h p b (List.mem_cons_of_mem a hb)), List.foldl_cons, List.foldl_cons]

/-- Morphism lemma for folds: a projection commuting with each step commutes
with the whole fold. -/
theorem foldl_hom_mem {σ τ β : Type} (π : σ → τ) (f : σ → β → σ) (g : τ → β → τ)
    (l : List β) (h : ∀ s b, b ∈ l → π (f s b) = g (π s) b) :
    ∀ s, π (l.foldl f s) = l.foldl g (π s) := by
  induction l with
  | nil => intro s; rfl
  | cons a t ih =>
    intro s
    rw [List.foldl_cons, ih (fun s b hb => h s b (List.mem_cons_of_mem a hb)),
      h s a (List.mem_cons_self a t), List.foldl_cons]

/-- Two folds with pointwise equal steps agree. -/
theorem foldl_congr_mem {σ β : Type} (f g : σ → β → σ) (l : List β)
    (h : ∀ s b, b ∈ l → f s b = g s b) : ∀ s, l.foldl f s = l.foldl g s := by
  induction l with
  | nil => intro s; rfl
  | cons a t ih =>
    intro s
    rw [List.foldl_cons, List.foldl_cons, h s a (List.mem_cons_self a t),
      ih (fun s b hb => h s b (List.mem_cons_of_mem a hb))]

/-- Unique decomposition of a strided index: `s*b + r` with `r < s` determines
`b` and `r`. -/
theorem stride_decomp {s b b' r r' : ℕ} (hr : r < s) (hr' : r' < s)
    (h : s*b + r = s*b' + r') : b = b' ∧ r = r' := by
  have h1 : (s*b + r) % s = (s*b' + r') % s := by rw [h]
  rw [Nat.mul_add_mod, Nat.mul_add_mod, Nat.mod_eq_of_lt hr, Nat.mod_eq_of_lt hr'] at h1
  subst h1
  have hs : 0 < s := by omega
  exact ⟨Nat.eq_of_mul_eq_mul_left hs (Nat.add_right_cancel h), rfl⟩

/-- The image offset `width*row + column` lies below `height*width`. -/
theorem imgIndex_lt {height width row column : ℕ} (hr : row < height) (hw : column < width) :
    width*row + column < height*width := by
  calc width*row + column < width*row + width := by omega
    _ = width*(row+1) := by ring
    _ ≤ width*height := Nat.mul_le_mul_left width hr
    _ = height*width := Nat.mul_comm width height

/-- The flat per-activation index lies below the batch stride. -/
theorem adjIndex_lt {channels height width cidx row column : ℕ}
    (hc : cidx < channels) (hr : row < height) (hw : column < width) :
    height*width*cidx + (width*row + column) < channels*height*width := by
  calc height*width*cidx + (width*row + column)
      < height*width*cidx + height*width := by
        have := imgIndex_lt hr hw; omega
    _ = height*width*(cidx+1) := by ring
    _ ≤ height*width*channels := Nat.mul_le_mul_left _ hc
    _ = channels*height*width := by ring

/-- Distinct `(cidx,row,column)` triples (within bounds) give distinct flat
per-activation indices. -/
theorem adjIndex_ne {height width c r w c' r' w' : ℕ}
    (hr : r < height) (hw : w < width) (hr' : r' < height) (hw' : w' < width)
    (hne : ¬(c = c' ∧ r = r' ∧ w = w')) :
    height*width*c + (width*r + w) ≠ height*width*c' + (width*r' + w') := by
  intro h
  obtain ⟨hcc, himg⟩ := stride_decomp (imgIndex_lt hr hw) (imgIndex_lt hr' hw') h
  obtain ⟨hrr, hww⟩ := stride_decomp hw hw' himg
  exact hne ⟨hcc, hrr, hww⟩

/-! ## Data model and embedded operations -/

/-- The accumulation loop `for(bidx) mean_accum += in_ptr[in_nstride*bidx + adjIndex]`
shared by the per-activation training forward, the estimate-free per-activation
inference forward, and the recomputing per-activation backward. -/
noncomputable def meanAccum (n_batchs in_nstride adjIndex : ℕ) (in_ptr : ℕ → ℝ) : ℝ :=
  (List.range n_batchs).foldl (fun acc bidx => acc + in_ptr (in_nstride*bidx + adjIndex)) 0

/-- The second pass `for(bidx){ elemStd = in_ptr[idx] - mean; variance_accum += elemStd*elemStd }`
using the pass-1 mean. -/
noncomputable def varianceAccum (n_batchs in_nstride adjIndex : ℕ) (in_ptr : ℕ → ℝ) (mean : ℝ) : ℝ :=
  (List.range n_batchs).foldl
    (fun acc bidx =>
      acc + (in_ptr (in_nstride*bidx + adjIndex) - mean) * (in_ptr (in_nstride*bidx + adjIndex) - mean)) 0

/-- Pass 1 of `miopenBNFwdTrainSpatialRunHost`: the guarded triple accumulation
`for(row) for(column) if(imgIndex < in_cstride) for(bidx) mean_accum += in_ptr[index]`. -/
noncomputable def spatialMeanAccum (n_batchs channels height width cidx : ℕ) (in_ptr : ℕ → ℝ) : ℝ :=
  (List.range height).foldl (fun a row =>
    (List.range width).foldl (fun a column =>
      if width*row + column < height*width then
        (List.range n_batchs).foldl
          (fun a bidx =>
            a + in_ptr (channels*height*width*bidx + (height*width*cidx + (width*row + column)))) a
      else a) a) 0

/-- The same accumulation loop without the (always-true) image-bound guard, as
written in `miopenBNFwdInferSpatialRunHost` and `miopenBNBwdSpatialRunHost`. -/
noncomputable def spatialMeanAccumNoGuard (n_batchs channels height width cidx : ℕ)
    (x : ℕ → ℝ) : ℝ :=
  (List.range height).foldl (fun a row =>
    (List.range width).foldl (fun a column =>
      (List.range n_batchs).foldl
        (fun a bidx =>
          a + x (channels*height*width*bidx + (height*width*cidx + (width*row + column)))) a) a) 0

/-- The plain spatial second pass of `miopenBNBwdSpatialRunHost` (recomputing
branch): sum of squared deviations from the pass-1 mean. -/
noncomputable def spatialVarAccumNoGuard (n_batchs channels height width cidx : ℕ)
    (x : ℕ → ℝ) (mean : ℝ) : ℝ :=
  (List.range height).foldl (fun a row =>
    (List.range width).foldl (fun a column =>
      (List.range n_batchs).foldl (fun a bidx =>
        a + (x (channels*height*width*bidx + (height*width*cidx + (width*row + column))) - mean) *
          (x (channels*height*width*bidx + (height*width*cidx + (width*row + column))) - mean)) a) a) 0

/-- The caller-owned buffers touched by a training forward call. -/
structure BNState where
  out : ℕ → ℝ
  saveMean : ℕ → ℝ
  saveInvVariance : ℕ → ℝ
  runningMean : ℕ → ℝ
  runningVariance : ℕ → ℝ

/-- Body of the `(cidx,row,column)` loop of `miopenBNFwdTrainPerActivationRunHost`. -/
noncomputable def fwdTrainPerActGroup (n_batchs in_nstride adjIndex : ℕ)
    (in_ptr scale_ptr bias_ptr : ℕ → ℝ) (epsilon : ℝ)
    (savemeanvar runningmeanvar : Bool) (expAvgFactor : ℝ) (s : BNState) : BNState :=
  let mean_accum := meanAccum n_batchs in_nstride adjIndex in_ptr / (n_batchs : ℝ)
  let saveMean1 := if savemeanvar then updW s.saveMean adjIndex mean_accum else s.saveMean
  let runningMean1 := if runningmeanvar then
      updW s.runningMean adjIndex
        (mean_accum * expAvgFactor + s.runningMean adjIndex * (1 - expAvgFactor))
    else s.runningMean
  let variance_accum := varianceAccum n_batchs in_nstride adjIndex in_ptr mean_accum / (n_batchs : ℝ)
  let runningVariance1 := if runningmeanvar then
      updW s.runningVariance adjIndex
        (expAvgFactor * s.runningVariance adjIndex +
          (1 - expAvgFactor) *
            (if n_batchs = 1 then variance_accum
             else (n_batchs : ℝ) / ((n_batchs : ℝ) - 1) * variance_accum))
    else s.runningVariance
  let elemInvVar := 1 / Real.sqrt (variance_accum + epsilon)
  let saveInvVariance1 :=
    if savemeanvar then updW s.saveInvVariance adjIndex elemInvVar else s.saveInvVariance
  let out1 := (List.range n_batchs).foldl
      (fun o bidx =>
        updW o (in_nstride*bidx + adjIndex)
          (scale_ptr adjIndex * ((in_ptr (in_nstride*bidx + adjIndex) - mean_accum) * elemInvVar)
            + bias_ptr adjIndex)) s.out
  { out := out1, saveMean := saveMean1, saveInvVariance := saveInvVariance1,
    runningMean := runningMean1, runningVariance := runningVariance1 }

/-- Shallow embedding of `miopenBNFwdTrainPerActivationRunHost`. -/
noncomputable def miopenBNFwdTrainPerActivationRunHost (n_batchs channels height width : ℕ)
    (in_ptr scale_ptr bias_ptr : ℕ → ℝ) (epsilon : ℝ) (savemeanvar runningmeanvar : Bool)
    (expAvgFactor : ℝ) (s : BNState) : BNState :=
  (List.range channels).foldl (fun s1 cidx =>
    (List.range height).foldl (fun s2 row =>
      (List.range width).foldl (fun s3 column =>
        fwdTrainPerActGroup n_batchs (channels*height*width)
          (height*width*cidx + (width*row + column)) in_ptr scale_ptr bias_ptr epsilon
          savemeanvar runningmeanvar expAvgFactor s3) s2) s1) s

/-- Per-channel body of `miopenBNFwdTrainSpatialRunHost`
(the compiled `MIO_HEIRARCH_SEL == 0` variant).  Pass 2 stages `x - mean` in
the output buffer as a scratchpad while accumulating the variance; pass 4
reads it back. -/
noncomputable def fwdTrainSpatialChannel (n_batchs channels height width cidx : ℕ)
    (in_ptr scale_ptr bias_ptr : ℕ → ℝ) (epsilon : ℝ)
    (savemeanvar runningmeanvar : Bool) (expAvgFactor : ℝ) (s : BNState) : BNState :=
  let in_nstride := channels*height*width
  let in_cstride := height*width
  let NHW : ℝ := ((in_cstride*n_batchs : ℕ) : ℝ)
  let mean_accum := spatialMeanAccum n_batchs channels height width cidx in_ptr / NHW
  let saveMean1 := if savemeanvar then updW s.saveMean cidx mean_accum else s.saveMean
  let runningMean1 := if runningmeanvar then
      updW s.runningMean cidx
        (mean_accum * expAvgFactor + s.runningMean cidx * (1 - expAvgFactor))
    else s.runningMean
  let p2 := (List.range height).foldl (fun p row =>
      (List.range width).foldl (fun p column =>
        if width*row + column < in_cstride then
          (List.range n_batchs).foldl (fun p bidx =>
            let index := in_nstride*bidx + (in_cstride*cidx + (width*row + column))
            let elemStd := in_ptr index - mean_accum
            (updW p.1 index elemStd, p.2 + elemStd*elemStd)) p
        else p) p) (s.out, (0:ℝ))
  let variance_accum := p2.2 / NHW
  let runningVariance1 := if runningmeanvar then
      updW s.runningVariance cidx
        (expAvgFactor * s.runningVariance cidx +
          (1 - expAvgFactor) *
            (if n_batchs*in_cstride = 1 then variance_accum else NHW/(NHW - 1) * variance_accum))
    else s.runningVariance
  let invertVar := 1 / Real.sqrt (variance_accum + epsilon)
  let saveInvVariance1 :=
    if savemeanvar then updW s.saveInvVariance cidx invertVar else s.saveInvVariance
  let out1 := (List.range height).foldl (fun o row =>
      (List.range width).foldl (fun o column =>
        if width*row + column < in_cstride then
          (List.range n_batchs).foldl (fun o bidx =>
            let index := in_nstride*bidx + (in_cstride*cidx + (width*row + column))
            updW o index (scale_ptr cidx * (invertVar * o index) + bias_ptr cidx)) o
        else o) o) p2.1
  { out := out1, saveMean := saveMean1, saveInvVariance := saveInvVariance1,
    runningMean := runningMean1, runningVariance := runningVariance1 }

/-- Shallow embedding of `miopenBNFwdTrainSpatialRunHost`. -/
noncomputable def miopenBNFwdTrainSpatialRunHost (n_batchs channels height width : ℕ)
    (in_ptr scale_ptr bias_ptr : ℕ → ℝ) (epsilon : ℝ) (savemeanvar runningmeanvar : Bool)
    (expAvgFactor : ℝ) (s : BNState) : BNState :=
  (List.range channels).foldl (fun s1 cidx =>
    fwdTrainSpatialChannel n_batchs channels height width cidx in_ptr scale_ptr bias_ptr
      epsilon savemeanvar runningmeanvar expAvgFactor s1) s

/-- `(cidx,row,column)` body of the `estmeanvar` branch of
`miopenBNFwdInferPerActivationRunHost`. -/
noncomputable def fwdInferPerActEstGroup (n_batchs in_nstride adjIndex : ℕ)
    (in_ptr scale_ptr bias_ptr estimatedMean estimatedVariance : ℕ → ℝ) (epsilon : ℝ)
    (out : ℕ → ℝ) : ℕ → ℝ :=
  let mean := estimatedMean adjIndex
  let variance := estimatedVariance adjIndex
  let elemInvVar := 1 / Real.sqrt (variance + epsilon)
  (List.range n_batchs).foldl (fun o bidx =>
    updW o (in_nstride*bidx + adjIndex)
      (scale_ptr adjIndex * ((in_ptr (in_nstride*bidx + adjIndex) - mean) * elemInvVar)
        + bias_ptr adjIndex)) out

/-- `(cidx,row,column)` body of the estimate-free branch of
`miopenBNFwdInferPerActivationRunHost` (statistics computed on the fly). -/
noncomputable def fwdInferPerActNoEstGroup (n_batchs in_nstride adjIndex : ℕ)
    (in_ptr scale_ptr bias_ptr : ℕ → ℝ) (epsilon : ℝ) (out : ℕ → ℝ) : ℕ → ℝ :=
  let mean_accum := meanAccum n_batchs in_nstride adjIndex in_ptr / (n_batchs : ℝ)
  let variance_accum :=
    varianceAccum n_batchs in_nstride adjIndex in_ptr mean_accum / (n_batchs : ℝ)
  let elemInvVar := 1 / Real.sqrt (variance_accum + epsilon)
  (List.range n_batchs).foldl (fun o bidx =>
    updW o (in_nstride*bidx + adjIndex)
      (scale_ptr adjIndex * ((in_ptr (in_nstride*bidx + adjIndex) - mean_accum) * elemInvVar)
        + bias_ptr adjIndex)) out

/-- Shallow embedding of `miopenBNFwdInferPerActivationRunHost`. -/
noncomputable def miopenBNFwdInferPerActivationRunHost (n_batchs channels height width : ℕ)
    (in_ptr scale_ptr bias_ptr : ℕ → ℝ) (epsilon : ℝ) (estmeanvar : Bool)
    (estimatedMean estimatedVariance : ℕ → ℝ) (out : ℕ → ℝ) : ℕ → ℝ :=
  if estmeanvar then
    (List.range channels).foldl (fun o1 cidx =>
      (List.range height).foldl (fun o2 row =>
        (List.range width).foldl (fun o3 column =>
          fwdInferPerActEstGroup n_batchs (channels*height*width)
            (height*width*cidx + (width*row + column)) in_ptr scale_ptr bias_ptr
            estimatedMean estimatedVariance epsilon o3) o2) o1) out
  else
    (List.range channels).foldl (fun o1 cidx =>
      (List.range height).foldl (fun o2 row =>
        (List.range width).foldl (fun o3 column =>
          fwdInferPerActNoEstGroup n_batchs (channels*height*width)
            (height*width*cidx + (width*row + column)) in_ptr scale_ptr bias_ptr epsilon
            o3) o2) o1) out

/-- Per-channel body of the `estmeanvar` branch of `miopenBNFwdInferSpatialRunHost`. -/
noncomputable def fwdInferSpatialEstChannel (n_batchs channels height width cidx : ℕ)
    (in_ptr scale_ptr bias_ptr estimatedMean estimatedVariance : ℕ → ℝ) (epsilon : ℝ)
    (out : ℕ → ℝ) : ℕ → ℝ :=
  let in_nstride := channels*height*width
  let in_cstride := height*width
  let mean := estimatedMean cidx
  let variance := estimatedVariance cidx
  let invertVar := 1 / Real.sqrt (variance + epsilon)
  (List.range height).foldl (fun o row =>
    (List.range width).foldl (fun o column =>
      (List.range n_batchs).foldl (fun o bidx =>
        let index := in_nstride*bidx + (in_cstride*cidx + (width*row + column))
        updW o index (scale_ptr cidx * ((in_ptr index - mean) * invertVar) + bias_ptr cidx))
        o) o) out

/-- Per-channel body of the estimate-free branch of
`miopenBNFwdInferSpatialRunHost`; like training it stages `x - mean` in the
output buffer between pass 2 and pass 4. -/
noncomputable def fwdInferSpatialNoEstChannel (n_batchs channels height width cidx : ℕ)
    (in_ptr scale_ptr bias_ptr : ℕ → ℝ) (epsilon : ℝ) (out : ℕ → ℝ) : ℕ → ℝ :=
  let in_nstride := channels*height*width
  let in_cstride := height*width
  let mean_accum :=
    spatialMeanAccumNoGuard n_batchs channels height width cidx in_ptr
      / ((in_cstride*n_batchs : ℕ) : ℝ)
  let p2 := (List.range height).foldl (fun p row =>
      (List.range width).foldl (fun p column =>
        (List.range n_batchs).foldl (fun p bidx =>
          let index := in_nstride*bidx + (in_cstride*cidx + (width*row + column))
          let elemStd := in_ptr index - mean_accum
          (updW p.1 index elemStd, p.2 + elemStd*elemStd)) p) p) (out, (0:ℝ))
  let variance_accum := p2.2 / ((in_cstride*n_batchs : ℕ) : ℝ)
  let invertVar := 1 / Real.sqrt (variance_accum + epsilon)
  (List.range height).foldl (fun o row =>
    (List.range width).foldl (fun o column =>
      (List.range n_batchs).foldl (fun o bidx =>
        let index := in_nstride*bidx + (in_cstride*cidx + (width*row + column))
        let elemStd := o index
        updW o index (scale_ptr cidx * (elemStd * invertVar) + bias_ptr cidx)) o) o) p2.1

/-- Shallow embedding of `miopenBNFwdInferSpatialRunHost`. -/
noncomputable def miopenBNFwdInferSpatialRunHost (n_batchs channels height width : ℕ)
    (in_ptr scale_ptr bias_ptr : ℕ → ℝ) (epsilon : ℝ) (estmeanvar : Bool)
    (estimatedMean estimatedVariance : ℕ → ℝ) (out : ℕ → ℝ) : ℕ → ℝ :=
  if estmeanvar then
    (List.range channels).foldl (fun o cidx =>
      fwdInferSpatialEstChannel n_batchs channels height width cidx in_ptr scale_ptr
        bias_ptr estimatedMean estimatedVariance epsilon o) out
  else
    (List.range channels).foldl (fun o cidx =>
      fwdInferSpatialNoEstChannel n_batchs channels height width cidx in_ptr scale_ptr
        bias_ptr epsilon o) out

/-- The caller-owned buffers touched by a backward call. -/
structure BwdState where
  dx : ℕ → ℝ
  dscale : ℕ → ℝ
  dbias : ℕ → ℝ

/-- `(cidx,row,column)` body of the saved-statistics branch of
`miopenBNBwdPerActivationRunHost`.  The second state component is the shared
`xhat` scratch vector (`std::vector<double> xhat(n_batchs*in_cstride)`),
indexed by `in_cstride*bidx + imgIndex`.  The in-memory increments of
`dbias_ptr[adjIndex]` and `dscale_ptr[adjIndex]` are threaded as accumulators
seeded with the buffers' current contents and stored back after the loop. -/
noncomputable def bwdPerActSavedGroup (n_batchs in_nstride in_cstride adjIndex imgIndex : ℕ)
    (x_ptr dy_ptr scale_ptr savedMean savedInvVariance : ℕ → ℝ)
    (sx : BwdState × (ℕ → ℝ)) : BwdState × (ℕ → ℝ) :=
  let s := sx.1
  let mean := savedMean adjIndex
  let elemInvVar := savedInvVariance adjIndex
  let p1 := (List.range n_batchs).foldl (fun p bidx =>
      let index := in_nstride*bidx + adjIndex
      let xhat_index := in_cstride*bidx + imgIndex
      let elemStd := x_ptr index - mean
      let xh := elemStd * elemInvVar
      let dyelem := dy_ptr index
      let tmp1 := scale_ptr adjIndex * dyelem
      (updW p.1 xhat_index xh, p.2.1 + dyelem, p.2.2.1 + xh*dyelem, p.2.2.2.1 + tmp1,
        p.2.2.2.2 + tmp1*xh))
    (sx.2, s.dbias adjIndex, s.dscale adjIndex, (0:ℝ), (0:ℝ))
  let xhat := p1.1
  let dbias1 := updW s.dbias adjIndex p1.2.1
  let dscale1 := updW s.dscale adjIndex (p1.2.2.1 / (n_batchs : ℝ))
  let dxhat := p1.2.2.2.1
  let dxhathat := p1.2.2.2.2
  let dx1 := (List.range n_batchs).foldl (fun o bidx =>
      let index := in_nstride*bidx + adjIndex
      let xhat_index := in_cstride*bidx + imgIndex
      let tmp1 := xhat xhat_index * dxhathat + dxhat
      let tmp2 := (n_batchs : ℝ)*dxhat - tmp1
      let tmp3 := elemInvVar / (n_batchs : ℝ)
      updW o index (tmp3*tmp2)) s.dx
  ({ dx := dx1, dscale := dscale1, dbias := dbias1 }, xhat)

/-- `(cidx,row,column)` body of the recomputing branch of
`miopenBNBwdPerActivationRunHost`: the group statistics are recomputed with
the same two-pass loops before the gradient passes run. -/
noncomputable def bwdPerActRecompGroup (n_batchs in_nstride in_cstride adjIndex imgIndex : ℕ)
    (x_ptr dy_ptr scale_ptr : ℕ → ℝ) (epsilon : ℝ)
    (sx : BwdState × (ℕ → ℝ)) : BwdState × (ℕ → ℝ) :=
  let s := sx.1
  let mean := meanAccum n_batchs in_nstride adjIndex x_ptr / (n_batchs : ℝ)
  let variance := varianceAccum n_batchs in_nstride adjIndex x_ptr mean / (n_batchs : ℝ)
  let elemInvVar := 1 / Real.sqrt (variance + epsilon)
  let p1 := (List.range n_batchs).foldl (fun p bidx =>
      let index := in_nstride*bidx + adjIndex
      let xhat_index := in_cstride*bidx + imgIndex
      let elemStd := x_ptr index - mean
      let xh := elemStd * elemInvVar
      let dyelem := dy_ptr index
      let tmp1 := scale_ptr adjIndex * dyelem
      (updW p.1 xhat_index xh, p.2.1 + dyelem, p.2.2.1 + xh*dyelem, p.2.2.2.1 + tmp1,
        p.2.2.2.2 + tmp1*xh))
    (sx.2, s.dbias adjIndex, s.dscale adjIndex, (0:ℝ), (0:ℝ))
  let xhat := p1.1
  let dbias1 := updW s.dbias adjIndex p1.2.1
  let dscale1 := updW s.dscale adjIndex (p1.2.2.1 / (n_batchs : ℝ))
  let dxhat := p1.2.2.2.1
  let dxhathat := p1.2.2.2.2
  let dx1 := (List.range n_batchs).foldl (fun o bidx =>
      let index := in_nstride*bidx + adjIndex
      let xhat_index := in_cstride*bidx + imgIndex
      let tmp1 := xhat xhat_index * dxhathat + dxhat
      let tmp2 := (n_batchs : ℝ)*dxhat - tmp1
      let tmp3 := elemInvVar / (n_batchs : ℝ)
      updW o index (tmp3*tmp2)) s.dx
  ({ dx := dx1, dscale := dscale1, dbias := dbias1 }, xhat)

/-- Shallow embedding of `miopenBNBwdPerActivationRunHost`. -/
noncomputable def miopenBNBwdPerActivationRunHost (n_batchs channels height width : ℕ)
    (x_ptr dy_ptr scale_ptr : ℕ → ℝ) (epsilon : ℝ) (savedmeanvar : Bool)
    (savedMean savedInvVariance : ℕ → ℝ) (s : BwdState) : BwdState :=
  (if savedmeanvar then
    (List.range channels).foldl (fun t1 cidx =>
      (List.range height).foldl (fun t2 row =>
        (List.range width).foldl (fun t3 column =>
          bwdPerActSavedGroup n_batchs (channels*height*width) (height*width)
            (height*width*cidx + (width*row + column)) (width*row + column)
            x_ptr dy_ptr scale_ptr savedMean savedInvVariance t3) t2) t1)
      (s, fun _ => 0)
  else
    (List.range channels).foldl (fun t1 cidx =>
      (List.range height).foldl (fun t2 row =>
        (List.range width).foldl (fun t3 column =>
          bwdPerActRecompGroup n_batchs (channels*height*width) (height*width)
            (height*width*cidx + (width*row + column)) (width*row + column)
            x_ptr dy_ptr scale_ptr epsilon t3) t2) t1)
      (s, fun _ => 0)).1

/-- Per-channel body of the saved-statistics branch of
`miopenBNBwdSpatialRunHost`: pass 1 accumulates `dbias` and `dscale` over the
whole channel, `dscale` is divided by `NHW`, and pass 2 writes `dx` reading
the updated `dbias`/`dscale` buffers. -/
noncomputable def bwdSpatialSavedChannel (n_batchs channels height width cidx : ℕ)
    (x_ptr dy_ptr scale_ptr savedMean savedInvVariance : ℕ → ℝ) (s : BwdState) : BwdState :=
  let in_nstride := channels*height*width
  let in_cstride := height*width
  let NHW : ℝ := ((n_batchs*in_cstride : ℕ) : ℝ)
  let mean := savedMean cidx
  let invVar := savedInvVariance cidx
  let p1 := (List.range height).foldl (fun p row =>
      (List.range width).foldl (fun p column =>
        (List.range n_batchs).foldl (fun p bidx =>
          let index := in_nstride*bidx + (in_cstride*cidx + (width*row + column))
          let elemStd := x_ptr index - mean
          let dyelem := dy_ptr index
          (p.1 + dyelem, p.2 + elemStd*invVar*dyelem)) p) p)
      (s.dbias cidx, s.dscale cidx)
  let dbias1 := updW s.dbias cidx p1.1
  let dscale1 := updW s.dscale cidx (p1.2 / NHW)
  let dx1 := (List.range height).foldl (fun o row =>
      (List.range width).foldl (fun o column =>
        (List.range n_batchs).foldl (fun o bidx =>
          let index := in_nstride*bidx + (in_cstride*cidx + (width*row + column))
          let elemStd := x_ptr index - mean
          let tmp1 := NHW*dy_ptr index - dbias1 cidx
          let tmp2 := -(elemStd*invVar)*dscale1 cidx
          let tmp3 := scale_ptr cidx*invVar/NHW
          updW o index (tmp3*(tmp2+tmp1))) o) o) s.dx
  { dx := dx1, dscale := dscale1, dbias := dbias1 }

/-- Per-channel body of the recomputing branch of `miopenBNBwdSpatialRunHost`
(the compiled `MIO_HEIRARCH_SEL == 0` variant): statistics are recomputed,
`dscale_ptr[cidx]` and `dbias_ptr[cidx]` are zeroed, pass 1 caches `xhat`,
and pass 2 writes `dx`. -/
noncomputable def bwdSpatialRecompChannel (n_batchs channels height width cidx : ℕ)
    (x_ptr dy_ptr scale_ptr : ℕ → ℝ) (epsilon : ℝ)
    (sx : BwdState × (ℕ → ℝ)) : BwdState × (ℕ → ℝ) :=
  let s := sx.1
  let in_nstride := channels*height*width
  let in_cstride := height*width
  let NHW : ℝ := ((n_batchs*in_cstride : ℕ) : ℝ)
  let mean := spatialMeanAccumNoGuard n_batchs channels height width cidx x_ptr / NHW
  let variance := spatialVarAccumNoGuard n_batchs channels height width cidx x_ptr mean / NHW
  let invVar := 1 / Real.sqrt (variance + epsilon)
  let dscale0 := updW s.dscale cidx 0
  let dbias0 := updW s.dbias cidx 0
  let p1 := (List.range height).foldl (fun p row =>
      (List.range width).foldl (fun p column =>
        (List.range n_batchs).foldl (fun p bidx =>
          let index := in_nstride*bidx + (in_cstride*cidx + (width*row + column))
          let xhat_index := in_cstride*bidx + (width*row + column)
          let elemStd := x_ptr index - mean
          let xh := elemStd*invVar
          let dyelem := dy_ptr index
          (updW p.1 xhat_index xh, p.2.1 + dyelem, p.2.2 + xh*dyelem)) p) p)
      (sx.2, dbias0 cidx, dscale0 cidx)
  let xhat := p1.1
  let dbias1 := updW dbias0 cidx p1.2.1
  let dscale1 := updW dscale0 cidx (p1.2.2 / NHW)
  let dx1 := (List.range height).foldl (fun o row =>
      (List.range width).foldl (fun o column =>
        (List.range n_batchs).foldl (fun o bidx =>
          let index := in_nstride*bidx + (in_cstride*cidx + (width*row + column))
          let xhat_index := in_cstride*bidx + (width*row + column)
          let tmp1 := NHW*dy_ptr index - dbias1 cidx
          let tmp2 := -(xhat xhat_index)*dscale1 cidx
          let tmp3 := scale_ptr cidx*invVar/NHW
          updW o index (tmp3*(tmp2+tmp1))) o) o) s.dx
  ({ dx := dx1, dscale := dscale1, dbias := dbias1 }, xhat)

/-- Shallow embedding of `miopenBNBwdSpatialRunHost`. -/
noncomputable def miopenBNBwdSpatialRunHost (n_batchs channels height width : ℕ)
    (x_ptr dy_ptr scale_ptr : ℕ → ℝ) (epsilon : ℝ) (savedmeanvar : Bool)
    (savedMean savedInvVariance : ℕ → ℝ) (s : BwdState) : BwdState :=
  if savedmeanvar then
    (List.range channels).foldl (fun t cidx =>
      bwdSpatialSavedChannel n_batchs channels height width cidx x_ptr dy_ptr scale_ptr
        savedMean savedInvVariance t) s
  else
    ((List.range channels).foldl (fun t cidx =>
      bwdSpatialRecompChannel n_batchs channels height width cidx x_ptr dy_ptr scale_ptr
        epsilon t) (s, fun _ => 0)).1

/-- Shallow embedding of the HIP device function `bn_fwd_infer_per_activation`,
run over the whole launch grid: the grid-stride loop structure visits every
`(grpid, img_offset)` pair with `grpid < gridDim.x` and `img_offset <
imageDims` exactly once; `rsqrt(fabs(variance + epsilon))` becomes
`1 / Real.sqrt |variance + epsilon|`, and `fma(a,b,c)` is `a*b + c`. -/
noncomputable def bn_fwd_infer_per_activation (batchSize imageDims batchStride numGroups : ℕ)
    (in_ptr estimatedMean estimatedVariance scale bias : ℕ → ℝ) (epsilon : ℝ)
    (out : ℕ → ℝ) : ℕ → ℝ :=
  (List.range numGroups).foldl (fun o1 grpid =>
    (List.range imageDims).foldl (fun o2 img_offset =>
      let adjIndex := grpid*imageDims + img_offset
      let mean := estimatedMean adjIndex
      let variance := estimatedVariance adjIndex
      let invVariance := 1 / Real.sqrt |variance + epsilon|
      (List.range batchSize).foldl (fun o n =>
        let index := batchStride*n + adjIndex
        let inhat := (in_ptr index - mean) * invVariance
        updW o index (scale adjIndex * inhat + bias adjIndex)) o2) o1) out

/-! ## Per-group evaluation of the per-activation training forward -/

theorem fwdTrainPerActGroup_saveMean (n_batchs in_nstride adjIndex : ℕ)
    (in_ptr scale_ptr bias_ptr : ℕ → ℝ) (epsilon : ℝ) (savemeanvar runningmeanvar : Bool)
    (expAvgFactor : ℝ) (s : BNState) :
    (fwdTrainPerActGroup n_batchs in_nstride adjIndex in_ptr scale_ptr bias_ptr epsilon
        savemeanvar runningmeanvar expAvgFactor s).saveMean
      = if savemeanvar
        then updW s.saveMean adjIndex
          (meanAccum n_batchs in_nstride adjIndex in_ptr / (n_batchs : ℝ))
        else s.saveMean := rfl

theorem fwdTrainPerActGroup_runningMean (n_batchs in_nstride adjIndex : ℕ)
    (in_ptr scale_ptr bias_ptr : ℕ → ℝ) (epsilon : ℝ) (savemeanvar runningmeanvar : Bool)
    (expAvgFactor : ℝ) (s : BNState) :
    (fwdTrainPerActGroup n_batchs in_nstride adjIndex in_ptr scale_ptr bias_ptr epsilon
        savemeanvar runningmeanvar expAvgFactor s).runningMean
      = if runningmeanvar
        then updW s.runningMean adjIndex
          (meanAccum n_batchs in_nstride adjIndex in_ptr / (n_batchs : ℝ) * expAvgFactor
            + s.runningMean adjIndex * (1 - expAvgFactor))
        else s.runningMean := rfl

theorem fwdTrainPerActGroup_runningVariance (n_batchs in_nstride adjIndex : ℕ)
    (in_ptr scale_ptr bias_ptr : ℕ → ℝ) (epsilon : ℝ) (savemeanvar runningmeanvar : Bool)
    (expAvgFactor : ℝ) (s : BNState) :
    (fwdTrainPerActGroup n_batchs in_nstride adjIndex in_ptr scale_ptr bias_ptr epsilon
        savemeanvar runningmeanvar expAvgFactor s).runningVariance
      = if runningmeanvar
        then updW s.runningVariance adjIndex
          (expAvgFactor * s.runningVariance adjIndex +
            (1 - expAvgFactor) *
              (if n_batchs = 1
               then varianceAccum n_batchs in_nstride adjIndex in_ptr
                  (meanAccum n_batchs in_nstride adjIndex in_ptr / (n_batchs : ℝ)) / (n_batchs : ℝ)
               else (n_batchs : ℝ) / ((n_batchs : ℝ) - 1) *
                  (varianceAccum n_batchs in_nstride adjIndex in_ptr
                    (meanAccum n_batchs in_nstride adjIndex in_ptr / (n_batchs : ℝ)) / (n_batchs : ℝ))))
        else s.runningVariance := rfl

theorem fwdTrainPerActGroup_saveInvVariance (n_batchs in_nstride adjIndex : ℕ)
    (in_ptr scale_ptr bias_ptr : ℕ → ℝ) (epsilon : ℝ) (savemeanvar runningmeanvar : Bool)
    (expAvgFactor : ℝ) (s : BNState) :
    (fwdTrainPerActGroup n_batchs in_nstride adjIndex in_ptr scale_ptr bias_ptr epsilon
        savemeanvar runningmeanvar expAvgFactor s).saveInvVariance
      = if savemeanvar
        then updW s.saveInvVariance adjIndex
          (1 / Real.sqrt (varianceAccum n_batchs in_nstride adjIndex in_ptr
              (meanAccum n_batchs in_nstride adjIndex in_ptr / (n_batchs : ℝ)) / (n_batchs : ℝ)
            + epsilon))
        else s.saveInvVariance := rfl

theorem fwdTrainPerActGroup_out_frame (n_batchs in_nstride adjIndex : ℕ)
    (in_ptr scale_ptr bias_ptr : ℕ → ℝ) (epsilon : ℝ) (savemeanvar runningmeanvar : Bool)
    (expAvgFactor : ℝ) (s : BNState) (j : ℕ)
    (hj : ∀ b, b < n_batchs → in_nstride*b + adjIndex ≠ j) :
    (fwdTrainPerActGroup n_batchs in_nstride adjIndex in_ptr scale_ptr bias_ptr epsilon
        savemeanvar runningmeanvar expAvgFactor s).out j = s.out j := by
  refine foldl_rmw_frame (List.range n_batchs) (fun b => in_nstride*b + adjIndex)
    (fun b _ => scale_ptr adjIndex *
      ((in_ptr (in_nstride*b + adjIndex) -
        meanAccum n_batchs in_nstride adjIndex in_ptr / (n_batchs : ℝ)) *
        (1 / Real.sqrt (varianceAccum n_batchs in_nstride adjIndex in_ptr
          (meanAccum n_batchs in_nstride adjIndex in_ptr / (n_batchs : ℝ)) / (n_batchs : ℝ)
          + epsilon))) + bias_ptr adjIndex)
    s.out j (fun b hb => hj b (List.mem_range.mp hb))

theorem fwdTrainPerActGroup_out_eval (n_batchs in_nstride adjIndex : ℕ)
    (in_ptr scale_ptr bias_ptr : ℕ → ℝ) (epsilon : ℝ) (savemeanvar runningmeanvar : Bool)
    (expAvgFactor : ℝ) (s : BNState) (bidx : ℕ) (hb : bidx < n_batchs)
    (hadj : adjIndex < in_nstride) :
    (fwdTrainPerActGroup n_batchs in_nstride adjIndex in_ptr scale_ptr bias_ptr epsilon
        savemeanvar runningmeanvar expAvgFactor s).out (in_nstride*bidx + adjIndex)
      = scale_ptr adjIndex *
          ((in_ptr (in_nstride*bidx + adjIndex) -
            meanAccum n_batchs in_nstride adjIndex in_ptr / (n_batchs : ℝ)) *
            (1 / Real.sqrt (varianceAccum n_batchs in_nstride adjIndex in_ptr
              (meanAccum n_batchs in_nstride adjIndex in_ptr / (n_batchs : ℝ)) / (n_batchs : ℝ)
              + epsilon))) + bias_ptr adjIndex := by
  refine foldl_rmw_range_eval n_batchs (fun b => in_nstride*b + adjIndex)
    (fun b _ => scale_ptr adjIndex *
      ((in_ptr (in_nstride*b + adjIndex) -
        meanAccum n_batchs in_nstride adjIndex in_ptr / (n_batchs : ℝ)) *
        (1 / Real.sqrt (varianceAccum n_batchs in_nstride adjIndex in_ptr
          (meanAccum n_batchs in_nstride adjIndex in_ptr / (n_batchs : ℝ)) / (n_batchs : ℝ)
          + epsilon))) + bias_ptr adjIndex)
    s.out bidx hb (fun j hjn hje => ?_)
  exact (stride_decomp hadj hadj hje).1


theorem fwdTrainPerAct_saveMean_eq (n_batchs channels height width : ℕ)
    (in_ptr scale_ptr bias_ptr : ℕ → ℝ) (epsilon : ℝ) (savemeanvar runningmeanvar : Bool)
    (expAvgFactor : ℝ) (s : BNState) (cidx row column : ℕ)
    (hc : cidx < channels) (hr : row < height) (hw : column < width) :
    (miopenBNFwdTrainPerActivationRunHost n_batchs channels height width in_ptr scale_ptr
        bias_ptr epsilon savemeanvar runningmeanvar expAvgFactor s).saveMean
        (height*width*cidx + (width*row + column))
      = if savemeanvar
        then meanAccum n_batchs (channels*height*width)
            (height*width*cidx + (width*row + column)) in_ptr / (n_batchs : ℝ)
        else s.saveMean (height*width*cidx + (width*row + column)) := by
  refine tripleLoop_locality
    (fun c r w t => fwdTrainPerActGroup n_batchs (channels*height*width)
      (height*width*c + (width*r + w)) in_ptr scale_ptr bias_ptr epsilon
      savemeanvar runningmeanvar expAvgFactor t)
    (fun t => t.saveMean (height*width*cidx + (width*row + column)))
    (fun t => if savemeanvar
      then meanAccum n_batchs (channels*height*width)
          (height*width*cidx + (width*row + column)) in_ptr / (n_batchs : ℝ)
      else t.saveMean (height*width*cidx + (width*row + column)))
    channels height width cidx row column hc hr hw ?_ ?_ s s rfl
  · intro c r w t hcb hrb hwb hne
    have hadj := adjIndex_ne hrb hwb hr hw hne
    simp only [fwdTrainPerActGroup_saveMean]
    cases savemeanvar
    · rfl
    · simp [updW, Ne.symm hadj]
  · intro t t' htt
    have htt' : t.saveMean (height*width*cidx + (width*row + column))
        = t'.saveMean (height*width*cidx + (width*row + column)) := htt
    simp only [fwdTrainPerActGroup_saveMean]
    cases savemeanvar
    · exact htt'
    · simp [updW]

theorem fwdTrainPerAct_saveInvVariance_eq (n_batchs channels height width : ℕ)
    (in_ptr scale_ptr bias_ptr : ℕ → ℝ) (epsilon : ℝ) (savemeanvar runningmeanvar : Bool)
    (expAvgFactor : ℝ) (s : BNState) (cidx row column : ℕ)
    (hc : cidx < channels) (hr : row < height) (hw : column < width) :
    (miopenBNFwdTrainPerActivationRunHost n_batchs channels height width in_ptr scale_ptr
        bias_ptr epsilon savemeanvar runningmeanvar expAvgFactor s).saveInvVariance
        (height*width*cidx + (width*row + column))
      = if savemeanvar
        then 1 / Real.sqrt (varianceAccum n_batchs (channels*height*width)
            (height*width*cidx + (width*row + column)) in_ptr
            (meanAccum n_batchs (channels*height*width)
              (height*width*cidx + (width*row + column)) in_ptr / (n_batchs : ℝ))
            / (n_batchs : ℝ) + epsilon)
        else s.saveInvVariance (height*width*cidx + (width*row + column)) := by
  refine tripleLoop_locality
    (fun c r w t => fwdTrainPerActGroup n_batchs (channels*height*width)
      (height*width*c + (width*r + w)) in_ptr scale_ptr bias_ptr epsilon
      savemeanvar runningmeanvar expAvgFactor t)
    (fun t => t.saveInvVariance (height*width*cidx + (width*row + column)))
    (fun t => if savemeanvar
      then 1 / Real.sqrt (varianceAccum n_batchs (channels*height*width)
          (height*width*cidx + (width*row + column)) in_ptr
          (meanAccum n_batchs (channels*height*width)
            (height*width*cidx + (width*row + column)) in_ptr / (n_batchs : ℝ))
          / (n_batchs : ℝ) + epsilon)
      else t.saveInvVariance (height*width*cidx + (width*row + column)))
    channels height width cidx row column hc hr hw ?_ ?_ s s rfl
  · intro c r w t hcb hrb hwb hne
    have hadj := adjIndex_ne hrb hwb hr hw hne
    simp only [fwdTrainPerActGroup_saveInvVariance]
    cases savemeanvar
    · rfl
    · simp [updW, Ne.symm hadj]
  · intro t t' htt
    have htt' : t.saveInvVariance (height*width*cidx + (width*row + column))
        = t'.saveInvVariance (height*width*cidx + (width*row + column)) := htt
    simp only [fwdTrainPerActGroup_saveInvVariance]
    cases savemeanvar
    · exact htt'
    · simp [updW]

theorem fwdTrainPerAct_runningMean_eq (n_batchs channels height width : ℕ)
    (in_ptr scale_ptr bias_ptr : ℕ → ℝ) (epsilon : ℝ) (savemeanvar runningmeanvar : Bool)
    (expAvgFactor : ℝ) (s : BNState) (cidx row column : ℕ)
    (hc : cidx < channels) (hr : row < height) (hw : column < width) :
    (miopenBNFwdTrainPerActivationRunHost n_batchs channels height width in_ptr scale_ptr
        bias_ptr epsilon savemeanvar runningmeanvar expAvgFactor s).runningMean
        (height*width*cidx + (width*row + column))
      = if runningmeanvar
        then meanAccum n_batchs (channels*height*width)
            (height*width*cidx + (width*row + column)) in_ptr / (n_batchs : ℝ) * expAvgFactor
          + s.runningMean (height*width*cidx + (width*row + column)) * (1 - expAvgFactor)
        else s.runningMean (height*width*cidx + (width*row + column)) := by
  refine tripleLoop_locality
    (fun c r w t => fwdTrainPerActGroup n_batchs (channels*height*width)
      (height*width*c + (width*r + w)) in_ptr scale_ptr bias_ptr epsilon
      savemeanvar runningmeanvar expAvgFactor t)
    (fun t => t.runningMean (height*width*cidx + (width*row + column)))
    (fun t => if runningmeanvar
      then meanAccum n_batchs (channels*height*width)
          (height*width*cidx + (width*row + column)) in_ptr / (n_batchs : ℝ) * expAvgFactor
        + t.runningMean (height*width*cidx + (width*row + column)) * (1 - expAvgFactor)
      else t.runningMean (height*width*cidx + (width*row + column)))
    channels height width cidx row column hc hr hw ?_ ?_ s s rfl
  · intro c r w t hcb hrb hwb hne
    have hadj := adjIndex_ne hrb hwb hr hw hne
    simp only [fwdTrainPerActGroup_runningMean]
    cases runningmeanvar
    · rfl
    · simp [updW, Ne.symm hadj]
  · intro t t' htt
    have htt' : t.runningMean (height*width*cidx + (width*row + column))
        = t'.runningMean (height*width*cidx + (width*row + column)) := htt
    simp only [fwdTrainPerActGroup_runningMean]
    cases runningmeanvar
    · exact htt'
    · simp [updW, htt']

theorem fwdTrainPerAct_runningVariance_eq (n_batchs channels height width : ℕ)
    (in_ptr scale_ptr bias_ptr : ℕ → ℝ) (epsilon : ℝ) (savemeanvar runningmeanvar : Bool)
    (expAvgFactor : ℝ) (s : BNState) (cidx row column : ℕ)
    (hc : cidx < channels) (hr : row < height) (hw : column < width) :
    (miopenBNFwdTrainPerActivationRunHost n_batchs channels height width in_ptr scale_ptr
        bias_ptr epsilon savemeanvar runningmeanvar expAvgFactor s).runningVariance
        (height*width*cidx + (width*row + column))
      = if runningmeanvar
        then expAvgFactor * s.runningVariance (height*width*cidx + (width*row + column)) +
          (1 - expAvgFactor) *
            (if n_batchs = 1
             then varianceAccum n_batchs (channels*height*width)
                (height*width*cidx + (width*row + column)) in_ptr
                (meanAccum n_batchs (channels*height*width)
                  (height*width*cidx + (width*row + column)) in_ptr / (n_batchs : ℝ))
                / (n_batchs : ℝ)
             else (n_batchs : ℝ) / ((n_batchs : ℝ) - 1) *
                (varianceAccum n_batchs (channels*height*width)
                  (height*width*cidx + (width*row + column)) in_ptr
                  (meanAccum n_batchs (channels*height*width)
                    (height*width*cidx + (width*row + column)) in_ptr / (n_batchs : ℝ))
                  / (n_batchs : ℝ)))
        else s.runningVariance (height*width*cidx + (width*row + column)) := by
  refine tripleLoop_locality
    (fun c r w t => fwdTrainPerActGroup n_batchs (channels*height*width)
      (height*width*c + (width*r + w)) in_ptr scale_ptr bias_ptr epsilon
      savemeanvar runningmeanvar expAvgFactor t)
    (fun t => t.runningVariance (height*width*cidx + (width*row + column)))
    (fun t => if runningmeanvar
      then expAvgFactor * t.runningVariance (height*width*cidx + (width*row + column)) +
        (1 - expAvgFactor) *
          (if n_batchs = 1
           then varianceAccum n_batchs (channels*height*width)
              (height*width*cidx + (width*row + column)) in_ptr
              (meanAccum n_batchs (channels*height*width)
                (height*width*cidx + (width*row + column)) in_ptr / (n_batchs : ℝ))
              / (n_batchs : ℝ)
           else (n_batchs : ℝ) / ((n_batchs : ℝ) - 1) *
              (varianceAccum n_batchs (channels*height*width)
                (height*width*cidx + (width*row + column)) in_ptr
                (meanAccum n_batchs (channels*height*width)
                  (height*width*cidx + (width*row + column)) in_ptr / (n_batchs : ℝ))
                / (n_batchs : ℝ)))
      else t.runningVariance (height*width*cidx + (width*row + column)))
    channels height width cidx row column hc hr hw ?_ ?_ s s rfl
  · intro c r w t hcb hrb hwb hne
    have hadj := adjIndex_ne hrb hwb hr hw hne
    simp only [fwdTrainPerActGroup_runningVariance]
    cases runningmeanvar
    · rfl
    · simp [updW, Ne.symm hadj]
  · intro t t' htt
    have htt' : t.runningVariance (height*width*cidx + (width*row + column))
        = t'.runningVariance (height*width*cidx + (width*row + column)) := htt
    simp only [fwdTrainPerActGroup_runningVariance]
    cases runningmeanvar
    · exact htt'
    · simp [updW, htt']

theorem fwdTrainPerAct_out_eq (n_batchs channels height width : ℕ)
    (in_ptr scale_ptr bias_ptr : ℕ → ℝ) (epsilon : ℝ) (savemeanvar runningmeanvar : Bool)
    (expAvgFactor : ℝ) (s : BNState) (cidx row column bidx : ℕ)
    (hc : cidx < channels) (hr : row < height) (hw : column < width) (hb : bidx < n_batchs) :
    (miopenBNFwdTrainPerActivationRunHost n_batchs channels height width in_ptr scale_ptr
        bias_ptr epsilon savemeanvar runningmeanvar expAvgFactor s).out
        (channels*height*width*bidx + (height*width*cidx + (width*row + column)))
      = scale_ptr (height*width*cidx + (width*row + column)) *
          ((in_ptr (channels*height*width*bidx + (height*width*cidx + (width*row + column))) -
            meanAccum n_batchs (channels*height*width)
              (height*width*cidx + (width*row + column)) in_ptr / (n_batchs : ℝ)) *
            (1 / Real.sqrt (varianceAccum n_batchs (channels*height*width)
              (height*width*cidx + (width*row + column)) in_ptr
              (meanAccum n_batchs (channels*height*width)
                (height*width*cidx + (width*row + column)) in_ptr / (n_batchs : ℝ))
              / (n_batchs : ℝ) + epsilon)))
        + bias_ptr (height*width*cidx + (width*row + column)) := by
  refine tripleLoop_locality
    (fun c r w t => fwdTrainPerActGroup n_batchs (channels*height*width)
      (height*width*c + (width*r + w)) in_ptr scale_ptr bias_ptr epsilon
      savemeanvar runningmeanvar expAvgFactor t)
    (fun t => t.out
      (channels*height*width*bidx + (height*width*cidx + (width*row + column))))
    (fun _ => scale_ptr (height*width*cidx + (width*row + column)) *
      ((in_ptr (channels*height*width*bidx + (height*width*cidx + (width*row + column))) -
        meanAccum n_batchs (channels*height*width)
          (height*width*cidx + (width*row + column)) in_ptr / (n_batchs : ℝ)) *
        (1 / Real.sqrt (varianceAccum n_batchs (channels*height*width)
          (height*width*cidx + (width*row + column)) in_ptr
          (meanAccum n_batchs (channels*height*width)
            (height*width*cidx + (width*row + column)) in_ptr / (n_batchs : ℝ))
          / (n_batchs : ℝ) + epsilon)))
      + bias_ptr (height*width*cidx + (width*row + column)))
    channels height width cidx row column hc hr hw ?_ ?_ s s rfl
  · intro c r w t hcb hrb hwb hne
    refine fwdTrainPerActGroup_out_frame _ _ _ _ _ _ _ _ _ _ t _ (fun b hbn => ?_)
    intro he
    have h1 := stride_decomp (adjIndex_lt hcb hrb hwb) (adjIndex_lt hc hr hw) he
    exact adjIndex_ne hrb hwb hr hw hne h1.2
  · intro t t' htt
    exact fwdTrainPerActGroup_out_eval _ _ _ _ _ _ _ _ _ _ t bidx hb
      (adjIndex_lt hc hr hw)

/-! ## Generic lemmas for the spatial triple loops -/

/-- The image-bound guard `imgIndex < in_cstride` inside the spatial loops is
always true, so it can be dropped. -/
theorem foldl_guard_true {σ : Type} (height width : ℕ) (inner : ℕ → ℕ → σ → σ) :
    ∀ s, (List.range height).foldl (fun s row => (List.range width).foldl (fun s column =>
          if width*row + column < height*width then inner row column s else s) s) s
      = (List.range height).foldl (fun s row => (List.range width).foldl (fun s column =>
          inner row column s) s) s := by
  intro s
  refine foldl_congr_mem _ _ _ (fun s r hr => ?_) s
  refine foldl_congr_mem _ _ _ (fun s w hw => ?_) s
  rw [if_pos (imgIndex_lt (List.mem_range.mp hr) (List.mem_range.mp hw))]

/-- Double additive accumulation is a double sum. -/
theorem foldl_add_range2 (height width : ℕ) (g : ℕ → ℕ → ℝ) (a : ℝ) :
    (List.range height).foldl (fun a r => (List.range width).foldl (fun a w => a + g r w) a) a
      = a + ∑ r ∈ Finset.range height, ∑ w ∈ Finset.range width, g r w := by
  rw [foldl_congr_mem _ (fun a r => a + ∑ w ∈ Finset.range width, g r w) _
    (fun a r _ => foldl_add_range width (g r) a) a]
  exact foldl_add_range height _ a

/-- Triple additive accumulation is a triple sum. -/
theorem foldl_add_range3 (height width n : ℕ) (g : ℕ → ℕ → ℕ → ℝ) (a : ℝ) :
    (List.range height).foldl (fun a r => (List.range width).foldl (fun a w =>
        (List.range n).foldl (fun a b => a + g r w b) a) a) a
      = a + ∑ r ∈ Finset.range height, ∑ w ∈ Finset.range width,
          ∑ b ∈ Finset.range n, g r w b := by
  rw [foldl_congr_mem _
    (fun a r => (List.range width).foldl (fun a w => a + ∑ b ∈ Finset.range n, g r w b) a) _
    (fun a r _ => foldl_congr_mem _ _ _ (fun a w _ => foldl_add_range n (g r w) a) a) a]
  exact foldl_add_range2 height width _ a

/-- Frame property of a triple-nested read-modify-write loop. -/
theorem foldl_rmw_triple_frame (height width n : ℕ) (idx : ℕ → ℕ → ℕ → ℕ)
    (val : ℕ → ℕ → ℕ → ℝ → ℝ) (o : ℕ → ℝ) (j : ℕ)
    (h : ∀ r w b, r < height → w < width → b < n → idx r w b ≠ j) :
    ((List.range height).foldl (fun o r => (List.range width).foldl (fun o w =>
        (List.range n).foldl (fun o b => updW o (idx r w b) (val r w b (o (idx r w b)))) o) o) o) j
      = o j := by
  refine foldl_obs_const _ (fun o : ℕ → ℝ => o j) _ (fun o r hr => ?_) o
  refine foldl_obs_const _ (fun o : ℕ → ℝ => o j) _ (fun o w hw => ?_) o
  exact foldl_rmw_frame _ _ _ o j (fun b hb =>
    h r w b (List.mem_range.mp hr) (List.mem_range.mp hw) (List.mem_range.mp hb))

/-- Evaluation of a triple-nested read-modify-write loop with injective
addressing: the location `idx r0 w0 b0` is written exactly once, from its
original content. -/
theorem foldl_rmw_triple_eval (height width n : ℕ) (idx : ℕ → ℕ → ℕ → ℕ)
    (val : ℕ → ℕ → ℕ → ℝ → ℝ) (r0 w0 b0 : ℕ)
    (hr : r0 < height) (hw : w0 < width) (hb : b0 < n)
    (hinj : ∀ r w b, r < height → w < width → b < n →
      idx r w b = idx r0 w0 b0 → r = r0 ∧ w = w0 ∧ b = b0) :
    ∀ o : ℕ → ℝ,
      ((List.range height).foldl (fun o r => (List.range width).foldl (fun o w =>
        (List.range n).foldl (fun o b => updW o (idx r w b) (val r w b (o (idx r w b)))) o) o) o)
        (idx r0 w0 b0)
      = val r0 w0 b0 (o (idx r0 w0 b0)) := by
  intro o
  refine foldl_range_locality _ (fun o : ℕ → ℝ => o (idx r0 w0 b0))
    (fun o : ℕ → ℝ => val r0 w0 b0 (o (idx r0 w0 b0))) height r0 hr ?_ ?_ o o rfl
  · intro o r hrn hne
    refine foldl_obs_const _ (fun o : ℕ → ℝ => o (idx r0 w0 b0)) _ (fun o w hwm => ?_) o
    refine foldl_rmw_frame _ _ _ o _ (fun b hbm => fun he => ?_)
    exact hne (hinj r w b hrn (List.mem_range.mp hwm) (List.mem_range.mp hbm) he).1
  · intro o o' hoo
    refine foldl_range_locality _ (fun o : ℕ → ℝ => o (idx r0 w0 b0))
      (fun o : ℕ → ℝ => val r0 w0 b0 (o (idx r0 w0 b0))) width w0 hw ?_ ?_ o o' hoo
    · intro o w hwn hne
      refine foldl_rmw_frame _ _ _ o _ (fun b hbm => fun he => ?_)
      exact hne (hinj r0 w b hr hwn (List.mem_range.mp hbm) he).2.1
    · intro o o' hoo
      refine foldl_range_locality _ (fun o : ℕ → ℝ => o (idx r0 w0 b0))
        (fun o : ℕ → ℝ => val r0 w0 b0 (o (idx r0 w0 b0))) n b0 hb ?_ ?_ o o' hoo
      · intro o b hbn hne
        refine updW_ne _ _ _ _ (fun he => ?_)
        exact hne (hinj r0 w0 b hr hw hbn he.symm).2.2
      · intro o o' hoo
        have hoo' : o (idx r0 w0 b0) = o' (idx r0 w0 b0) := hoo
        show updW o (idx r0 w0 b0) (val r0 w0 b0 (o (idx r0 w0 b0))) (idx r0 w0 b0)
            = val r0 w0 b0 (o' (idx r0 w0 b0))
        rw [updW_same, hoo']

/-- Distinct channels give disjoint spatial element indices. -/
theorem spatialIndex_ne {channels height width : ℕ} {c c' r w b r' w' b' : ℕ}
    (hc : c < channels) (hr : r < height) (hw : w < width) (hc' : c' < channels)
    (hr' : r' < height) (hw' : w' < width) (hne : c ≠ c') :
    channels*height*width*b + (height*width*c + (width*r + w))
      ≠ channels*height*width*b' + (height*width*c' + (width*r' + w')) := by
  intro h
  obtain ⟨hb, hadj⟩ := stride_decomp (adjIndex_lt hc hr hw) (adjIndex_lt hc' hr' hw') h
  exact hne (stride_decomp (imgIndex_lt hr hw) (imgIndex_lt hr' hw') hadj).1

/-- Within one channel the spatial element index determines `(row,column,bidx)`. -/
theorem spatialIndex_inj {channels height width cidx : ℕ} {r w b r' w' b' : ℕ}
    (hc : cidx < channels) (hr : r < height) (hw : w < width)
    (hr' : r' < height) (hw' : w' < width)
    (h : channels*height*width*b + (height*width*cidx + (width*r + w))
       = channels*height*width*b' + (height*width*cidx + (width*r' + w'))) :
    r = r' ∧ w = w' ∧ b = b' := by
  obtain ⟨hb, hadj⟩ := stride_decomp (adjIndex_lt hc hr hw) (adjIndex_lt hc hr' hw') h
  have himg : width*r + w = width*r' + w' := Nat.add_left_cancel hadj
  obtain ⟨hrr, hww⟩ := stride_decomp hw hw' himg
  exact ⟨hrr, hww, hb⟩

/-- Closed form of the guarded spatial pass-1 accumulator. -/
theorem spatialMeanAccum_eq_sum (n_batchs channels height width cidx : ℕ) (in_ptr : ℕ → ℝ) :
    spatialMeanAccum n_batchs channels height width cidx in_ptr
      = ∑ r ∈ Finset.range height, ∑ w ∈ Finset.range width, ∑ b ∈ Finset.range n_batchs,
          in_ptr (channels*height*width*b + (height*width*cidx + (width*r + w))) := by
  rw [spatialMeanAccum, foldl_guard_true height width
    (fun row column (a : ℝ) => (List.range n_batchs).foldl
      (fun a bidx =>
        a + in_ptr (channels*height*width*bidx + (height*width*cidx + (width*row + column)))) a),
    foldl_add_range3, zero_add]

/-- Closed form of the unguarded spatial pass-1 accumulator. -/
theorem spatialMeanAccumNoGuard_eq_sum (n_batchs channels height width cidx : ℕ) (x : ℕ → ℝ) :
    spatialMeanAccumNoGuard n_batchs channels height width cidx x
      = ∑ r ∈ Finset.range height, ∑ w ∈ Finset.range width, ∑ b ∈ Finset.range n_batchs,
          x (channels*height*width*b + (height*width*cidx + (width*r + w))) := by
  rw [spatialMeanAccumNoGuard, foldl_add_range3, zero_add]

/-- Closed form of the unguarded spatial sum of squared deviations. -/
theorem spatialVarAccumNoGuard_eq_sum (n_batchs channels height width cidx : ℕ)
    (x : ℕ → ℝ) (mean : ℝ) :
    spatialVarAccumNoGuard n_batchs channels height width cidx x mean
      = ∑ r ∈ Finset.range height, ∑ w ∈ Finset.range width, ∑ b ∈ Finset.range n_batchs,
          (x (channels*height*width*b + (height*width*cidx + (width*r + w))) - mean) *
          (x (channels*height*width*b + (height*width*cidx + (width*r + w))) - mean) := by
  rw [spatialVarAccumNoGuard, foldl_add_range3, zero_add]


/-- Pass 2 of the spatial training forward splits into its scratchpad writes
and the variance accumulation. -/
theorem fwdTrainSpatialChannel_p2 (n_batchs channels height width cidx : ℕ)
    (in_ptr : ℕ → ℝ) (mean_accum : ℝ) (out : ℕ → ℝ) :
    ((List.range height).foldl (fun p row =>
      (List.range width).foldl (fun p column =>
        if width*row + column < height*width then
          (List.range n_batchs).foldl (fun p bidx =>
        (updW p.1 (channels*height*width*bidx + (height*width*cidx + (width*row + column)))
           (in_ptr (channels*height*width*bidx + (height*width*cidx + (width*row + column))) - mean_accum),
         p.2 + (in_ptr (channels*height*width*bidx + (height*width*cidx + (width*row + column))) - mean_accum) * (in_ptr (channels*height*width*bidx + (height*width*cidx + (width*row + column))) - mean_accum))) p
        else p) p) (out, (0:ℝ)) : (ℕ → ℝ) × ℝ)
      = ((List.range height).foldl (fun o row =>
          (List.range width).foldl (fun o column =>
            (List.range n_batchs).foldl (fun o bidx =>
        updW o (channels*height*width*bidx + (height*width*cidx + (width*row + column)))
          (in_ptr (channels*height*width*bidx + (height*width*cidx + (width*row + column))) - mean_accum)) o) o) out,
         spatialVarAccumNoGuard n_batchs channels height width cidx in_ptr mean_accum) := by
  have hbatch : ∀ (row column : ℕ) (p : (ℕ → ℝ) × ℝ),
      (List.range n_batchs).foldl (fun p bidx =>
        (updW p.1 (channels*height*width*bidx + (height*width*cidx + (width*row + column)))
           (in_ptr (channels*height*width*bidx + (height*width*cidx + (width*row + column))) - mean_accum),
         p.2 + (in_ptr (channels*height*width*bidx + (height*width*cidx + (width*row + column))) - mean_accum) * (in_ptr (channels*height*width*bidx + (height*width*cidx + (width*row + column))) - mean_accum))) p
      = ((List.range n_batchs).foldl (fun o bidx =>
        updW o (channels*height*width*bidx + (height*width*cidx + (width*row + column)))
          (in_ptr (channels*height*width*bidx + (height*width*cidx + (width*row + column))) - mean_accum)) p.1,
         (List.range n_batchs).foldl (fun a bidx =>
        a + (in_ptr (channels*height*width*bidx + (height*width*cidx + (width*row + column))) - mean_accum) * (in_ptr (channels*height*width*bidx + (height*width*cidx + (width*row + column))) - mean_accum)) p.2) :=
    fun row column p => foldl_prod_split (fun p bidx =>
        (updW p.1 (channels*height*width*bidx + (height*width*cidx + (width*row + column)))
           (in_ptr (channels*height*width*bidx + (height*width*cidx + (width*row + column))) - mean_accum),
         p.2 + (in_ptr (channels*height*width*bidx + (height*width*cidx + (width*row + column))) - mean_accum) * (in_ptr (channels*height*width*bidx + (height*width*cidx + (width*row + column))) - mean_accum))) (fun o bidx =>
        updW o (channels*height*width*bidx + (height*width*cidx + (width*row + column)))
          (in_ptr (channels*height*width*bidx + (height*width*cidx + (width*row + column))) - mean_accum)) (fun a bidx =>
        a + (in_ptr (channels*height*width*bidx + (height*width*cidx + (width*row + column))) - mean_accum) * (in_ptr (channels*height*width*bidx + (height*width*cidx + (width*row + column))) - mean_accum))
      (List.range n_batchs) (fun p b _ => rfl) p
  have hcol : ∀ (row : ℕ) (p : (ℕ → ℝ) × ℝ),
      (List.range width).foldl (fun p column =>
        (List.range n_batchs).foldl (fun p bidx =>
        (updW p.1 (channels*height*width*bidx + (height*width*cidx + (width*row + column)))
           (in_ptr (channels*height*width*bidx + (height*width*cidx + (width*row + column))) - mean_accum),
         p.2 + (in_ptr (channels*height*width*bidx + (height*width*cidx + (width*row + column))) - mean_accum) * (in_ptr (channels*height*width*bidx + (height*width*cidx + (width*row + column))) - mean_accum))) p) p
      = ((List.range width).foldl (fun o column =>
            (List.range n_batchs).foldl (fun o bidx =>
        updW o (channels*height*width*bidx + (height*width*cidx + (width*row + column)))
          (in_ptr (channels*height*width*bidx + (height*width*cidx + (width*row + column))) - mean_accum)) o) p.1,
         (List.range width).foldl (fun a column =>
            (List.range n_batchs).foldl (fun a bidx =>
        a + (in_ptr (channels*height*width*bidx + (height*width*cidx + (width*row + column))) - mean_accum) * (in_ptr (channels*height*width*bidx + (height*width*cidx + (width*row + column))) - mean_accum)) a) p.2) :=
    fun row p => foldl_prod_split
      (fun p column => (List.range n_batchs).foldl (fun p bidx =>
        (updW p.1 (channels*height*width*bidx + (height*width*cidx + (width*row + column)))
           (in_ptr (channels*height*width*bidx + (height*width*cidx + (width*row + column))) - mean_accum),
         p.2 + (in_ptr (channels*height*width*bidx + (height*width*cidx + (width*row + column))) - mean_accum) * (in_ptr (channels*height*width*bidx + (height*width*cidx + (width*row + column))) - mean_accum))) p)
      (fun o column => (List.range n_batchs).foldl (fun o bidx =>
        updW o (channels*height*width*bidx + (height*width*cidx + (width*row + column)))
          (in_ptr (channels*height*width*bidx + (height*width*cidx + (width*row + column))) - mean_accum)) o)
      (fun a column => (List.range n_batchs).foldl (fun a bidx =>
        a + (in_ptr (channels*height*width*bidx + (height*width*cidx + (width*row + column))) - mean_accum) * (in_ptr (channels*height*width*bidx + (height*width*cidx + (width*row + column))) - mean_accum)) a)
      (List.range width) (fun p w _ => hbatch row w p) p
  rw [foldl_guard_true height width (fun row column (p : (ℕ → ℝ) × ℝ) =>
    (List.range n_batchs).foldl (fun p bidx =>
        (updW p.1 (channels*height*width*bidx + (height*width*cidx + (width*row + column)))
           (in_ptr (channels*height*width*bidx + (height*width*cidx + (width*row + column))) - mean_accum),
         p.2 + (in_ptr (channels*height*width*bidx + (height*width*cidx + (width*row + column))) - mean_accum) * (in_ptr (channels*height*width*bidx + (height*width*cidx + (width*row + column))) - mean_accum))) p)]
  rw [foldl_prod_split
    (fun p row => (List.range width).foldl (fun p column =>
      (List.range n_batchs).foldl (fun p bidx =>
        (updW p.1 (channels*height*width*bidx + (height*width*cidx + (width*row + column)))
           (in_ptr (channels*height*width*bidx + (height*width*cidx + (width*row + column))) - mean_accum),
         p.2 + (in_ptr (channels*height*width*bidx + (height*width*cidx + (width*row + column))) - mean_accum) * (in_ptr (channels*height*width*bidx + (height*width*cidx + (width*row + column))) - mean_accum))) p) p)
    (fun o row => (List.range width).foldl (fun o column =>
      (List.range n_batchs).foldl (fun o bidx =>
        updW o (channels*height*width*bidx + (height*width*cidx + (width*row + column)))
          (in_ptr (channels*height*width*bidx + (height*width*cidx + (width*row + column))) - mean_accum)) o) o)
    (fun a row => (List.range width).foldl (fun a column =>
      (List.range n_batchs).foldl (fun a bidx =>
        a + (in_ptr (channels*height*width*bidx + (height*width*cidx + (width*row + column))) - mean_accum) * (in_ptr (channels*height*width*bidx + (height*width*cidx + (width*row + column))) - mean_accum)) a) a)
    (List.range height) (fun p r _ => hcol r p) (out, (0:ℝ))]
  rfl

theorem fwdTrainSpatial_saveMean_eq (n_batchs channels height width : ℕ)
    (in_ptr scale_ptr bias_ptr : ℕ → ℝ) (epsilon : ℝ) (savemeanvar runningmeanvar : Bool)
    (expAvgFactor : ℝ) (s : BNState) (cidx : ℕ) (hc : cidx < channels) :
    (miopenBNFwdTrainSpatialRunHost n_batchs channels height width in_ptr scale_ptr bias_ptr
        epsilon savemeanvar runningmeanvar expAvgFactor s).saveMean cidx
      = if savemeanvar
        then spatialMeanAccum n_batchs channels height width cidx in_ptr
            / ((height*width*n_batchs : ℕ) : ℝ)
        else s.saveMean cidx := by
  refine foldl_range_locality
    (fun t c => fwdTrainSpatialChannel n_batchs channels height width c in_ptr scale_ptr
      bias_ptr epsilon savemeanvar runningmeanvar expAvgFactor t)
    (fun t => t.saveMean cidx)
    (fun t => if savemeanvar
      then spatialMeanAccum n_batchs channels height width cidx in_ptr
          / ((height*width*n_batchs : ℕ) : ℝ)
      else t.saveMean cidx)
    channels cidx hc ?_ ?_ s s rfl
  · intro t c hcn hne
    simp only [fwdTrainSpatialChannel]
    cases savemeanvar
    · rfl
    · exact updW_ne _ _ _ _ (Ne.symm hne)
  · intro t t' htt
    have htt' : t.saveMean cidx = t'.saveMean cidx := htt
    simp only [fwdTrainSpatialChannel]
    cases savemeanvar
    · exact htt'
    · simp [updW]

theorem fwdTrainSpatial_runningMean_eq (n_batchs channels height width : ℕ)
    (in_ptr scale_ptr bias_ptr : ℕ → ℝ) (epsilon : ℝ) (savemeanvar runningmeanvar : Bool)
    (expAvgFactor : ℝ) (s : BNState) (cidx : ℕ) (hc : cidx < channels) :
    (miopenBNFwdTrainSpatialRunHost n_batchs channels height width in_ptr scale_ptr bias_ptr
        epsilon savemeanvar runningmeanvar expAvgFactor s).runningMean cidx
      = if runningmeanvar
        then spatialMeanAccum n_batchs channels height width cidx in_ptr / ((height*width*n_batchs : ℕ) : ℝ) * expAvgFactor + s.runningMean cidx * (1 - expAvgFactor)
        else s.runningMean cidx := by
  refine foldl_range_locality
    (fun t c => fwdTrainSpatialChannel n_batchs channels height width c in_ptr scale_ptr
      bias_ptr epsilon savemeanvar runningmeanvar expAvgFactor t)
    (fun t => t.runningMean cidx)
    (fun t => if runningmeanvar
      then spatialMeanAccum n_batchs channels height width cidx in_ptr / ((height*width*n_batchs : ℕ) : ℝ) * expAvgFactor + t.runningMean cidx * (1 - expAvgFactor)
      else t.runningMean cidx)
    channels cidx hc ?_ ?_ s s rfl
  · intro t c hcn hne
    simp only [fwdTrainSpatialChannel]
    cases runningmeanvar
    · rfl
    · exact updW_ne _ _ _ _ (Ne.symm hne)
  · intro t t' htt
    have htt' : t.runningMean cidx = t'.runningMean cidx := htt
    simp only [fwdTrainSpatialChannel]
    cases runningmeanvar
    · exact htt'
    · simp [updW, htt']

theorem fwdTrainSpatial_runningVariance_eq (n_batchs channels height width : ℕ)
    (in_ptr scale_ptr bias_ptr : ℕ → ℝ) (epsilon : ℝ) (savemeanvar runningmeanvar : Bool)
    (expAvgFactor : ℝ) (s : BNState) (cidx : ℕ) (hc : cidx < channels) :
    (miopenBNFwdTrainSpatialRunHost n_batchs channels height width in_ptr scale_ptr bias_ptr
        epsilon savemeanvar runningmeanvar expAvgFactor s).runningVariance cidx
      = if runningmeanvar
        then expAvgFactor * s.runningVariance cidx +
          (1 - expAvgFactor) *
            (if n_batchs*(height*width) = 1
             then spatialVarAccumNoGuard n_batchs channels height width cidx in_ptr
          (spatialMeanAccum n_batchs channels height width cidx in_ptr / ((height*width*n_batchs : ℕ) : ℝ)) / ((height*width*n_batchs : ℕ) : ℝ)
             else ((height*width*n_batchs : ℕ) : ℝ)/(((height*width*n_batchs : ℕ) : ℝ) - 1) * (spatialVarAccumNoGuard n_batchs channels height width cidx in_ptr
          (spatialMeanAccum n_batchs channels height width cidx in_ptr / ((height*width*n_batchs : ℕ) : ℝ)) / ((height*width*n_batchs : ℕ) : ℝ)))
        else s.runningVariance cidx := by
  refine foldl_range_locality
    (fun t c => fwdTrainSpatialChannel n_batchs channels height width c in_ptr scale_ptr
      bias_ptr epsilon savemeanvar runningmeanvar expAvgFactor t)
    (fun t => t.runningVariance cidx)
    (fun t => if runningmeanvar
      then expAvgFactor * t.runningVariance cidx +
        (1 - expAvgFactor) *
          (if n_batchs*(height*width) = 1
           then spatialVarAccumNoGuard n_batchs channels height width cidx in_ptr
          (spatialMeanAccum n_batchs channels height width cidx in_ptr / ((height*width*n_batchs : ℕ) : ℝ)) / ((height*width*n_batchs : ℕ) : ℝ)
           else ((height*width*n_batchs : ℕ) : ℝ)/(((height*width*n_batchs : ℕ) : ℝ) - 1) * (spatialVarAccumNoGuard n_batchs channels height width cidx in_ptr
          (spatialMeanAccum n_batchs channels height width cidx in_ptr / ((height*width*n_batchs : ℕ) : ℝ)) / ((height*width*n_batchs : ℕ) : ℝ)))
      else t.runningVariance cidx)
    channels cidx hc ?_ ?_ s s rfl
  · intro t c hcn hne
    simp only [fwdTrainSpatialChannel]
    cases runningmeanvar
    · rfl
    · exact updW_ne _ _ _ _ (Ne.symm hne)
  · intro t t' htt
    have htt' : t.runningVariance cidx = t'.runningVariance cidx := htt
    simp only [fwdTrainSpatialChannel]
    rw [fwdTrainSpatialChannel_p2 n_batchs channels height width cidx in_ptr
      (spatialMeanAccum n_batchs channels height width cidx in_ptr / ((height*width*n_batchs : ℕ) : ℝ)) t.out]
    cases runningmeanvar
    · exact htt'
    · simp only []
      simp [updW, htt']

theorem fwdTrainSpatial_saveInvVariance_eq (n_batchs channels height width : ℕ)
    (in_ptr scale_ptr bias_ptr : ℕ → ℝ) (epsilon : ℝ) (savemeanvar runningmeanvar : Bool)
    (expAvgFactor : ℝ) (s : BNState) (cidx : ℕ) (hc : cidx < channels) :
    (miopenBNFwdTrainSpatialRunHost n_batchs channels height width in_ptr scale_ptr bias_ptr
        epsilon savemeanvar runningmeanvar expAvgFactor s).saveInvVariance cidx
      = if savemeanvar
        then 1 / Real.sqrt (spatialVarAccumNoGuard n_batchs channels height width cidx in_ptr
          (spatialMeanAccum n_batchs channels height width cidx in_ptr / ((height*width*n_batchs : ℕ) : ℝ)) / ((height*width*n_batchs : ℕ) : ℝ) + epsilon)
        else s.saveInvVariance cidx := by
  refine foldl_range_locality
    (fun t c => fwdTrainSpatialChannel n_batchs channels height width c in_ptr scale_ptr
      bias_ptr epsilon savemeanvar runningmeanvar expAvgFactor t)
    (fun t => t.saveInvVariance cidx)
    (fun t => if savemeanvar
      then 1 / Real.sqrt (spatialVarAccumNoGuard n_batchs channels height width cidx in_ptr
          (spatialMeanAccum n_batchs channels height width cidx in_ptr / ((height*width*n_batchs : ℕ) : ℝ)) / ((height*width*n_batchs : ℕ) : ℝ) + epsilon)
      else t.saveInvVariance cidx)
    channels cidx hc ?_ ?_ s s rfl
  · intro t c hcn hne
    simp only [fwdTrainSpatialChannel]
    cases savemeanvar
    · rfl
    · exact updW_ne _ _ _ _ (Ne.symm hne)
  · intro t t' htt
    have htt' : t.saveInvVariance cidx = t'.saveInvVariance cidx := htt
    simp only [fwdTrainSpatialChannel]
    rw [fwdTrainSpatialChannel_p2 n_batchs channels height width cidx in_ptr
      (spatialMeanAccum n_batchs channels height width cidx in_ptr / ((height*width*n_batchs : ℕ) : ℝ)) t.out]
    cases savemeanvar
    · exact htt'
    · simp only []
      simp [updW, htt']

theorem fwdTrainSpatial_out_eq (n_batchs channels height width : ℕ)
    (in_ptr scale_ptr bias_ptr : ℕ → ℝ) (epsilon : ℝ) (savemeanvar runningmeanvar : Bool)
    (expAvgFactor : ℝ) (s : BNState) (cidx row column bidx : ℕ)
    (hc : cidx < channels) (hrow : row < height) (hcol : column < width)
    (hbx : bidx < n_batchs) :
    (miopenBNFwdTrainSpatialRunHost n_batchs channels height width in_ptr scale_ptr bias_ptr
        epsilon savemeanvar runningmeanvar expAvgFactor s).out
        (channels*height*width*bidx + (height*width*cidx + (width*row + column)))
      = scale_ptr cidx * ((1 / Real.sqrt (spatialVarAccumNoGuard n_batchs channels height width cidx in_ptr
          (spatialMeanAccum n_batchs channels height width cidx in_ptr / ((height*width*n_batchs : ℕ) : ℝ)) / ((height*width*n_batchs : ℕ) : ℝ) + epsilon)) *
          (in_ptr (channels*height*width*bidx + (height*width*cidx + (width*row + column))) - (spatialMeanAccum n_batchs channels height width cidx in_ptr / ((height*width*n_batchs : ℕ) : ℝ))))
        + bias_ptr cidx := by
  refine foldl_range_locality
    (fun t c => fwdTrainSpatialChannel n_batchs channels height width c in_ptr scale_ptr
      bias_ptr epsilon savemeanvar runningmeanvar expAvgFactor t)
    (fun t => t.out (channels*height*width*bidx + (height*width*cidx + (width*row + column))))
    (fun _ => scale_ptr cidx * ((1 / Real.sqrt (spatialVarAccumNoGuard n_batchs channels height width cidx in_ptr
          (spatialMeanAccum n_batchs channels height width cidx in_ptr / ((height*width*n_batchs : ℕ) : ℝ)) / ((height*width*n_batchs : ℕ) : ℝ) + epsilon)) *
        (in_ptr (channels*height*width*bidx + (height*width*cidx + (width*row + column))) - (spatialMeanAccum n_batchs channels height width cidx in_ptr / ((height*width*n_batchs : ℕ) : ℝ))))
      + bias_ptr cidx)
    channels cidx hc ?_ ?_ s s rfl
  · intro t c hcn hne
    simp only [fwdTrainSpatialChannel]
    rw [fwdTrainSpatialChannel_p2 n_batchs channels height width c in_ptr
      (spatialMeanAccum n_batchs channels height width c in_ptr / ((height*width*n_batchs : ℕ) : ℝ)) t.out]
    simp only []
    refine Eq.trans (congrFun (foldl_guard_true height width
      (fun row column (o : ℕ → ℝ) => (List.range n_batchs).foldl (fun o bidx =>
        updW o (channels*height*width*bidx + (height*width*c + (width*row + column)))
          (scale_ptr c * ((1 / Real.sqrt (spatialVarAccumNoGuard n_batchs channels height width c in_ptr
          (spatialMeanAccum n_batchs channels height width c in_ptr / ((height*width*n_batchs : ℕ) : ℝ)) / ((height*width*n_batchs : ℕ) : ℝ) + epsilon)) *
            o (channels*height*width*bidx + (height*width*c + (width*row + column))))
            + bias_ptr c)) o) _) _) ?_
    refine Eq.trans (foldl_rmw_triple_frame height width n_batchs
      (fun r w b => channels*height*width*b + (height*width*c + (width*r + w)))
      (fun r w b cur => scale_ptr c * ((1 / Real.sqrt (spatialVarAccumNoGuard n_batchs channels height width c in_ptr
          (spatialMeanAccum n_batchs channels height width c in_ptr / ((height*width*n_batchs : ℕ) : ℝ)) / ((height*width*n_batchs : ℕ) : ℝ) + epsilon)) * cur) + bias_ptr c) _ _
      (fun r w b h1 h2 h3 => spatialIndex_ne hcn h1 h2 hc hrow hcol hne)) ?_
    exact foldl_rmw_triple_frame height width n_batchs
      (fun r w b => channels*height*width*b + (height*width*c + (width*r + w)))
      (fun r w b _ => in_ptr (channels*height*width*b + (height*width*c + (width*r + w)))
        - (spatialMeanAccum n_batchs channels height width c in_ptr / ((height*width*n_batchs : ℕ) : ℝ))) _ _
      (fun r w b h1 h2 h3 => spatialIndex_ne hcn h1 h2 hc hrow hcol hne)
  · intro t t' htt
    simp only [fwdTrainSpatialChannel]
    rw [fwdTrainSpatialChannel_p2 n_batchs channels height width cidx in_ptr
      (spatialMeanAccum n_batchs channels height width cidx in_ptr / ((height*width*n_batchs : ℕ) : ℝ)) t.out]
    simp only []
    have hW := foldl_rmw_triple_eval height width n_batchs
      (fun r w b => channels*height*width*b + (height*width*cidx + (width*r + w)))
      (fun r w b _ => in_ptr (channels*height*width*b + (height*width*cidx + (width*r + w)))
        - (spatialMeanAccum n_batchs channels height width cidx in_ptr / ((height*width*n_batchs : ℕ) : ℝ)))
      row column bidx hrow hcol hbx
      (fun r w b h1 h2 h3 he => spatialIndex_inj hc h1 h2 hrow hcol he) t.out
    refine Eq.trans (congrFun (foldl_guard_true height width
      (fun row column (o : ℕ → ℝ) => (List.range n_batchs).foldl (fun o bidx =>
        updW o (channels*height*width*bidx + (height*width*cidx + (width*row + column)))
          (scale_ptr cidx * ((1 / Real.sqrt (spatialVarAccumNoGuard n_batchs channels height width cidx in_ptr
          (spatialMeanAccum n_batchs channels height width cidx in_ptr / ((height*width*n_batchs : ℕ) : ℝ)) / ((height*width*n_batchs : ℕ) : ℝ) + epsilon)) *
            o (channels*height*width*bidx + (height*width*cidx + (width*row + column))))
            + bias_ptr cidx)) o) _) _) ?_
    refine Eq.trans (foldl_rmw_triple_eval height width n_batchs
      (fun r w b => channels*height*width*b + (height*width*cidx + (width*r + w)))
      (fun r w b cur => scale_ptr cidx * ((1 / Real.sqrt (spatialVarAccumNoGuard n_batchs channels height width cidx in_ptr
          (spatialMeanAccum n_batchs channels height width cidx in_ptr / ((height*width*n_batchs : ℕ) : ℝ)) / ((height*width*n_batchs : ℕ) : ℝ) + epsilon)) * cur) + bias_ptr cidx)
      row column bidx hrow hcol hbx
      (fun r w b h1 h2 h3 he => spatialIndex_inj hc h1 h2 hrow hcol he) _) ?_
    exact congrArg (fun z => scale_ptr cidx * ((1 / Real.sqrt (spatialVarAccumNoGuard n_batchs channels height width cidx in_ptr
          (spatialMeanAccum n_batchs channels height width cidx in_ptr / ((height*width*n_batchs : ℕ) : ℝ)) / ((height*width*n_batchs : ℕ) : ℝ) + epsilon)) * z) + bias_ptr cidx) hW

/-- `(row,column,bidx)` flattened index into the backward `xhat` scratch vector
determines its coordinates. -/
theorem xhatIndex_inj {height width : ℕ} {r w b r' w' b' : ℕ}
    (hr : r < height) (hw : w < width) (hr' : r' < height) (hw' : w' < width)
    (h : height*width*b + (width*r + w) = height*width*b' + (width*r' + w')) :
    r = r' ∧ w = w' ∧ b = b' := by
  obtain ⟨hb, himg⟩ := stride_decomp (imgIndex_lt hr hw) (imgIndex_lt hr' hw') h
  obtain ⟨hrr, hww⟩ := stride_decomp hw hw' himg
  exact ⟨hrr, hww, hb⟩

/-- Pass 1 of the per-activation backward splits into the `xhat` writes, the
`dbias`/`dscale` accumulators, and the two intermediate group sums. -/
theorem bwdPerActGroup_p1 (n_batchs in_nstride in_cstride adjIndex imgIndex : ℕ)
    (x_ptr dy_ptr scale_ptr : ℕ → ℝ) (mean elemInvVar : ℝ) (xh0 : ℕ → ℝ) (db ds : ℝ) :
    ((List.range n_batchs).foldl (fun p bidx =>
      (updW p.1 (in_cstride*bidx + imgIndex) ((x_ptr (in_nstride*bidx + adjIndex) - mean) * elemInvVar),
       p.2.1 + dy_ptr (in_nstride*bidx + adjIndex),
       p.2.2.1 + ((x_ptr (in_nstride*bidx + adjIndex) - mean) * elemInvVar) * (dy_ptr (in_nstride*bidx + adjIndex)),
       p.2.2.2.1 + scale_ptr adjIndex * (dy_ptr (in_nstride*bidx + adjIndex)),
       p.2.2.2.2 + scale_ptr adjIndex * (dy_ptr (in_nstride*bidx + adjIndex)) * ((x_ptr (in_nstride*bidx + adjIndex) - mean) * elemInvVar)))
      (xh0, db, ds, (0:ℝ), (0:ℝ)) : (ℕ → ℝ) × ℝ × ℝ × ℝ × ℝ)
    = ((List.range n_batchs).foldl (fun o bidx => updW o (in_cstride*bidx + imgIndex) ((x_ptr (in_nstride*bidx + adjIndex) - mean) * elemInvVar)) xh0,
       db + ∑ b ∈ Finset.range n_batchs, dy_ptr (in_nstride*b + adjIndex),
       ds + ∑ b ∈ Finset.range n_batchs, ((x_ptr (in_nstride*b + adjIndex) - mean) * elemInvVar) * (dy_ptr (in_nstride*b + adjIndex)),
       0 + ∑ b ∈ Finset.range n_batchs, scale_ptr adjIndex * (dy_ptr (in_nstride*b + adjIndex)),
       0 + ∑ b ∈ Finset.range n_batchs, scale_ptr adjIndex * (dy_ptr (in_nstride*b + adjIndex)) * ((x_ptr (in_nstride*b + adjIndex) - mean) * elemInvVar)) := by
  rw [foldl_prod_split (fun p bidx =>
      (updW p.1 (in_cstride*bidx + imgIndex) ((x_ptr (in_nstride*bidx + adjIndex) - mean) * elemInvVar),
       p.2.1 + dy_ptr (in_nstride*bidx + adjIndex),
       p.2.2.1 + ((x_ptr (in_nstride*bidx + adjIndex) - mean) * elemInvVar) * (dy_ptr (in_nstride*bidx + adjIndex)),
       p.2.2.2.1 + scale_ptr adjIndex * (dy_ptr (in_nstride*bidx + adjIndex)),
       p.2.2.2.2 + scale_ptr adjIndex * (dy_ptr (in_nstride*bidx + adjIndex)) * ((x_ptr (in_nstride*bidx + adjIndex) - mean) * elemInvVar)))
    (fun o bidx => updW o (in_cstride*bidx + imgIndex) ((x_ptr (in_nstride*bidx + adjIndex) - mean) * elemInvVar))
    (fun q bidx =>
      (q.1 + dy_ptr (in_nstride*bidx + adjIndex),
       q.2.1 + ((x_ptr (in_nstride*bidx + adjIndex) - mean) * elemInvVar) * (dy_ptr (in_nstride*bidx + adjIndex)),
       q.2.2.1 + scale_ptr adjIndex * (dy_ptr (in_nstride*bidx + adjIndex)),
       q.2.2.2 + scale_ptr adjIndex * (dy_ptr (in_nstride*bidx + adjIndex)) * ((x_ptr (in_nstride*bidx + adjIndex) - mean) * elemInvVar)))
    (List.range n_batchs) (fun p b _ => rfl) (xh0, db, ds, (0:ℝ), (0:ℝ))]
  rw [foldl_prod_split
    (fun q bidx =>
      ((q : ℝ × ℝ × ℝ × ℝ).1 + dy_ptr (in_nstride*bidx + adjIndex),
       q.2.1 + ((x_ptr (in_nstride*bidx + adjIndex) - mean) * elemInvVar) * (dy_ptr (in_nstride*bidx + adjIndex)),
       q.2.2.1 + scale_ptr adjIndex * (dy_ptr (in_nstride*bidx + adjIndex)),
       q.2.2.2 + scale_ptr adjIndex * (dy_ptr (in_nstride*bidx + adjIndex)) * ((x_ptr (in_nstride*bidx + adjIndex) - mean) * elemInvVar)))
    (fun a bidx => a + dy_ptr (in_nstride*bidx + adjIndex))
    (fun q bidx =>
      ((q : ℝ × ℝ × ℝ).1 + ((x_ptr (in_nstride*bidx + adjIndex) - mean) * elemInvVar) * (dy_ptr (in_nstride*bidx + adjIndex)),
       q.2.1 + scale_ptr adjIndex * (dy_ptr (in_nstride*bidx + adjIndex)),
       q.2.2 + scale_ptr adjIndex * (dy_ptr (in_nstride*bidx + adjIndex)) * ((x_ptr (in_nstride*bidx + adjIndex) - mean) * elemInvVar)))
    (List.range n_batchs) (fun p b _ => rfl) (db, ds, (0:ℝ), (0:ℝ))]
  rw [foldl_prod_split
    (fun q bidx =>
      ((q : ℝ × ℝ × ℝ).1 + ((x_ptr (in_nstride*bidx + adjIndex) - mean) * elemInvVar) * (dy_ptr (in_nstride*bidx + adjIndex)),
       q.2.1 + scale_ptr adjIndex * (dy_ptr (in_nstride*bidx + adjIndex)),
       q.2.2 + scale_ptr adjIndex * (dy_ptr (in_nstride*bidx + adjIndex)) * ((x_ptr (in_nstride*bidx + adjIndex) - mean) * elemInvVar)))
    (fun a bidx => a + ((x_ptr (in_nstride*bidx + adjIndex) - mean) * elemInvVar) * (dy_ptr (in_nstride*bidx + adjIndex)))
    (fun q bidx =>
      ((q : ℝ × ℝ).1 + scale_ptr adjIndex * (dy_ptr (in_nstride*bidx + adjIndex)),
       q.2 + scale_ptr adjIndex * (dy_ptr (in_nstride*bidx + adjIndex)) * ((x_ptr (in_nstride*bidx + adjIndex) - mean) * elemInvVar)))
    (List.range n_batchs) (fun p b _ => rfl) (ds, (0:ℝ), (0:ℝ))]
  rw [foldl_prod_split
    (fun q bidx =>
      ((q : ℝ × ℝ).1 + scale_ptr adjIndex * (dy_ptr (in_nstride*bidx + adjIndex)),
       q.2 + scale_ptr adjIndex * (dy_ptr (in_nstride*bidx + adjIndex)) * ((x_ptr (in_nstride*bidx + adjIndex) - mean) * elemInvVar)))
    (fun a bidx => a + scale_ptr adjIndex * (dy_ptr (in_nstride*bidx + adjIndex)))
    (fun a bidx => a + scale_ptr adjIndex * (dy_ptr (in_nstride*bidx + adjIndex)) * ((x_ptr (in_nstride*bidx + adjIndex) - mean) * elemInvVar))
    (List.range n_batchs) (fun p b _ => rfl) ((0:ℝ), (0:ℝ))]
  rw [foldl_add_range n_batchs (fun b => dy_ptr (in_nstride*b + adjIndex)) db,
    foldl_add_range n_batchs (fun b => ((x_ptr (in_nstride*b + adjIndex) - mean) * elemInvVar) * (dy_ptr (in_nstride*b + adjIndex))) ds,
    foldl_add_range n_batchs (fun b => scale_ptr adjIndex * (dy_ptr (in_nstride*b + adjIndex))) 0,
    foldl_add_range n_batchs (fun b => scale_ptr adjIndex * (dy_ptr (in_nstride*b + adjIndex)) * ((x_ptr (in_nstride*b + adjIndex) - mean) * elemInvVar)) 0]

/-- Range form of the read-modify-write frame lemma. -/
theorem foldl_rmw_range_frame (n : ℕ) (idx : ℕ → ℕ) (val : ℕ → ℝ → ℝ) (o : ℕ → ℝ)
    (j : ℕ) (h : ∀ b, b < n → idx b ≠ j) :
    ((List.range n).foldl (fun o b => updW o (idx b) (val b (o (idx b)))) o) j = o j :=
  foldl_rmw_frame _ idx val o j (fun b hb => h b (List.mem_range.mp hb))

theorem bwdPerActSavedGroup_dx_frame (n_batchs in_nstride in_cstride adjIndex imgIndex : ℕ)
    (x_ptr dy_ptr scale_ptr savedMean savedInvVariance : ℕ → ℝ) (sx : BwdState × (ℕ → ℝ)) (j : ℕ)
    (hj : ∀ b, b < n_batchs → in_nstride*b + adjIndex ≠ j) :
    (bwdPerActSavedGroup n_batchs in_nstride in_cstride adjIndex imgIndex x_ptr dy_ptr scale_ptr savedMean savedInvVariance sx).1.dx j = sx.1.dx j := by
  simp only [bwdPerActSavedGroup]
  rw [bwdPerActGroup_p1 n_batchs in_nstride in_cstride adjIndex imgIndex x_ptr dy_ptr scale_ptr (savedMean adjIndex) (savedInvVariance adjIndex) sx.2 (sx.1.dbias adjIndex) (sx.1.dscale adjIndex)]
  simp only []
  exact foldl_rmw_range_frame n_batchs (fun bidx => in_nstride*bidx + adjIndex)
    (fun bidx cur => (savedInvVariance adjIndex) / (n_batchs : ℝ) * ((n_batchs : ℝ) * (0 + ∑ b ∈ Finset.range n_batchs, scale_ptr adjIndex * dy_ptr (in_nstride*b + adjIndex)) - ((((List.range n_batchs).foldl (fun o bidx => updW o (in_cstride*bidx + imgIndex) ((x_ptr (in_nstride*bidx + adjIndex) - (savedMean adjIndex)) * (savedInvVariance adjIndex))) sx.2) (in_cstride*bidx + imgIndex)) * (0 + ∑ b ∈ Finset.range n_batchs, scale_ptr adjIndex * dy_ptr (in_nstride*b + adjIndex) * ((x_ptr (in_nstride*b + adjIndex) - (savedMean adjIndex)) * (savedInvVariance adjIndex))) + (0 + ∑ b ∈ Finset.range n_batchs, scale_ptr adjIndex * dy_ptr (in_nstride*b + adjIndex)))))
    sx.1.dx j hj

theorem bwdPerActSavedGroup_dx_eval (n_batchs in_nstride in_cstride adjIndex imgIndex : ℕ)
    (x_ptr dy_ptr scale_ptr savedMean savedInvVariance : ℕ → ℝ) (sx : BwdState × (ℕ → ℝ)) (bidx : ℕ)
    (hb : bidx < n_batchs) (hadj : adjIndex < in_nstride) (himg : imgIndex < in_cstride) :
    (bwdPerActSavedGroup n_batchs in_nstride in_cstride adjIndex imgIndex x_ptr dy_ptr scale_ptr savedMean savedInvVariance sx).1.dx (in_nstride*bidx + adjIndex)
      = (savedInvVariance adjIndex) / (n_batchs : ℝ) * ((n_batchs : ℝ) * (0 + ∑ b ∈ Finset.range n_batchs, scale_ptr adjIndex * dy_ptr (in_nstride*b + adjIndex)) - (((x_ptr (in_nstride*bidx + adjIndex) - (savedMean adjIndex)) * (savedInvVariance adjIndex)) * (0 + ∑ b ∈ Finset.range n_batchs, scale_ptr adjIndex * dy_ptr (in_nstride*b + adjIndex) * ((x_ptr (in_nstride*b + adjIndex) - (savedMean adjIndex)) * (savedInvVariance adjIndex))) + (0 + ∑ b ∈ Finset.range n_batchs, scale_ptr adjIndex * dy_ptr (in_nstride*b + adjIndex)))) := by
  simp only [bwdPerActSavedGroup]
  rw [bwdPerActGroup_p1 n_batchs in_nstride in_cstride adjIndex imgIndex x_ptr dy_ptr scale_ptr (savedMean adjIndex) (savedInvVariance adjIndex) sx.2 (sx.1.dbias adjIndex) (sx.1.dscale adjIndex)]
  simp only []
  have hxh : ((List.range n_batchs).foldl (fun o bidx => updW o (in_cstride*bidx + imgIndex) ((x_ptr (in_nstride*bidx + adjIndex) - (savedMean adjIndex)) * (savedInvVariance adjIndex))) sx.2) (in_cstride*bidx + imgIndex)
      = (x_ptr (in_nstride*bidx + adjIndex) - (savedMean adjIndex)) * (savedInvVariance adjIndex) :=
    foldl_rmw_range_eval n_batchs (fun b => in_cstride*b + imgIndex)
      (fun b _ => (x_ptr (in_nstride*b + adjIndex) - (savedMean adjIndex)) * (savedInvVariance adjIndex))
      sx.2 bidx hb (fun j hjn he => (stride_decomp himg himg he).1)
  refine Eq.trans (foldl_rmw_range_eval n_batchs (fun b => in_nstride*b + adjIndex)
    (fun b cur => (savedInvVariance adjIndex) / (n_batchs : ℝ) * ((n_batchs : ℝ) * (0 + ∑ b ∈ Finset.range n_batchs, scale_ptr adjIndex * dy_ptr (in_nstride*b + adjIndex)) - ((((List.range n_batchs).foldl (fun o bidx => updW o (in_cstride*bidx + imgIndex) ((x_ptr (in_nstride*bidx + adjIndex) - (savedMean adjIndex)) * (savedInvVariance adjIndex))) sx.2) (in_cstride*b + imgIndex)) * (0 + ∑ b ∈ Finset.range n_batchs, scale_ptr adjIndex * dy_ptr (in_nstride*b + adjIndex) * ((x_ptr (in_nstride*b + adjIndex) - (savedMean adjIndex)) * (savedInvVariance adjIndex))) + (0 + ∑ b ∈ Finset.range n_batchs, scale_ptr adjIndex * dy_ptr (in_nstride*b + adjIndex)))))
    sx.1.dx bidx hb (fun j hjn he => (stride_decomp hadj hadj he).1)) ?_
  simp only []
  rw [hxh]

theorem bwdPerActRecompGroup_dx_frame (n_batchs in_nstride in_cstride adjIndex imgIndex : ℕ)
    (x_ptr dy_ptr scale_ptr : ℕ → ℝ) (epsilon : ℝ) (sx : BwdState × (ℕ → ℝ)) (j : ℕ)
    (hj : ∀ b, b < n_batchs → in_nstride*b + adjIndex ≠ j) :
    (bwdPerActRecompGroup n_batchs in_nstride in_cstride adjIndex imgIndex x_ptr dy_ptr scale_ptr epsilon sx).1.dx j = sx.1.dx j := by
  simp only [bwdPerActRecompGroup]
  rw [bwdPerActGroup_p1 n_batchs in_nstride in_cstride adjIndex imgIndex x_ptr dy_ptr scale_ptr (meanAccum n_batchs in_nstride adjIndex x_ptr / (n_batchs : ℝ)) (1 / Real.sqrt (varianceAccum n_batchs in_nstride adjIndex x_ptr (meanAccum n_batchs in_nstride adjIndex x_ptr / (n_batchs : ℝ)) / (n_batchs : ℝ) + epsilon)) sx.2 (sx.1.dbias adjIndex) (sx.1.dscale adjIndex)]
  simp only []
  exact foldl_rmw_range_frame n_batchs (fun bidx => in_nstride*bidx + adjIndex)
    (fun bidx cur => (1 / Real.sqrt (varianceAccum n_batchs in_nstride adjIndex x_ptr (meanAccum n_batchs in_nstride adjIndex x_ptr / (n_batchs : ℝ)) / (n_batchs : ℝ) + epsilon)) / (n_batchs : ℝ) * ((n_batchs : ℝ) * (0 + ∑ b ∈ Finset.range n_batchs, scale_ptr adjIndex * dy_ptr (in_nstride*b + adjIndex)) - ((((List.range n_batchs).foldl (fun o bidx => updW o (in_cstride*bidx + imgIndex) ((x_ptr (in_nstride*bidx + adjIndex) - (meanAccum n_batchs in_nstride adjIndex x_ptr / (n_batchs : ℝ))) * (1 / Real.sqrt (varianceAccum n_batchs in_nstride adjIndex x_ptr (meanAccum n_batchs in_nstride adjIndex x_ptr / (n_batchs : ℝ)) / (n_batchs : ℝ) + epsilon)))) sx.2) (in_cstride*bidx + imgIndex)) * (0 + ∑ b ∈ Finset.range n_batchs, scale_ptr adjIndex * dy_ptr (in_nstride*b + adjIndex) * ((x_ptr (in_nstride*b + adjIndex) - (meanAccum n_batchs in_nstride adjIndex x_ptr / (n_batchs : ℝ))) * (1 / Real.sqrt (varianceAccum n_batchs in_nstride adjIndex x_ptr (meanAccum n_batchs in_nstride adjIndex x_ptr / (n_batchs : ℝ)) / (n_batchs : ℝ) + epsilon)))) + (0 + ∑ b ∈ Finset.range n_batchs, scale_ptr adjIndex * dy_ptr (in_nstride*b + adjIndex)))))
    sx.1.dx j hj

theorem bwdPerActRecompGroup_dx_eval (n_batchs in_nstride in_cstride adjIndex imgIndex : ℕ)
    (x_ptr dy_ptr scale_ptr : ℕ → ℝ) (epsilon : ℝ) (sx : BwdState × (ℕ → ℝ)) (bidx : ℕ)
    (hb : bidx < n_batchs) (hadj : adjIndex < in_nstride) (himg : imgIndex < in_cstride) :
    (bwdPerActRecompGroup n_batchs in_nstride in_cstride adjIndex imgIndex x_ptr dy_ptr scale_ptr epsilon sx).1.dx (in_nstride*bidx + adjIndex)
      = (1 / Real.sqrt (varianceAccum n_batchs in_nstride adjIndex x_ptr (meanAccum n_batchs in_nstride adjIndex x_ptr / (n_batchs : ℝ)) / (n_batchs : ℝ) + epsilon)) / (n_batchs : ℝ) * ((n_batchs : ℝ) * (0 + ∑ b ∈ Finset.range n_batchs, scale_ptr adjIndex * dy_ptr (in_nstride*b + adjIndex)) - (((x_ptr (in_nstride*bidx + adjIndex) - (meanAccum n_batchs in_nstride adjIndex x_ptr / (n_batchs : ℝ))) * (1 / Real.sqrt (varianceAccum n_batchs in_nstride adjIndex x_ptr (meanAccum n_batchs in_nstride adjIndex x_ptr / (n_batchs : ℝ)) / (n_batchs : ℝ) + epsilon))) * (0 + ∑ b ∈ Finset.range n_batchs, scale_ptr adjIndex * dy_ptr (in_nstride*b + adjIndex) * ((x_ptr (in_nstride*b + adjIndex) - (meanAccum n_batchs in_nstride adjIndex x_ptr / (n_batchs : ℝ))) * (1 / Real.sqrt (varianceAccum n_batchs in_nstride adjIndex x_ptr (meanAccum n_batchs in_nstride adjIndex x_ptr / (n_batchs : ℝ)) / (n_batchs : ℝ) + epsilon)))) + (0 + ∑ b ∈ Finset.range n_batchs, scale_ptr adjIndex * dy_ptr (in_nstride*b + adjIndex)))) := by
  simp only [bwdPerActRecompGroup]
  rw [bwdPerActGroup_p1 n_batchs in_nstride in_cstride adjIndex imgIndex x_ptr dy_ptr scale_ptr (meanAccum n_batchs in_nstride adjIndex x_ptr / (n_batchs : ℝ)) (1 / Real.sqrt (varianceAccum n_batchs in_nstride adjIndex x_ptr (meanAccum n_batchs in_nstride adjIndex x_ptr / (n_batchs : ℝ)) / (n_batchs : ℝ) + epsilon)) sx.2 (sx.1.dbias adjIndex) (sx.1.dscale adjIndex)]
  simp only []
  have hxh : ((List.range n_batchs).foldl (fun o bidx => updW o (in_cstride*bidx + imgIndex) ((x_ptr (in_nstride*bidx + adjIndex) - (meanAccum n_batchs in_nstride adjIndex x_ptr / (n_batchs : ℝ))) * (1 / Real.sqrt (varianceAccum n_batchs in_nstride adjIndex x_ptr (meanAccum n_batchs in_nstride adjIndex x_ptr / (n_batchs : ℝ)) / (n_batchs : ℝ) + epsilon)))) sx.2) (in_cstride*bidx + imgIndex)
      = (x_ptr (in_nstride*bidx + adjIndex) - (meanAccum n_batchs in_nstride adjIndex x_ptr / (n_batchs : ℝ))) * (1 / Real.sqrt (varianceAccum n_batchs in_nstride adjIndex x_ptr (meanAccum n_batchs in_nstride adjIndex x_ptr / (n_batchs : ℝ)) / (n_batchs : ℝ) + epsilon)) :=
    foldl_rmw_range_eval n_batchs (fun b => in_cstride*b + imgIndex)
      (fun b _ => (x_ptr (in_nstride*b + adjIndex) - (meanAccum n_batchs in_nstride adjIndex x_ptr / (n_batchs : ℝ))) * (1 / Real.sqrt (varianceAccum n_batchs in_nstride adjIndex x_ptr (meanAccum n_batchs in_nstride adjIndex x_ptr / (n_batchs : ℝ)) / (n_batchs : ℝ) + epsilon)))
      sx.2 bidx hb (fun j hjn he => (stride_decomp himg himg he).1)
  refine Eq.trans (foldl_rmw_range_eval n_batchs (fun b => in_nstride*b + adjIndex)
    (fun b cur => (1 / Real.sqrt (varianceAccum n_batchs in_nstride adjIndex x_ptr (meanAccum n_batchs in_nstride adjIndex x_ptr / (n_batchs : ℝ)) / (n_batchs : ℝ) + epsilon)) / (n_batchs : ℝ) * ((n_batchs : ℝ) * (0 + ∑ b ∈ Finset.range n_batchs, scale_ptr adjIndex * dy_ptr (in_nstride*b + adjIndex)) - ((((List.range n_batchs).foldl (fun o bidx => updW o (in_cstride*bidx + imgIndex) ((x_ptr (in_nstride*bidx + adjIndex) - (meanAccum n_batchs in_nstride adjIndex x_ptr / (n_batchs : ℝ))) * (1 / Real.sqrt (varianceAccum n_batchs in_nstride adjIndex x_ptr (meanAccum n_batchs in_nstride adjIndex x_ptr / (n_batchs : ℝ)) / (n_batchs : ℝ) + epsilon)))) sx.2) (in_cstride*b + imgIndex)) * (0 + ∑ b ∈ Finset.range n_batchs, scale_ptr adjIndex * dy_ptr (in_nstride*b + adjIndex) * ((x_ptr (in_nstride*b + adjIndex) - (meanAccum n_batchs in_nstride adjIndex x_ptr / (n_batchs : ℝ))) * (1 / Real.sqrt (varianceAccum n_batchs in_nstride adjIndex x_ptr (meanAccum n_batchs in_nstride adjIndex x_ptr / (n_batchs : ℝ)) / (n_batchs : ℝ) + epsilon)))) + (0 + ∑ b ∈ Finset.range n_batchs, scale_ptr adjIndex * dy_ptr (in_nstride*b + adjIndex)))))
    sx.1.dx bidx hb (fun j hjn he => (stride_decomp hadj hadj he).1)) ?_
  simp only []
  rw [hxh]

theorem bwdPerActSaved_dbias_eq (n_batchs channels height width : ℕ)
    (x_ptr dy_ptr scale_ptr savedMean savedInvVariance : ℕ → ℝ) (epsilon : ℝ) (s : BwdState)
    (cidx row column : ℕ) (hc : cidx < channels) (hr : row < height) (hw : column < width) :
    (miopenBNBwdPerActivationRunHost n_batchs channels height width x_ptr dy_ptr scale_ptr epsilon true savedMean savedInvVariance s).dbias (height*width*cidx + (width*row + column))
      = s.dbias (height*width*cidx + (width*row + column)) + ∑ b ∈ Finset.range n_batchs, dy_ptr (channels*height*width*b + (height*width*cidx + (width*row + column))) := by
  simp only [miopenBNBwdPerActivationRunHost, if_true]
  refine tripleLoop_locality
    (fun c r w t => bwdPerActSavedGroup n_batchs (channels*height*width) (height*width)
      (height*width*c + (width*r + w)) (width*r + w) x_ptr dy_ptr scale_ptr savedMean savedInvVariance t)
    (fun t => t.1.dbias (height*width*cidx + (width*row + column)))
    (fun t => t.1.dbias (height*width*cidx + (width*row + column)) + ∑ b ∈ Finset.range n_batchs, dy_ptr (channels*height*width*b + (height*width*cidx + (width*row + column))))
    channels height width cidx row column hc hr hw ?_ ?_ (s, fun _ => 0) (s, fun _ => 0) rfl
  · intro c r w t hcb hrb hwb hne
    have hadj := adjIndex_ne hrb hwb hr hw hne
    simp only [bwdPerActSavedGroup]
    exact updW_ne _ _ _ _ (Ne.symm hadj)
  · intro t t' htt
    have htt' : t.1.dbias (height*width*cidx + (width*row + column)) = t'.1.dbias (height*width*cidx + (width*row + column)) := htt
    simp only [bwdPerActSavedGroup]
    rw [bwdPerActGroup_p1 n_batchs (channels*height*width) (height*width) (height*width*cidx + (width*row + column)) (width*row + column) x_ptr dy_ptr scale_ptr (savedMean (height*width*cidx + (width*row + column))) (savedInvVariance (height*width*cidx + (width*row + column))) t.2 (t.1.dbias (height*width*cidx + (width*row + column))) (t.1.dscale (height*width*cidx + (width*row + column)))]
    simp only []
    rw [updW_same, htt']

theorem bwdPerActSaved_dscale_eq (n_batchs channels height width : ℕ)
    (x_ptr dy_ptr scale_ptr savedMean savedInvVariance : ℕ → ℝ) (epsilon : ℝ) (s : BwdState)
    (cidx row column : ℕ) (hc : cidx < channels) (hr : row < height) (hw : column < width) :
    (miopenBNBwdPerActivationRunHost n_batchs channels height width x_ptr dy_ptr scale_ptr epsilon true savedMean savedInvVariance s).dscale (height*width*cidx + (width*row + column))
      = (s.dscale (height*width*cidx + (width*row + column)) + ∑ b ∈ Finset.range n_batchs, ((x_ptr (channels*height*width*b + (height*width*cidx + (width*row + column))) - (savedMean (height*width*cidx + (width*row + column)))) * (savedInvVariance (height*width*cidx + (width*row + column)))) * dy_ptr (channels*height*width*b + (height*width*cidx + (width*row + column)))) / (n_batchs : ℝ) := by
  simp only [miopenBNBwdPerActivationRunHost, if_true]
  refine tripleLoop_locality
    (fun c r w t => bwdPerActSavedGroup n_batchs (channels*height*width) (height*width)
      (height*width*c + (width*r + w)) (width*r + w) x_ptr dy_ptr scale_ptr savedMean savedInvVariance t)
    (fun t => t.1.dscale (height*width*cidx + (width*row + column)))
    (fun t => (t.1.dscale (height*width*cidx + (width*row + column)) + ∑ b ∈ Finset.range n_batchs, ((x_ptr (channels*height*width*b + (height*width*cidx + (width*row + column))) - (savedMean (height*width*cidx + (width*row + column)))) * (savedInvVariance (height*width*cidx + (width*row + column)))) * dy_ptr (channels*height*width*b + (height*width*cidx + (width*row + column)))) / (n_batchs : ℝ))
    channels height width cidx row column hc hr hw ?_ ?_ (s, fun _ => 0) (s, fun _ => 0) rfl
  · intro c r w t hcb hrb hwb hne
    have hadj := adjIndex_ne hrb hwb hr hw hne
    simp only [bwdPerActSavedGroup]
    exact updW_ne _ _ _ _ (Ne.symm hadj)
  · intro t t' htt
    have htt' : t.1.dscale (height*width*cidx + (width*row + column)) = t'.1.dscale (height*width*cidx + (width*row + column)) := htt
    simp only [bwdPerActSavedGroup]
    rw [bwdPerActGroup_p1 n_batchs (channels*height*width) (height*width) (height*width*cidx + (width*row + column)) (width*row + column) x_ptr dy_ptr scale_ptr (savedMean (height*width*cidx + (width*row + column))) (savedInvVariance (height*width*cidx + (width*row + column))) t.2 (t.1.dbias (height*width*cidx + (width*row + column))) (t.1.dscale (height*width*cidx + (width*row + column)))]
    simp only []
    rw [updW_same, htt']

theorem bwdPerActSaved_dx_eq (n_batchs channels height width : ℕ)
    (x_ptr dy_ptr scale_ptr savedMean savedInvVariance : ℕ → ℝ) (epsilon : ℝ) (s : BwdState)
    (cidx row column bidx : ℕ) (hc : cidx < channels) (hr : row < height)
    (hw : column < width) (hbx : bidx < n_batchs) :
    (miopenBNBwdPerActivationRunHost n_batchs channels height width x_ptr dy_ptr scale_ptr epsilon true savedMean savedInvVariance s).dx (channels*height*width*bidx + (height*width*cidx + (width*row + column)))
      = (savedInvVariance (height*width*cidx + (width*row + column))) / (n_batchs : ℝ) *
          ((n_batchs : ℝ) * (0 + ∑ b ∈ Finset.range n_batchs, scale_ptr (height*width*cidx + (width*row + column)) * dy_ptr (channels*height*width*b + (height*width*cidx + (width*row + column)))) -
            (((x_ptr (channels*height*width*bidx + (height*width*cidx + (width*row + column))) - (savedMean (height*width*cidx + (width*row + column)))) * (savedInvVariance (height*width*cidx + (width*row + column)))) * (0 + ∑ b ∈ Finset.range n_batchs, scale_ptr (height*width*cidx + (width*row + column)) * dy_ptr (channels*height*width*b + (height*width*cidx + (width*row + column))) * ((x_ptr (channels*height*width*b + (height*width*cidx + (width*row + column))) - (savedMean (height*width*cidx + (width*row + column)))) * (savedInvVariance (height*width*cidx + (width*row + column))))) + (0 + ∑ b ∈ Finset.range n_batchs, scale_ptr (height*width*cidx + (width*row + column)) * dy_ptr (channels*height*width*b + (height*width*cidx + (width*row + column)))))) := by
  simp only [miopenBNBwdPerActivationRunHost, if_true]
  refine tripleLoop_locality
    (fun c r w t => bwdPerActSavedGroup n_batchs (channels*height*width) (height*width)
      (height*width*c + (width*r + w)) (width*r + w) x_ptr dy_ptr scale_ptr savedMean savedInvVariance t)
    (fun t => t.1.dx (channels*height*width*bidx + (height*width*cidx + (width*row + column))))
    (fun _ => (savedInvVariance (height*width*cidx + (width*row + column))) / (n_batchs : ℝ) *
      ((n_batchs : ℝ) * (0 + ∑ b ∈ Finset.range n_batchs, scale_ptr (height*width*cidx + (width*row + column)) * dy_ptr (channels*height*width*b + (height*width*cidx + (width*row + column)))) -
        (((x_ptr (channels*height*width*bidx + (height*width*cidx + (width*row + column))) - (savedMean (height*width*cidx + (width*row + column)))) * (savedInvVariance (height*width*cidx + (width*row + column)))) * (0 + ∑ b ∈ Finset.range n_batchs, scale_ptr (height*width*cidx + (width*row + column)) * dy_ptr (channels*height*width*b + (height*width*cidx + (width*row + column))) * ((x_ptr (channels*height*width*b + (height*width*cidx + (width*row + column))) - (savedMean (height*width*cidx + (width*row + column)))) * (savedInvVariance (height*width*cidx + (width*row + column))))) + (0 + ∑ b ∈ Finset.range n_batchs, scale_ptr (height*width*cidx + (width*row + column)) * dy_ptr (channels*height*width*b + (height*width*cidx + (width*row + column)))))))
    channels height width cidx row column hc hr hw ?_ ?_ (s, fun _ => 0) (s, fun _ => 0) rfl
  · intro c r w t hcb hrb hwb hne
    refine bwdPerActSavedGroup_dx_frame _ _ _ _ _ _ _ _ _ _ t _ (fun b hbn => ?_)
    intro he
    have h1 := stride_decomp (adjIndex_lt hcb hrb hwb) (adjIndex_lt hc hr hw) he
    exact adjIndex_ne hrb hwb hr hw hne h1.2
  · intro t t' htt
    exact bwdPerActSavedGroup_dx_eval _ _ _ _ _ _ _ _ _ _ t bidx hbx
      (adjIndex_lt hc hr hw) (imgIndex_lt hr hw)

theorem bwdPerActRecomp_dbias_eq (n_batchs channels height width : ℕ)
    (x_ptr dy_ptr scale_ptr savedMean savedInvVariance : ℕ → ℝ) (epsilon : ℝ) (s : BwdState)
    (cidx row column : ℕ) (hc : cidx < channels) (hr : row < height) (hw : column < width) :
    (miopenBNBwdPerActivationRunHost n_batchs channels height width x_ptr dy_ptr scale_ptr epsilon false savedMean savedInvVariance s).dbias (height*width*cidx + (width*row + column))
      = s.dbias (height*width*cidx + (width*row + column)) + ∑ b ∈ Finset.range n_batchs, dy_ptr (channels*height*width*b + (height*width*cidx + (width*row + column))) := by
  simp only [miopenBNBwdPerActivationRunHost, Bool.false_eq_true, if_false]
  refine tripleLoop_locality
    (fun c r w t => bwdPerActRecompGroup n_batchs (channels*height*width) (height*width)
      (height*width*c + (width*r + w)) (width*r + w) x_ptr dy_ptr scale_ptr epsilon t)
    (fun t => t.1.dbias (height*width*cidx + (width*row + column)))
    (fun t => t.1.dbias (height*width*cidx + (width*row + column)) + ∑ b ∈ Finset.range n_batchs, dy_ptr (channels*height*width*b + (height*width*cidx + (width*row + column))))
    channels height width cidx row column hc hr hw ?_ ?_ (s, fun _ => 0) (s, fun _ => 0) rfl
  · intro c r w t hcb hrb hwb hne
    have hadj := adjIndex_ne hrb hwb hr hw hne
    simp only [bwdPerActRecompGroup]
    exact updW_ne _ _ _ _ (Ne.symm hadj)
  · intro t t' htt
    have htt' : t.1.dbias (height*width*cidx + (width*row + column)) = t'.1.dbias (height*width*cidx + (width*row + column)) := htt
    simp only [bwdPerActRecompGroup]
    rw [bwdPerActGroup_p1 n_batchs (channels*height*width) (height*width) (height*width*cidx + (width*row + column)) (width*row + column) x_ptr dy_ptr scale_ptr (meanAccum n_batchs (channels*height*width) (height*width*cidx + (width*row + column)) x_ptr / (n_batchs : ℝ)) (1 / Real.sqrt (varianceAccum n_batchs (channels*height*width) (height*width*cidx + (width*row + column)) x_ptr (meanAccum n_batchs (channels*height*width) (height*width*cidx + (width*row + column)) x_ptr / (n_batchs : ℝ)) / (n_batchs : ℝ) + epsilon)) t.2 (t.1.dbias (height*width*cidx + (width*row + column))) (t.1.dscale (height*width*cidx + (width*row + column)))]
    simp only []
    rw [updW_same, htt']

theorem bwdPerActRecomp_dscale_eq (n_batchs channels height width : ℕ)
    (x_ptr dy_ptr scale_ptr savedMean savedInvVariance : ℕ → ℝ) (epsilon : ℝ) (s : BwdState)
    (cidx row column : ℕ) (hc : cidx < channels) (hr : row < height) (hw : column < width) :
    (miopenBNBwdPerActivationRunHost n_batchs channels height width x_ptr dy_ptr scale_ptr epsilon false savedMean savedInvVariance s).dscale (height*width*cidx + (width*row + column))
      = (s.dscale (height*width*cidx + (width*row + column)) + ∑ b ∈ Finset.range n_batchs, ((x_ptr (channels*height*width*b + (height*width*cidx + (width*row + column))) - (meanAccum n_batchs (channels*height*width) (height*width*cidx + (width*row + column)) x_ptr / (n_batchs : ℝ))) * (1 / Real.sqrt (varianceAccum n_batchs (channels*height*width) (height*width*cidx + (width*row + column)) x_ptr (meanAccum n_batchs (channels*height*width) (height*width*cidx + (width*row + column)) x_ptr / (n_batchs : ℝ)) / (n_batchs : ℝ) + epsilon))) * dy_ptr (channels*height*width*b + (height*width*cidx + (width*row + column)))) / (n_batchs : ℝ) := by
  simp only [miopenBNBwdPerActivationRunHost, Bool.false_eq_true, if_false]
  refine tripleLoop_locality
    (fun c r w t => bwdPerActRecompGroup n_batchs (channels*height*width) (height*width)
      (height*width*c + (width*r + w)) (width*r + w) x_ptr dy_ptr scale_ptr epsilon t)
    (fun t => t.1.dscale (height*width*cidx + (width*row + column)))
    (fun t => (t.1.dscale (height*width*cidx + (width*row + column)) + ∑ b ∈ Finset.range n_batchs, ((x_ptr (channels*height*width*b + (height*width*cidx + (width*row + column))) - (meanAccum n_batchs (channels*height*width) (height*width*cidx + (width*row + column)) x_ptr / (n_batchs : ℝ))) * (1 / Real.sqrt (varianceAccum n_batchs (channels*height*width) (height*width*cidx + (width*row + column)) x_ptr (meanAccum n_batchs (channels*height*width) (height*width*cidx + (width*row + column)) x_ptr / (n_batchs : ℝ)) / (n_batchs : ℝ) + epsilon))) * dy_ptr (channels*height*width*b + (height*width*cidx + (width*row + column)))) / (n_batchs : ℝ))
    channels height width cidx row column hc hr hw ?_ ?_ (s, fun _ => 0) (s, fun _ => 0) rfl
  · intro c r w t hcb hrb hwb hne
    have hadj := adjIndex_ne hrb hwb hr hw hne
    simp only [bwdPerActRecompGroup]
    exact updW_ne _ _ _ _ (Ne.symm hadj)
  · intro t t' htt
    have htt' : t.1.dscale (height*width*cidx + (width*row + column)) = t'.1.dscale (height*width*cidx + (width*row + column)) := htt
    simp only [bwdPerActRecompGroup]
    rw [bwdPerActGroup_p1 n_batchs (channels*height*width) (height*width) (height*width*cidx + (width*row + column)) (width*row + column) x_ptr dy_ptr scale_ptr (meanAccum n_batchs (channels*height*width) (height*width*cidx + (width*row + column)) x_ptr / (n_batchs : ℝ)) (1 / Real.sqrt (varianceAccum n_batchs (channels*height*width) (height*width*cidx + (width*row + column)) x_ptr (meanAccum n_batchs (channels*height*width) (height*width*cidx + (width*row + column)) x_ptr / (n_batchs : ℝ)) / (n_batchs : ℝ) + epsilon)) t.2 (t.1.dbias (height*width*cidx + (width*row + column))) (t.1.dscale (height*width*cidx + (width*row + column)))]
    simp only []
    rw [updW_same, htt']

theorem bwdPerActRecomp_dx_eq (n_batchs channels height width : ℕ)
    (x_ptr dy_ptr scale_ptr savedMean savedInvVariance : ℕ → ℝ) (epsilon : ℝ) (s : BwdState)
    (cidx row column bidx : ℕ) (hc : cidx < channels) (hr : row < height)
    (hw : column < width) (hbx : bidx < n_batchs) :
    (miopenBNBwdPerActivationRunHost n_batchs channels height width x_ptr dy_ptr scale_ptr epsilon false savedMean savedInvVariance s).dx (channels*height*width*bidx + (height*width*cidx + (width*row + column)))
      = (1 / Real.sqrt (varianceAccum n_batchs (channels*height*width) (height*width*cidx + (width*row + column)) x_ptr (meanAccum n_batchs (channels*height*width) (height*width*cidx + (width*row + column)) x_ptr / (n_batchs : ℝ)) / (n_batchs : ℝ) + epsilon)) / (n_batchs : ℝ) *
          ((n_batchs : ℝ) * (0 + ∑ b ∈ Finset.range n_batchs, scale_ptr (height*width*cidx + (width*row + column)) * dy_ptr (channels*height*width*b + (height*width*cidx + (width*row + column)))) -
            (((x_ptr (channels*height*width*bidx + (height*width*cidx + (width*row + column))) - (meanAccum n_batchs (channels*height*width) (height*width*cidx + (width*row + column)) x_ptr / (n_batchs : ℝ))) * (1 / Real.sqrt (varianceAccum n_batchs (channels*height*width) (height*width*cidx + (width*row + column)) x_ptr (meanAccum n_batchs (channels*height*width) (height*width*cidx + (width*row + column)) x_ptr / (n_batchs : ℝ)) / (n_batchs : ℝ) + epsilon))) * (0 + ∑ b ∈ Finset.range n_batchs, scale_ptr (height*width*cidx + (width*row + column)) * dy_ptr (channels*height*width*b + (height*width*cidx + (width*row + column))) * ((x_ptr (channels*height*width*b + (height*width*cidx + (width*row + column))) - (meanAccum n_batchs (channels*height*width) (height*width*cidx + (width*row + column)) x_ptr / (n_batchs : ℝ))) * (1 / Real.sqrt (varianceAccum n_batchs (channels*height*width) (height*width*cidx + (width*row + column)) x_ptr (meanAccum n_batchs (channels*height*width) (height*width*cidx + (width*row + column)) x_ptr / (n_batchs : ℝ)) / (n_batchs : ℝ) + epsilon)))) + (0 + ∑ b ∈ Finset.range n_batchs, scale_ptr (height*width*cidx + (width*row + column)) * dy_ptr (channels*height*width*b + (height*width*cidx + (width*row + column)))))) := by
  simp only [miopenBNBwdPerActivationRunHost, Bool.false_eq_true, if_false]
  refine tripleLoop_locality
    (fun c r w t => bwdPerActRecompGroup n_batchs (channels*height*width) (height*width)
      (height*width*c + (width*r + w)) (width*r + w) x_ptr dy_ptr scale_ptr epsilon t)
    (fun t => t.1.dx (channels*height*width*bidx + (height*width*cidx + (width*row + column))))
    (fun _ => (1 / Real.sqrt (varianceAccum n_batchs (channels*height*width) (height*width*cidx + (width*row + column)) x_ptr (meanAccum n_batchs (channels*height*width) (height*width*cidx + (width*row + column)) x_ptr / (n_batchs : ℝ)) / (n_batchs : ℝ) + epsilon)) / (n_batchs : ℝ) *
      ((n_batchs : ℝ) * (0 + ∑ b ∈ Finset.range n_batchs, scale_ptr (height*width*cidx + (width*row + column)) * dy_ptr (channels*height*width*b + (height*width*cidx + (width*row + column)))) -
        (((x_ptr (channels*height*width*bidx + (height*width*cidx + (width*row + column))) - (meanAccum n_batchs (channels*height*width) (height*width*cidx + (width*row + column)) x_ptr / (n_batchs : ℝ))) * (1 / Real.sqrt (varianceAccum n_batchs (channels*height*width) (height*width*cidx + (width*row + column)) x_ptr (meanAccum n_batchs (channels*height*width) (height*width*cidx + (width*row + column)) x_ptr / (n_batchs : ℝ)) / (n_batchs : ℝ) + epsilon))) * (0 + ∑ b ∈ Finset.range n_batchs, scale_ptr (height*width*cidx + (width*row + column)) * dy_ptr (channels*height*width*b + (height*width*cidx + (width*row + column))) * ((x_ptr (channels*height*width*b + (height*width*cidx + (width*row + column))) - (meanAccum n_batchs (channels*height*width) (height*width*cidx + (width*row + column)) x_ptr / (n_batchs : ℝ))) * (1 / Real.sqrt (varianceAccum n_batchs (channels*height*width) (height*width*cidx + (width*row + column)) x_ptr (meanAccum n_batchs (channels*height*width) (height*width*cidx + (width*row + column)) x_ptr / (n_batchs : ℝ)) / (n_batchs : ℝ) + epsilon)))) + (0 + ∑ b ∈ Finset.range n_batchs, scale_ptr (height*width*cidx + (width*row + column)) * dy_ptr (channels*height*width*b + (height*width*cidx + (width*row + column)))))))
    channels height width cidx row column hc hr hw ?_ ?_ (s, fun _ => 0) (s, fun _ => 0) rfl
  · intro c r w t hcb hrb hwb hne
    refine bwdPerActRecompGroup_dx_frame _ _ _ _ _ _ _ _ _ t _ (fun b hbn => ?_)
    intro he
    have h1 := stride_decomp (adjIndex_lt hcb hrb hwb) (adjIndex_lt hc hr hw) he
    exact adjIndex_ne hrb hwb hr hw hne h1.2
  · intro t t' htt
    exact bwdPerActRecompGroup_dx_eval _ _ _ _ _ _ _ _ _ t bidx hbx
      (adjIndex_lt hc hr hw) (imgIndex_lt hr hw)

/-- Pass 1 of the saved-statistics spatial backward splits into the `dbias`
and `dscale` accumulations. -/
theorem bwdSpatialSavedChannel_p1 (n_batchs channels height width cidx : ℕ)
    (x_ptr dy_ptr : ℕ → ℝ) (mean invVar : ℝ) (db ds : ℝ) :
    ((List.range height).foldl (fun p row =>
      (List.range width).foldl (fun p column =>
        (List.range n_batchs).foldl (fun p bidx => ((p : ℝ × ℝ).1 + dy_ptr (channels*height*width*bidx + (height*width*cidx + (width*row + column))), p.2 + (x_ptr (channels*height*width*bidx + (height*width*cidx + (width*row + column))) - mean)*invVar*dy_ptr (channels*height*width*bidx + (height*width*cidx + (width*row + column))))) p) p) ((db, ds) : ℝ × ℝ))
    = (db + (∑ r ∈ Finset.range height, ∑ w ∈ Finset.range width, ∑ b ∈ Finset.range n_batchs, dy_ptr (channels*height*width*b + (height*width*cidx + (width*r + w)))), ds + (∑ r ∈ Finset.range height, ∑ w ∈ Finset.range width, ∑ b ∈ Finset.range n_batchs, (x_ptr (channels*height*width*b + (height*width*cidx + (width*r + w))) - mean)*invVar*dy_ptr (channels*height*width*b + (height*width*cidx + (width*r + w))))) := by
  have hbatch : ∀ (row column : ℕ) (p : ℝ × ℝ),
      (List.range n_batchs).foldl (fun p bidx => ((p : ℝ × ℝ).1 + dy_ptr (channels*height*width*bidx + (height*width*cidx + (width*row + column))), p.2 + (x_ptr (channels*height*width*bidx + (height*width*cidx + (width*row + column))) - mean)*invVar*dy_ptr (channels*height*width*bidx + (height*width*cidx + (width*row + column))))) p
      = ((List.range n_batchs).foldl (fun a bidx => (a : ℝ) + dy_ptr (channels*height*width*bidx + (height*width*cidx + (width*row + column)))) p.1,
         (List.range n_batchs).foldl (fun a bidx => (a : ℝ) + (x_ptr (channels*height*width*bidx + (height*width*cidx + (width*row + column))) - mean)*invVar*dy_ptr (channels*height*width*bidx + (height*width*cidx + (width*row + column)))) p.2) :=
    fun row column p => foldl_prod_split (fun p bidx => ((p : ℝ × ℝ).1 + dy_ptr (channels*height*width*bidx + (height*width*cidx + (width*row + column))), p.2 + (x_ptr (channels*height*width*bidx + (height*width*cidx + (width*row + column))) - mean)*invVar*dy_ptr (channels*height*width*bidx + (height*width*cidx + (width*row + column))))) (fun a bidx => (a : ℝ) + dy_ptr (channels*height*width*bidx + (height*width*cidx + (width*row + column)))) (fun a bidx => (a : ℝ) + (x_ptr (channels*height*width*bidx + (height*width*cidx + (width*row + column))) - mean)*invVar*dy_ptr (channels*height*width*bidx + (height*width*cidx + (width*row + column))))
      (List.range n_batchs) (fun p b _ => rfl) p
  have hcol : ∀ (row : ℕ) (p : ℝ × ℝ),
      (List.range width).foldl (fun p column =>
        (List.range n_batchs).foldl (fun p bidx => ((p : ℝ × ℝ).1 + dy_ptr (channels*height*width*bidx + (height*width*cidx + (width*row + column))), p.2 + (x_ptr (channels*height*width*bidx + (height*width*cidx + (width*row + column))) - mean)*invVar*dy_ptr (channels*height*width*bidx + (height*width*cidx + (width*row + column))))) p) p
      = ((List.range width).foldl (fun a column => (List.range n_batchs).foldl (fun a bidx => (a : ℝ) + dy_ptr (channels*height*width*bidx + (height*width*cidx + (width*row + column)))) a) p.1,
         (List.range width).foldl (fun a column => (List.range n_batchs).foldl (fun a bidx => (a : ℝ) + (x_ptr (channels*height*width*bidx + (height*width*cidx + (width*row + column))) - mean)*invVar*dy_ptr (channels*height*width*bidx + (height*width*cidx + (width*row + column)))) a) p.2) :=
    fun row p => foldl_prod_split
      (fun p column => (List.range n_batchs).foldl (fun p bidx => ((p : ℝ × ℝ).1 + dy_ptr (channels*height*width*bidx + (height*width*cidx + (width*row + column))), p.2 + (x_ptr (channels*height*width*bidx + (height*width*cidx + (width*row + column))) - mean)*invVar*dy_ptr (channels*height*width*bidx + (height*width*cidx + (width*row + column))))) p)
      (fun a column => (List.range n_batchs).foldl (fun a bidx => (a : ℝ) + dy_ptr (channels*height*width*bidx + (height*width*cidx + (width*row + column)))) a)
      (fun a column => (List.range n_batchs).foldl (fun a bidx => (a : ℝ) + (x_ptr (channels*height*width*bidx + (height*width*cidx + (width*row + column))) - mean)*invVar*dy_ptr (channels*height*width*bidx + (height*width*cidx + (width*row + column)))) a)
      (List.range width) (fun p w _ => hbatch row w p) p
  rw [foldl_prod_split
    (fun p row => (List.range width).foldl (fun p column =>
      (List.range n_batchs).foldl (fun p bidx => ((p : ℝ × ℝ).1 + dy_ptr (channels*height*width*bidx + (height*width*cidx + (width*row + column))), p.2 + (x_ptr (channels*height*width*bidx + (height*width*cidx + (width*row + column))) - mean)*invVar*dy_ptr (channels*height*width*bidx + (height*width*cidx + (width*row + column))))) p) p)
    (fun a row => (List.range width).foldl (fun a column =>
      (List.range n_batchs).foldl (fun a bidx => (a : ℝ) + dy_ptr (channels*height*width*bidx + (height*width*cidx + (width*row + column)))) a) a)
    (fun a row => (List.range width).foldl (fun a column =>
      (List.range n_batchs).foldl (fun a bidx => (a : ℝ) + (x_ptr (channels*height*width*bidx + (height*width*cidx + (width*row + column))) - mean)*invVar*dy_ptr (channels*height*width*bidx + (height*width*cidx + (width*row + column)))) a) a)
    (List.range height) (fun p r _ => hcol r p) ((db, ds) : ℝ × ℝ)]
  rw [foldl_add_range3 height width n_batchs (fun r w b => dy_ptr (channels*height*width*b + (height*width*cidx + (width*r + w)))) db,
    foldl_add_range3 height width n_batchs
      (fun r w b => (x_ptr (channels*height*width*b + (height*width*cidx + (width*r + w))) - mean)*invVar*dy_ptr (channels*height*width*b + (height*width*cidx + (width*r + w)))) ds]

/-- Pass 1 of the recomputing spatial backward splits into the `xhat` writes
and the `dbias`/`dscale` accumulations. -/
theorem bwdSpatialRecompChannel_p1 (n_batchs channels height width cidx : ℕ)
    (x_ptr dy_ptr : ℕ → ℝ) (mean invVar : ℝ) (xh0 : ℕ → ℝ) (db ds : ℝ) :
    ((List.range height).foldl (fun p row =>
      (List.range width).foldl (fun p column =>
        (List.range n_batchs).foldl (fun p bidx =>
          (updW p.1 (height*width*bidx + (width*row + column)) ((x_ptr (channels*height*width*bidx + (height*width*cidx + (width*row + column))) - mean)*invVar),
           p.2.1 + dy_ptr (channels*height*width*bidx + (height*width*cidx + (width*row + column))),
           p.2.2 + ((x_ptr (channels*height*width*bidx + (height*width*cidx + (width*row + column))) - mean)*invVar)*dy_ptr (channels*height*width*bidx + (height*width*cidx + (width*row + column))))) p) p)
      ((xh0, db, ds) : (ℕ → ℝ) × ℝ × ℝ))
    = ((List.range height).foldl (fun o row =>
        (List.range width).foldl (fun o column =>
          (List.range n_batchs).foldl (fun o bidx => updW o (height*width*bidx + (width*row + column)) ((x_ptr (channels*height*width*bidx + (height*width*cidx + (width*row + column))) - mean)*invVar)) o) o) xh0,
       db + (∑ r ∈ Finset.range height, ∑ w ∈ Finset.range width, ∑ b ∈ Finset.range n_batchs, dy_ptr (channels*height*width*b + (height*width*cidx + (width*r + w)))),
       ds + (∑ r ∈ Finset.range height, ∑ w ∈ Finset.range width, ∑ b ∈ Finset.range n_batchs, ((x_ptr (channels*height*width*b + (height*width*cidx + (width*r + w))) - mean)*invVar)*dy_ptr (channels*height*width*b + (height*width*cidx + (width*r + w))))) := by
  have hbatch : ∀ (row column : ℕ) (p : (ℕ → ℝ) × ℝ × ℝ),
      (List.range n_batchs).foldl (fun p bidx =>
          (updW p.1 (height*width*bidx + (width*row + column)) ((x_ptr (channels*height*width*bidx + (height*width*cidx + (width*row + column))) - mean)*invVar),
           p.2.1 + dy_ptr (channels*height*width*bidx + (height*width*cidx + (width*row + column))),
           p.2.2 + ((x_ptr (channels*height*width*bidx + (height*width*cidx + (width*row + column))) - mean)*invVar)*dy_ptr (channels*height*width*bidx + (height*width*cidx + (width*row + column))))) p
      = ((List.range n_batchs).foldl (fun o bidx => updW o (height*width*bidx + (width*row + column)) ((x_ptr (channels*height*width*bidx + (height*width*cidx + (width*row + column))) - mean)*invVar)) p.1,
         (List.range n_batchs).foldl (fun q bidx => ((q : ℝ × ℝ).1 + dy_ptr (channels*height*width*bidx + (height*width*cidx + (width*row + column))), q.2 + ((x_ptr (channels*height*width*bidx + (height*width*cidx + (width*row + column))) - mean)*invVar)*dy_ptr (channels*height*width*bidx + (height*width*cidx + (width*row + column))))) p.2) :=
    fun row column p => foldl_prod_split (fun p bidx =>
          (updW p.1 (height*width*bidx + (width*row + column)) ((x_ptr (channels*height*width*bidx + (height*width*cidx + (width*row + column))) - mean)*invVar),
           p.2.1 + dy_ptr (channels*height*width*bidx + (height*width*cidx + (width*row + column))),
           p.2.2 + ((x_ptr (channels*height*width*bidx + (height*width*cidx + (width*row + column))) - mean)*invVar)*dy_ptr (channels*height*width*bidx + (height*width*cidx + (width*row + column))))) (fun o bidx => updW o (height*width*bidx + (width*row + column)) ((x_ptr (channels*height*width*bidx + (height*width*cidx + (width*row + column))) - mean)*invVar)) (fun q bidx => ((q : ℝ × ℝ).1 + dy_ptr (channels*height*width*bidx + (height*width*cidx + (width*row + column))), q.2 + ((x_ptr (channels*height*width*bidx + (height*width*cidx + (width*row + column))) - mean)*invVar)*dy_ptr (channels*height*width*bidx + (height*width*cidx + (width*row + column)))))
      (List.range n_batchs) (fun p b _ => rfl) p
  have hcol : ∀ (row : ℕ) (p : (ℕ → ℝ) × ℝ × ℝ),
      (List.range width).foldl (fun p column =>
        (List.range n_batchs).foldl (fun p bidx =>
          (updW p.1 (height*width*bidx + (width*row + column)) ((x_ptr (channels*height*width*bidx + (height*width*cidx + (width*row + column))) - mean)*invVar),
           p.2.1 + dy_ptr (channels*height*width*bidx + (height*width*cidx + (width*row + column))),
           p.2.2 + ((x_ptr (channels*height*width*bidx + (height*width*cidx + (width*row + column))) - mean)*invVar)*dy_ptr (channels*height*width*bidx + (height*width*cidx + (width*row + column))))) p) p
      = ((List.range width).foldl (fun o column => (List.range n_batchs).foldl (fun o bidx => updW o (height*width*bidx + (width*row + column)) ((x_ptr (channels*height*width*bidx + (height*width*cidx + (width*row + column))) - mean)*invVar)) o) p.1,
         (List.range width).foldl (fun a column => (List.range n_batchs).foldl (fun q bidx => ((q : ℝ × ℝ).1 + dy_ptr (channels*height*width*bidx + (height*width*cidx + (width*row + column))), q.2 + ((x_ptr (channels*height*width*bidx + (height*width*cidx + (width*row + column))) - mean)*invVar)*dy_ptr (channels*height*width*bidx + (height*width*cidx + (width*row + column))))) a) p.2) :=
    fun row p => foldl_prod_split
      (fun p column => (List.range n_batchs).foldl (fun p bidx =>
          (updW p.1 (height*width*bidx + (width*row + column)) ((x_ptr (channels*height*width*bidx + (height*width*cidx + (width*row + column))) - mean)*invVar),
           p.2.1 + dy_ptr (channels*height*width*bidx + (height*width*cidx + (width*row + column))),
           p.2.2 + ((x_ptr (channels*height*width*bidx + (height*width*cidx + (width*row + column))) - mean)*invVar)*dy_ptr (channels*height*width*bidx + (height*width*cidx + (width*row + column))))) p)
      (fun o column => (List.range n_batchs).foldl (fun o bidx => updW o (height*width*bidx + (width*row + column)) ((x_ptr (channels*height*width*bidx + (height*width*cidx + (width*row + column))) - mean)*invVar)) o)
      (fun a column => (List.range n_batchs).foldl (fun q bidx => ((q : ℝ × ℝ).1 + dy_ptr (channels*height*width*bidx + (height*width*cidx + (width*row + column))), q.2 + ((x_ptr (channels*height*width*bidx + (height*width*cidx + (width*row + column))) - mean)*invVar)*dy_ptr (channels*height*width*bidx + (height*width*cidx + (width*row + column))))) a)
      (List.range width) (fun p w _ => hbatch row w p) p
  rw [foldl_prod_split
    (fun p row => (List.range width).foldl (fun p column =>
      (List.range n_batchs).foldl (fun p bidx =>
          (updW p.1 (height*width*bidx + (width*row + column)) ((x_ptr (channels*height*width*bidx + (height*width*cidx + (width*row + column))) - mean)*invVar),
           p.2.1 + dy_ptr (channels*height*width*bidx + (height*width*cidx + (width*row + column))),
           p.2.2 + ((x_ptr (channels*height*width*bidx + (height*width*cidx + (width*row + column))) - mean)*invVar)*dy_ptr (channels*height*width*bidx + (height*width*cidx + (width*row + column))))) p) p)
    (fun o row => (List.range width).foldl (fun o column =>
      (List.range n_batchs).foldl (fun o bidx => updW o (height*width*bidx + (width*row + column)) ((x_ptr (channels*height*width*bidx + (height*width*cidx + (width*row + column))) - mean)*invVar)) o) o)
    (fun a row => (List.range width).foldl (fun a column =>
      (List.range n_batchs).foldl (fun q bidx => ((q : ℝ × ℝ).1 + dy_ptr (channels*height*width*bidx + (height*width*cidx + (width*row + column))), q.2 + ((x_ptr (channels*height*width*bidx + (height*width*cidx + (width*row + column))) - mean)*invVar)*dy_ptr (channels*height*width*bidx + (height*width*cidx + (width*row + column))))) a) a)
    (List.range height) (fun p r _ => hcol r p) ((xh0, db, ds) : (ℕ → ℝ) × ℝ × ℝ)]
  rw [show ((List.range height).foldl (fun a row =>
      (List.range width).foldl (fun a column =>
        (List.range n_batchs).foldl (fun q bidx => ((q : ℝ × ℝ).1 + dy_ptr (channels*height*width*bidx + (height*width*cidx + (width*row + column))), q.2 + ((x_ptr (channels*height*width*bidx + (height*width*cidx + (width*row + column))) - mean)*invVar)*dy_ptr (channels*height*width*bidx + (height*width*cidx + (width*row + column))))) a) a) ((db, ds) : ℝ × ℝ))
    = (db + (∑ r ∈ Finset.range height, ∑ w ∈ Finset.range width, ∑ b ∈ Finset.range n_batchs, dy_ptr (channels*height*width*b + (height*width*cidx + (width*r + w)))), ds + (∑ r ∈ Finset.range height, ∑ w ∈ Finset.range width, ∑ b ∈ Finset.range n_batchs, ((x_ptr (channels*height*width*b + (height*width*cidx + (width*r + w))) - mean)*invVar)*dy_ptr (channels*height*width*b + (height*width*cidx + (width*r + w))))) from
    bwdSpatialSavedChannel_p1 n_batchs channels height width cidx x_ptr dy_ptr mean invVar db ds]

theorem bwdSpatialSaved_eq (n_batchs channels height width : ℕ)
    (x_ptr dy_ptr scale_ptr savedMean savedInvVariance : ℕ → ℝ) (epsilon : ℝ) (s : BwdState)
    (cidx row column bidx : ℕ) (hc : cidx < channels) (hrow : row < height)
    (hcol : column < width) (hbx : bidx < n_batchs) :
    ((miopenBNBwdSpatialRunHost n_batchs channels height width x_ptr dy_ptr scale_ptr epsilon
        true savedMean savedInvVariance s).dbias cidx,
     (miopenBNBwdSpatialRunHost n_batchs channels height width x_ptr dy_ptr scale_ptr epsilon
        true savedMean savedInvVariance s).dscale cidx,
     (miopenBNBwdSpatialRunHost n_batchs channels height width x_ptr dy_ptr scale_ptr epsilon
        true savedMean savedInvVariance s).dx (channels*height*width*bidx + (height*width*cidx + (width*row + column))))
      = (s.dbias cidx + (∑ r ∈ Finset.range height, ∑ w ∈ Finset.range width, ∑ b ∈ Finset.range n_batchs, dy_ptr (channels*height*width*b + (height*width*cidx + (width*r + w)))),
         (s.dscale cidx + (∑ r ∈ Finset.range height, ∑ w ∈ Finset.range width, ∑ b ∈ Finset.range n_batchs, (x_ptr (channels*height*width*b + (height*width*cidx + (width*r + w))) - savedMean cidx)*savedInvVariance cidx*dy_ptr (channels*height*width*b + (height*width*cidx + (width*r + w))))) / ((n_batchs*(height*width) : ℕ) : ℝ),
         scale_ptr cidx*savedInvVariance cidx/((n_batchs*(height*width) : ℕ) : ℝ) * (-((x_ptr (channels*height*width*bidx + (height*width*cidx + (width*row + column))) - savedMean cidx)*savedInvVariance cidx)*((s.dscale cidx + (∑ r ∈ Finset.range height, ∑ w ∈ Finset.range width, ∑ b ∈ Finset.range n_batchs, (x_ptr (channels*height*width*b + (height*width*cidx + (width*r + w))) - savedMean cidx)*savedInvVariance cidx*dy_ptr (channels*height*width*b + (height*width*cidx + (width*r + w)))))/((n_batchs*(height*width) : ℕ) : ℝ)) + (((n_batchs*(height*width) : ℕ) : ℝ)*dy_ptr (channels*height*width*bidx + (height*width*cidx + (width*row + column))) - (s.dbias cidx + (∑ r ∈ Finset.range height, ∑ w ∈ Finset.range width, ∑ b ∈ Finset.range n_batchs, dy_ptr (channels*height*width*b + (height*width*cidx + (width*r + w)))))))) := by
  simp only [miopenBNBwdSpatialRunHost, if_true]
  refine foldl_range_locality
    (fun t c => bwdSpatialSavedChannel n_batchs channels height width c x_ptr dy_ptr
      scale_ptr savedMean savedInvVariance t)
    (fun t => (t.dbias cidx, t.dscale cidx, t.dx (channels*height*width*bidx + (height*width*cidx + (width*row + column)))))
    (fun t => (t.dbias cidx + (∑ r ∈ Finset.range height, ∑ w ∈ Finset.range width, ∑ b ∈ Finset.range n_batchs, dy_ptr (channels*height*width*b + (height*width*cidx + (width*r + w)))),
               (t.dscale cidx + (∑ r ∈ Finset.range height, ∑ w ∈ Finset.range width, ∑ b ∈ Finset.range n_batchs, (x_ptr (channels*height*width*b + (height*width*cidx + (width*r + w))) - savedMean cidx)*savedInvVariance cidx*dy_ptr (channels*height*width*b + (height*width*cidx + (width*r + w))))) / ((n_batchs*(height*width) : ℕ) : ℝ),
               scale_ptr cidx*savedInvVariance cidx/((n_batchs*(height*width) : ℕ) : ℝ) * (-((x_ptr (channels*height*width*bidx + (height*width*cidx + (width*row + column))) - savedMean cidx)*savedInvVariance cidx)*((t.dscale cidx + (∑ r ∈ Finset.range height, ∑ w ∈ Finset.range width, ∑ b ∈ Finset.range n_batchs, (x_ptr (channels*height*width*b + (height*width*cidx + (width*r + w))) - savedMean cidx)*savedInvVariance cidx*dy_ptr (channels*height*width*b + (height*width*cidx + (width*r + w)))))/((n_batchs*(height*width) : ℕ) : ℝ)) + (((n_batchs*(height*width) : ℕ) : ℝ)*dy_ptr (channels*height*width*bidx + (height*width*cidx + (width*row + column))) - (t.dbias cidx + (∑ r ∈ Finset.range height, ∑ w ∈ Finset.range width, ∑ b ∈ Finset.range n_batchs, dy_ptr (channels*height*width*b + (height*width*cidx + (width*r + w)))))))))
    channels cidx hc ?_ ?_ s s rfl
  · intro t c hcn hne
    simp only [bwdSpatialSavedChannel, updW_same]
    rw [bwdSpatialSavedChannel_p1 n_batchs channels height width c x_ptr dy_ptr
      (savedMean c) (savedInvVariance c) (t.dbias c) (t.dscale c)]
    simp only []
    refine congrArg₂ Prod.mk ?_ (congrArg₂ Prod.mk ?_ ?_)
    · exact updW_ne _ _ _ _ (Ne.symm hne)
    · exact updW_ne _ _ _ _ (Ne.symm hne)
    · exact foldl_rmw_triple_frame height width n_batchs
        (fun r w b => channels*height*width*b + (height*width*c + (width*r + w)))
        (fun r w b cur => scale_ptr c*savedInvVariance c/((n_batchs*(height*width) : ℕ) : ℝ) * (-((x_ptr (channels*height*width*b + (height*width*c + (width*r + w))) - savedMean c)*savedInvVariance c)*((t.dscale c + (∑ r ∈ Finset.range height, ∑ w ∈ Finset.range width, ∑ b ∈ Finset.range n_batchs, (x_ptr (channels*height*width*b + (height*width*c + (width*r + w))) - savedMean c)*savedInvVariance c*dy_ptr (channels*height*width*b + (height*width*c + (width*r + w)))))/((n_batchs*(height*width) : ℕ) : ℝ)) + (((n_batchs*(height*width) : ℕ) : ℝ)*dy_ptr (channels*height*width*b + (height*width*c + (width*r + w))) - (t.dbias c + (∑ r ∈ Finset.range height, ∑ w ∈ Finset.range width, ∑ b ∈ Finset.range n_batchs, dy_ptr (channels*height*width*b + (height*width*c + (width*r + w))))))))
        t.dx _ (fun r w b h1 h2 h3 => spatialIndex_ne hcn h1 h2 hc hrow hcol hne)
  · intro t t' htt
    have h1 : t.dbias cidx = t'.dbias cidx := congrArg Prod.fst htt
    have h2 : t.dscale cidx = t'.dscale cidx := congrArg (fun q => q.2.1) htt
    simp only [bwdSpatialSavedChannel, updW_same]
    rw [bwdSpatialSavedChannel_p1 n_batchs channels height width cidx x_ptr dy_ptr
      (savedMean cidx) (savedInvVariance cidx) (t.dbias cidx) (t.dscale cidx)]
    simp only []
    refine congrArg₂ Prod.mk ?_ (congrArg₂ Prod.mk ?_ ?_)
    · rw [h1]
    · rw [h2]
    · refine Eq.trans (foldl_rmw_triple_eval height width n_batchs
        (fun r w b => channels*height*width*b + (height*width*cidx + (width*r + w)))
        (fun r w b cur => scale_ptr cidx*savedInvVariance cidx/((n_batchs*(height*width) : ℕ) : ℝ) * (-((x_ptr (channels*height*width*b + (height*width*cidx + (width*r + w))) - savedMean cidx)*savedInvVariance cidx)*((t.dscale cidx + (∑ r ∈ Finset.range height, ∑ w ∈ Finset.range width, ∑ b ∈ Finset.range n_batchs, (x_ptr (channels*height*width*b + (height*width*cidx + (width*r + w))) - savedMean cidx)*savedInvVariance cidx*dy_ptr (channels*height*width*b + (height*width*cidx + (width*r + w)))))/((n_batchs*(height*width) : ℕ) : ℝ)) + (((n_batchs*(height*width) : ℕ) : ℝ)*dy_ptr (channels*height*width*b + (height*width*cidx + (width*r + w))) - (t.dbias cidx + (∑ r ∈ Finset.range height, ∑ w ∈ Finset.range width, ∑ b ∈ Finset.range n_batchs, dy_ptr (channels*height*width*b + (height*width*cidx + (width*r + w))))))))
        row column bidx hrow hcol hbx
        (fun r w b ha hb2 hc2 he => spatialIndex_inj hc ha hb2 hrow hcol he) t.dx) ?_
      rw [h1, h2]

theorem bwdSpatialRecomp_eq (n_batchs channels height width : ℕ)
    (x_ptr dy_ptr scale_ptr savedMean savedInvVariance : ℕ → ℝ) (epsilon : ℝ) (s : BwdState)
    (cidx row column bidx : ℕ) (hc : cidx < channels) (hrow : row < height)
    (hcol : column < width) (hbx : bidx < n_batchs) :
    ((miopenBNBwdSpatialRunHost n_batchs channels height width x_ptr dy_ptr scale_ptr epsilon
        false savedMean savedInvVariance s).dbias cidx,
     (miopenBNBwdSpatialRunHost n_batchs channels height width x_ptr dy_ptr scale_ptr epsilon
        false savedMean savedInvVariance s).dscale cidx,
     (miopenBNBwdSpatialRunHost n_batchs channels height width x_ptr dy_ptr scale_ptr epsilon
        false savedMean savedInvVariance s).dx (channels*height*width*bidx + (height*width*cidx + (width*row + column))))
      = (0 + (∑ r ∈ Finset.range height, ∑ w ∈ Finset.range width, ∑ b ∈ Finset.range n_batchs, dy_ptr (channels*height*width*b + (height*width*cidx + (width*r + w)))),
         (0 + (∑ r ∈ Finset.range height, ∑ w ∈ Finset.range width, ∑ b ∈ Finset.range n_batchs, ((x_ptr (channels*height*width*b + (height*width*cidx + (width*r + w))) - (spatialMeanAccumNoGuard n_batchs channels height width cidx x_ptr / ((n_batchs*(height*width) : ℕ) : ℝ)))*(1 / Real.sqrt (spatialVarAccumNoGuard n_batchs channels height width cidx x_ptr (spatialMeanAccumNoGuard n_batchs channels height width cidx x_ptr / ((n_batchs*(height*width) : ℕ) : ℝ)) / ((n_batchs*(height*width) : ℕ) : ℝ) + epsilon)))*dy_ptr (channels*height*width*b + (height*width*cidx + (width*r + w))))) / ((n_batchs*(height*width) : ℕ) : ℝ),
         scale_ptr cidx*(1 / Real.sqrt (spatialVarAccumNoGuard n_batchs channels height width cidx x_ptr (spatialMeanAccumNoGuard n_batchs channels height width cidx x_ptr / ((n_batchs*(height*width) : ℕ) : ℝ)) / ((n_batchs*(height*width) : ℕ) : ℝ) + epsilon))/((n_batchs*(height*width) : ℕ) : ℝ) *
           (-((x_ptr (channels*height*width*bidx + (height*width*cidx + (width*row + column))) - (spatialMeanAccumNoGuard n_batchs channels height width cidx x_ptr / ((n_batchs*(height*width) : ℕ) : ℝ)))*(1 / Real.sqrt (spatialVarAccumNoGuard n_batchs channels height width cidx x_ptr (spatialMeanAccumNoGuard n_batchs channels height width cidx x_ptr / ((n_batchs*(height*width) : ℕ) : ℝ)) / ((n_batchs*(height*width) : ℕ) : ℝ) + epsilon)))*((0 + (∑ r ∈ Finset.range height, ∑ w ∈ Finset.range width, ∑ b ∈ Finset.range n_batchs, ((x_ptr (channels*height*width*b + (height*width*cidx + (width*r + w))) - (spatialMeanAccumNoGuard n_batchs channels height width cidx x_ptr / ((n_batchs*(height*width) : ℕ) : ℝ)))*(1 / Real.sqrt (spatialVarAccumNoGuard n_batchs channels height width cidx x_ptr (spatialMeanAccumNoGuard n_batchs channels height width cidx x_ptr / ((n_batchs*(height*width) : ℕ) : ℝ)) / ((n_batchs*(height*width) : ℕ) : ℝ) + epsilon)))*dy_ptr (channels*height*width*b + (height*width*cidx + (width*r + w)))))/((n_batchs*(height*width) : ℕ) : ℝ))
             + (((n_batchs*(height*width) : ℕ) : ℝ)*dy_ptr (channels*height*width*bidx + (height*width*cidx + (width*row + column))) - (0 + (∑ r ∈ Finset.range height, ∑ w ∈ Finset.range width, ∑ b ∈ Finset.range n_batchs, dy_ptr (channels*height*width*b + (height*width*cidx + (width*r + w)))))))) := by
  simp only [miopenBNBwdSpatialRunHost, Bool.false_eq_true, if_false]
  refine foldl_range_locality
    (fun t c => bwdSpatialRecompChannel n_batchs channels height width c x_ptr dy_ptr
      scale_ptr epsilon t)
    (fun t => (t.1.dbias cidx, t.1.dscale cidx, t.1.dx (channels*height*width*bidx + (height*width*cidx + (width*row + column)))))
    (fun _ => (0 + (∑ r ∈ Finset.range height, ∑ w ∈ Finset.range width, ∑ b ∈ Finset.range n_batchs, dy_ptr (channels*height*width*b + (height*width*cidx + (width*r + w)))),
               (0 + (∑ r ∈ Finset.range height, ∑ w ∈ Finset.range width, ∑ b ∈ Finset.range n_batchs, ((x_ptr (channels*height*width*b + (height*width*cidx + (width*r + w))) - (spatialMeanAccumNoGuard n_batchs channels height width cidx x_ptr / ((n_batchs*(height*width) : ℕ) : ℝ)))*(1 / Real.sqrt (spatialVarAccumNoGuard n_batchs channels height width cidx x_ptr (spatialMeanAccumNoGuard n_batchs channels height width cidx x_ptr / ((n_batchs*(height*width) : ℕ) : ℝ)) / ((n_batchs*(height*width) : ℕ) : ℝ) + epsilon)))*dy_ptr (channels*height*width*b + (height*width*cidx + (width*r + w))))) / ((n_batchs*(height*width) : ℕ) : ℝ),
               scale_ptr cidx*(1 / Real.sqrt (spatialVarAccumNoGuard n_batchs channels height width cidx x_ptr (spatialMeanAccumNoGuard n_batchs channels height width cidx x_ptr / ((n_batchs*(height*width) : ℕ) : ℝ)) / ((n_batchs*(height*width) : ℕ) : ℝ) + epsilon))/((n_batchs*(height*width) : ℕ) : ℝ) *
                 (-((x_ptr (channels*height*width*bidx + (height*width*cidx + (width*row + column))) - (spatialMeanAccumNoGuard n_batchs channels height width cidx x_ptr / ((n_batchs*(height*width) : ℕ) : ℝ)))*(1 / Real.sqrt (spatialVarAccumNoGuard n_batchs channels height width cidx x_ptr (spatialMeanAccumNoGuard n_batchs channels height width cidx x_ptr / ((n_batchs*(height*width) : ℕ) : ℝ)) / ((n_batchs*(height*width) : ℕ) : ℝ) + epsilon)))*((0 + (∑ r ∈ Finset.range height, ∑ w ∈ Finset.range width, ∑ b ∈ Finset.range n_batchs, ((x_ptr (channels*height*width*b + (height*width*cidx + (width*r + w))) - (spatialMeanAccumNoGuard n_batchs channels height width cidx x_ptr / ((n_batchs*(height*width) : ℕ) : ℝ)))*(1 / Real.sqrt (spatialVarAccumNoGuard n_batchs channels height width cidx x_ptr (spatialMeanAccumNoGuard n_batchs channels height width cidx x_ptr / ((n_batchs*(height*width) : ℕ) : ℝ)) / ((n_batchs*(height*width) : ℕ) : ℝ) + epsilon)))*dy_ptr (channels*height*width*b + (height*width*cidx + (width*r + w)))))/((n_batchs*(height*width) : ℕ) : ℝ))
                   + (((n_batchs*(height*width) : ℕ) : ℝ)*dy_ptr (channels*height*width*bidx + (height*width*cidx + (width*row + column))) - (0 + (∑ r ∈ Finset.range height, ∑ w ∈ Finset.range width, ∑ b ∈ Finset.range n_batchs, dy_ptr (channels*height*width*b + (height*width*cidx + (width*r + w)))))))))
    channels cidx hc ?_ ?_ (s, fun _ => 0) (s, fun _ => 0) rfl
  · intro t c hcn hne
    simp only [bwdSpatialRecompChannel, updW_same]
    rw [bwdSpatialRecompChannel_p1 n_batchs channels height width c x_ptr dy_ptr
      (spatialMeanAccumNoGuard n_batchs channels height width c x_ptr / ((n_batchs*(height*width) : ℕ) : ℝ)) (1 / Real.sqrt (spatialVarAccumNoGuard n_batchs channels height width c x_ptr (spatialMeanAccumNoGuard n_batchs channels height width c x_ptr / ((n_batchs*(height*width) : ℕ) : ℝ)) / ((n_batchs*(height*width) : ℕ) : ℝ) + epsilon)) t.2 0 0]
    simp only [updW_same]
    refine congrArg₂ Prod.mk ?_ (congrArg₂ Prod.mk ?_ ?_)
    · exact (updW_ne _ _ _ _ (Ne.symm hne)).trans (updW_ne _ _ _ _ (Ne.symm hne))
    · exact (updW_ne _ _ _ _ (Ne.symm hne)).trans (updW_ne _ _ _ _ (Ne.symm hne))
    · exact foldl_rmw_triple_frame height width n_batchs
        (fun r w b => channels*height*width*b + (height*width*c + (width*r + w)))
        (fun r w b cur => scale_ptr c*(1 / Real.sqrt (spatialVarAccumNoGuard n_batchs channels height width c x_ptr (spatialMeanAccumNoGuard n_batchs channels height width c x_ptr / ((n_batchs*(height*width) : ℕ) : ℝ)) / ((n_batchs*(height*width) : ℕ) : ℝ) + epsilon))/((n_batchs*(height*width) : ℕ) : ℝ) * (-(((List.range height).foldl (fun o row => (List.range width).foldl (fun o column => (List.range n_batchs).foldl (fun o bidx => updW o (height*width*bidx + (width*row + column)) ((x_ptr (channels*height*width*bidx + (height*width*c + (width*row + column))) - (spatialMeanAccumNoGuard n_batchs channels height width c x_ptr / ((n_batchs*(height*width) : ℕ) : ℝ)))*(1 / Real.sqrt (spatialVarAccumNoGuard n_batchs channels height width c x_ptr (spatialMeanAccumNoGuard n_batchs channels height width c x_ptr / ((n_batchs*(height*width) : ℕ) : ℝ)) / ((n_batchs*(height*width) : ℕ) : ℝ) + epsilon)))) o) o) t.2) (height*width*b + (width*r + w)))*((0 + (∑ r ∈ Finset.range height, ∑ w ∈ Finset.range width, ∑ b ∈ Finset.range n_batchs, ((x_ptr (channels*height*width*b + (height*width*c + (width*r + w))) - (spatialMeanAccumNoGuard n_batchs channels height width c x_ptr / ((n_batchs*(height*width) : ℕ) : ℝ)))*(1 / Real.sqrt (spatialVarAccumNoGuard n_batchs channels height width c x_ptr (spatialMeanAccumNoGuard n_batchs channels height width c x_ptr / ((n_batchs*(height*width) : ℕ) : ℝ)) / ((n_batchs*(height*width) : ℕ) : ℝ) + epsilon)))*dy_ptr (channels*height*width*b + (height*width*c + (width*r + w)))))/((n_batchs*(height*width) : ℕ) : ℝ)) + (((n_batchs*(height*width) : ℕ) : ℝ)*dy_ptr (channels*height*width*b + (height*width*c + (width*r + w))) - (0 + (∑ r ∈ Finset.range height, ∑ w ∈ Finset.range width, ∑ b ∈ Finset.range n_batchs, dy_ptr (channels*height*width*b + (height*width*c + (width*r + w))))))))
        t.1.dx _ (fun r w b h1 h2 h3 => spatialIndex_ne hcn h1 h2 hc hrow hcol hne)
  · intro t t' htt
    simp only [bwdSpatialRecompChannel, updW_same]
    rw [bwdSpatialRecompChannel_p1 n_batchs channels height width cidx x_ptr dy_ptr
      (spatialMeanAccumNoGuard n_batchs channels height width cidx x_ptr / ((n_batchs*(height*width) : ℕ) : ℝ)) (1 / Real.sqrt (spatialVarAccumNoGuard n_batchs channels height width cidx x_ptr (spatialMeanAccumNoGuard n_batchs channels height width cidx x_ptr / ((n_batchs*(height*width) : ℕ) : ℝ)) / ((n_batchs*(height*width) : ℕ) : ℝ) + epsilon)) t.2 0 0]
    simp only [updW_same]
    refine congrArg₂ Prod.mk ?_ (congrArg₂ Prod.mk ?_ ?_)
    · rfl
    · rfl
    · have hxh : ((List.range height).foldl (fun o row => (List.range width).foldl (fun o column => (List.range n_batchs).foldl (fun o bidx => updW o (height*width*bidx + (width*row + column)) ((x_ptr (channels*height*width*bidx + (height*width*cidx + (width*row + column))) - (spatialMeanAccumNoGuard n_batchs channels height width cidx x_ptr / ((n_batchs*(height*width) : ℕ) : ℝ)))*(1 / Real.sqrt (spatialVarAccumNoGuard n_batchs channels height width cidx x_ptr (spatialMeanAccumNoGuard n_batchs channels height width cidx x_ptr / ((n_batchs*(height*width) : ℕ) : ℝ)) / ((n_batchs*(height*width) : ℕ) : ℝ) + epsilon)))) o) o) t.2) (height*width*bidx + (width*row + column))
          = (x_ptr (channels*height*width*bidx + (height*width*cidx + (width*row + column))) - (spatialMeanAccumNoGuard n_batchs channels height width cidx x_ptr / ((n_batchs*(height*width) : ℕ) : ℝ)))*(1 / Real.sqrt (spatialVarAccumNoGuard n_batchs channels height width cidx x_ptr (spatialMeanAccumNoGuard n_batchs channels height width cidx x_ptr / ((n_batchs*(height*width) : ℕ) : ℝ)) / ((n_batchs*(height*width) : ℕ) : ℝ) + epsilon)) :=
        foldl_rmw_triple_eval height width n_batchs
          (fun r w b => height*width*b + (width*r + w))
          (fun r w b _ => (x_ptr (channels*height*width*b + (height*width*cidx + (width*r + w))) - (spatialMeanAccumNoGuard n_batchs channels height width cidx x_ptr / ((n_batchs*(height*width) : ℕ) : ℝ)))*(1 / Real.sqrt (spatialVarAccumNoGuard n_batchs channels height width cidx x_ptr (spatialMeanAccumNoGuard n_batchs channels height width cidx x_ptr / ((n_batchs*(height*width) : ℕ) : ℝ)) / ((n_batchs*(height*width) : ℕ) : ℝ) + epsilon)))
          row column bidx hrow hcol hbx
          (fun r w b ha hb2 hc2 he => xhatIndex_inj ha hb2 hrow hcol he) t.2
      refine Eq.trans (foldl_rmw_triple_eval height width n_batchs
        (fun r w b => channels*height*width*b + (height*width*cidx + (width*r + w)))
        (fun r w b cur => scale_ptr cidx*(1 / Real.sqrt (spatialVarAccumNoGuard n_batchs channels height width cidx x_ptr (spatialMeanAccumNoGuard n_batchs channels height width cidx x_ptr / ((n_batchs*(height*width) : ℕ) : ℝ)) / ((n_batchs*(height*width) : ℕ) : ℝ) + epsilon))/((n_batchs*(height*width) : ℕ) : ℝ) * (-(((List.range height).foldl (fun o row => (List.range width).foldl (fun o column => (List.range n_batchs).foldl (fun o bidx => updW o (height*width*bidx + (width*row + column)) ((x_ptr (channels*height*width*bidx + (height*width*cidx + (width*row + column))) - (spatialMeanAccumNoGuard n_batchs channels height width cidx x_ptr / ((n_batchs*(height*width) : ℕ) : ℝ)))*(1 / Real.sqrt (spatialVarAccumNoGuard n_batchs channels height width cidx x_ptr (spatialMeanAccumNoGuard n_batchs channels height width cidx x_ptr / ((n_batchs*(height*width) : ℕ) : ℝ)) / ((n_batchs*(height*width) : ℕ) : ℝ) + epsilon)))) o) o) t.2) (height*width*b + (width*r + w)))*((0 + (∑ r ∈ Finset.range height, ∑ w ∈ Finset.range width, ∑ b ∈ Finset.range n_batchs, ((x_ptr (channels*height*width*b + (height*width*cidx + (width*r + w))) - (spatialMeanAccumNoGuard n_batchs channels height width cidx x_ptr / ((n_batchs*(height*width) : ℕ) : ℝ)))*(1 / Real.sqrt (spatialVarAccumNoGuard n_batchs channels height width cidx x_ptr (spatialMeanAccumNoGuard n_batchs channels height width cidx x_ptr / ((n_batchs*(height*width) : ℕ) : ℝ)) / ((n_batchs*(height*width) : ℕ) : ℝ) + epsilon)))*dy_ptr (channels*height*width*b + (height*width*cidx + (width*r + w)))))/((n_batchs*(height*width) : ℕ) : ℝ)) + (((n_batchs*(height*width) : ℕ) : ℝ)*dy_ptr (channels*height*width*b + (height*width*cidx + (width*r + w))) - (0 + (∑ r ∈ Finset.range height, ∑ w ∈ Finset.range width, ∑ b ∈ Finset.range n_batchs, dy_ptr (channels*height*width*b + (height*width*cidx + (width*r + w))))))))
        row column bidx hrow hcol hbx
        (fun r w b ha hb2 hc2 he => spatialIndex_inj hc ha hb2 hrow hcol he) t.1.dx) ?_
      rw [hxh]

theorem fwdInferPerActEst_out_eq (n_batchs channels height width : ℕ)
    (in_ptr scale_ptr bias_ptr estimatedMean estimatedVariance : ℕ → ℝ) (epsilon : ℝ)
    (out : ℕ → ℝ) (cidx row column bidx : ℕ) (hc : cidx < channels) (hr : row < height)
    (hw : column < width) (hbx : bidx < n_batchs) :
    miopenBNFwdInferPerActivationRunHost n_batchs channels height width in_ptr scale_ptr
        bias_ptr epsilon true estimatedMean estimatedVariance out (channels*height*width*bidx + (height*width*cidx + (width*row + column)))
      = scale_ptr (height*width*cidx + (width*row + column)) * ((in_ptr (channels*height*width*bidx + (height*width*cidx + (width*row + column))) - estimatedMean (height*width*cidx + (width*row + column))) * (1 / Real.sqrt (estimatedVariance (height*width*cidx + (width*row + column)) + epsilon))) + bias_ptr (height*width*cidx + (width*row + column)) := by
  simp only [miopenBNFwdInferPerActivationRunHost, if_true]
  refine tripleLoop_locality
    (fun c r w o => fwdInferPerActEstGroup n_batchs (channels*height*width) (height*width*c + (width*r + w)) in_ptr scale_ptr bias_ptr estimatedMean estimatedVariance epsilon o)
    (fun o => o (channels*height*width*bidx + (height*width*cidx + (width*row + column))))
    (fun _ => scale_ptr (height*width*cidx + (width*row + column)) * ((in_ptr (channels*height*width*bidx + (height*width*cidx + (width*row + column))) - estimatedMean (height*width*cidx + (width*row + column))) * (1 / Real.sqrt (estimatedVariance (height*width*cidx + (width*row + column)) + epsilon))) + bias_ptr (height*width*cidx + (width*row + column)))
    channels height width cidx row column hc hr hw ?_ ?_ out out rfl
  · intro c r w o hcb hrb hwb hne
    simp only [fwdInferPerActEstGroup]
    refine foldl_rmw_range_frame n_batchs
      (fun b => channels*height*width*b + (height*width*c + (width*r + w)))
      (fun b cur => scale_ptr (height*width*c + (width*r + w)) * ((in_ptr (channels*height*width*b + (height*width*c + (width*r + w))) - estimatedMean (height*width*c + (width*r + w))) * (1 / Real.sqrt (estimatedVariance (height*width*c + (width*r + w)) + epsilon))) + bias_ptr (height*width*c + (width*r + w)))
      o (channels*height*width*bidx + (height*width*cidx + (width*row + column))) (fun b hbn => ?_)
    intro he
    have h1 := stride_decomp (adjIndex_lt hcb hrb hwb) (adjIndex_lt hc hr hw) he
    exact adjIndex_ne hrb hwb hr hw hne h1.2
  · intro o o' hoo
    simp only [fwdInferPerActEstGroup]
    exact foldl_rmw_range_eval n_batchs
      (fun b => channels*height*width*b + (height*width*cidx + (width*row + column)))
      (fun b cur => scale_ptr (height*width*cidx + (width*row + column)) * ((in_ptr (channels*height*width*b + (height*width*cidx + (width*row + column))) - estimatedMean (height*width*cidx + (width*row + column))) * (1 / Real.sqrt (estimatedVariance (height*width*cidx + (width*row + column)) + epsilon))) + bias_ptr (height*width*cidx + (width*row + column)))
      o bidx hbx
      (fun j hjn he => (stride_decomp (adjIndex_lt hc hr hw) (adjIndex_lt hc hr hw) he).1)

theorem fwdInferPerActNoEst_out_eq (n_batchs channels height width : ℕ)
    (in_ptr scale_ptr bias_ptr estimatedMean estimatedVariance : ℕ → ℝ) (epsilon : ℝ)
    (out : ℕ → ℝ) (cidx row column bidx : ℕ) (hc : cidx < channels) (hr : row < height)
    (hw : column < width) (hbx : bidx < n_batchs) :
    miopenBNFwdInferPerActivationRunHost n_batchs channels height width in_ptr scale_ptr
        bias_ptr epsilon false estimatedMean estimatedVariance out (channels*height*width*bidx + (height*width*cidx + (width*row + column)))
      = scale_ptr (height*width*cidx + (width*row + column)) * ((in_ptr (channels*height*width*bidx + (height*width*cidx + (width*row + column))) - (meanAccum n_batchs (channels*height*width) (height*width*cidx + (width*row + column)) in_ptr / (n_batchs : ℝ))) * (1 / Real.sqrt (varianceAccum n_batchs (channels*height*width) (height*width*cidx + (width*row + column)) in_ptr (meanAccum n_batchs (channels*height*width) (height*width*cidx + (width*row + column)) in_ptr / (n_batchs : ℝ)) / (n_batchs : ℝ) + epsilon))) + bias_ptr (height*width*cidx + (width*row + column)) := by
  simp only [miopenBNFwdInferPerActivationRunHost, Bool.false_eq_true, if_false]
  refine tripleLoop_locality
    (fun c r w o => fwdInferPerActNoEstGroup n_batchs (channels*height*width) (height*width*c + (width*r + w)) in_ptr scale_ptr bias_ptr epsilon o)
    (fun o => o (channels*height*width*bidx + (height*width*cidx + (width*row + column))))
    (fun _ => scale_ptr (height*width*cidx + (width*row + column)) * ((in_ptr (channels*height*width*bidx + (height*width*cidx + (width*row + column))) - (meanAccum n_batchs (channels*height*width) (height*width*cidx + (width*row + column)) in_ptr / (n_batchs : ℝ))) * (1 / Real.sqrt (varianceAccum n_batchs (channels*height*width) (height*width*cidx + (width*row + column)) in_ptr (meanAccum n_batchs (channels*height*width) (height*width*cidx + (width*row + column)) in_ptr / (n_batchs : ℝ)) / (n_batchs : ℝ) + epsilon))) + bias_ptr (height*width*cidx + (width*row + column)))
    channels height width cidx row column hc hr hw ?_ ?_ out out rfl
  · intro c r w o hcb hrb hwb hne
    simp only [fwdInferPerActNoEstGroup]
    refine foldl_rmw_range_frame n_batchs
      (fun b => channels*height*width*b + (height*width*c + (width*r + w)))
      (fun b cur => scale_ptr (height*width*c + (width*r + w)) * ((in_ptr (channels*height*width*b + (height*width*c + (width*r + w))) - (meanAccum n_batchs (channels*height*width) (height*width*c + (width*r + w)) in_ptr / (n_batchs : ℝ))) * (1 / Real.sqrt (varianceAccum n_batchs (channels*height*width) (height*width*c + (width*r + w)) in_ptr (meanAccum n_batchs (channels*height*width) (height*width*c + (width*r + w)) in_ptr / (n_batchs : ℝ)) / (n_batchs : ℝ) + epsilon))) + bias_ptr (height*width*c + (width*r + w)))
      o (channels*height*width*bidx + (height*width*cidx + (width*row + column))) (fun b hbn => ?_)
    intro he
    have h1 := stride_decomp (adjIndex_lt hcb hrb hwb) (adjIndex_lt hc hr hw) he
    exact adjIndex_ne hrb hwb hr hw hne h1.2
  · intro o o' hoo
    simp only [fwdInferPerActNoEstGroup]
    exact foldl_rmw_range_eval n_batchs
      (fun b => channels*height*width*b + (height*width*cidx + (width*row + column)))
      (fun b cur => scale_ptr (height*width*cidx + (width*row + column)) * ((in_ptr (channels*height*width*b + (height*width*cidx + (width*row + column))) - (meanAccum n_batchs (channels*height*width) (height*width*cidx + (width*row + column)) in_ptr / (n_batchs : ℝ))) * (1 / Real.sqrt (varianceAccum n_batchs (channels*height*width) (height*width*cidx + (width*row + column)) in_ptr (meanAccum n_batchs (channels*height*width) (height*width*cidx + (width*row + column)) in_ptr / (n_batchs : ℝ)) / (n_batchs : ℝ) + epsilon))) + bias_ptr (height*width*cidx + (width*row + column)))
      o bidx hbx
      (fun j hjn he => (stride_decomp (adjIndex_lt hc hr hw) (adjIndex_lt hc hr hw) he).1)

theorem fwdInferSpatialEst_out_eq (n_batchs channels height width : ℕ)
    (in_ptr scale_ptr bias_ptr estimatedMean estimatedVariance : ℕ → ℝ) (epsilon : ℝ)
    (out : ℕ → ℝ) (cidx row column bidx : ℕ) (hc : cidx < channels) (hrow : row < height)
    (hcol : column < width) (hbx : bidx < n_batchs) :
    miopenBNFwdInferSpatialRunHost n_batchs channels height width in_ptr scale_ptr bias_ptr
        epsilon true estimatedMean estimatedVariance out (channels*height*width*bidx + (height*width*cidx + (width*row + column)))
      = scale_ptr cidx * ((in_ptr (channels*height*width*bidx + (height*width*cidx + (width*row + column))) - estimatedMean cidx) *
          (1 / Real.sqrt (estimatedVariance cidx + epsilon))) + bias_ptr cidx := by
  simp only [miopenBNFwdInferSpatialRunHost, if_true]
  refine foldl_range_locality
    (fun o c => fwdInferSpatialEstChannel n_batchs channels height width c in_ptr scale_ptr
      bias_ptr estimatedMean estimatedVariance epsilon o)
    (fun o => o (channels*height*width*bidx + (height*width*cidx + (width*row + column))))
    (fun _ => scale_ptr cidx * ((in_ptr (channels*height*width*bidx + (height*width*cidx + (width*row + column))) - estimatedMean cidx) *
        (1 / Real.sqrt (estimatedVariance cidx + epsilon))) + bias_ptr cidx)
    channels cidx hc ?_ ?_ out out rfl
  · intro o c hcn hne
    simp only [fwdInferSpatialEstChannel]
    exact foldl_rmw_triple_frame height width n_batchs
      (fun r w b => channels*height*width*b + (height*width*c + (width*r + w)))
      (fun r w b cur => scale_ptr c * ((in_ptr (channels*height*width*b + (height*width*c + (width*r + w))) - estimatedMean c) * (1 / Real.sqrt (estimatedVariance c + epsilon))) + bias_ptr c)
      o _ (fun r w b h1 h2 h3 => spatialIndex_ne hcn h1 h2 hc hrow hcol hne)
  · intro o o' hoo
    simp only [fwdInferSpatialEstChannel]
    exact foldl_rmw_triple_eval height width n_batchs
      (fun r w b => channels*height*width*b + (height*width*cidx + (width*r + w)))
      (fun r w b cur => scale_ptr cidx * ((in_ptr (channels*height*width*b + (height*width*cidx + (width*r + w))) - estimatedMean cidx) * (1 / Real.sqrt (estimatedVariance cidx + epsilon))) + bias_ptr cidx)
      row column bidx hrow hcol hbx
      (fun r w b ha hb2 hc2 he => spatialIndex_inj hc ha hb2 hrow hcol he) o

/-- Pass 2 of the estimate-free spatial inference forward splits into its
scratchpad writes and the variance accumulation. -/
theorem fwdInferSpatialNoEst_p2 (n_batchs channels height width cidx : ℕ)
    (in_ptr : ℕ → ℝ) (mean_accum : ℝ) (out : ℕ → ℝ) :
    ((List.range height).foldl (fun p row =>
      (List.range width).foldl (fun p column =>
        (List.range n_batchs).foldl (fun p bidx =>
        (updW p.1 (channels*height*width*bidx + (height*width*cidx + (width*row + column)))
           (in_ptr (channels*height*width*bidx + (height*width*cidx + (width*row + column))) - mean_accum),
         p.2 + (in_ptr (channels*height*width*bidx + (height*width*cidx + (width*row + column))) - mean_accum) * (in_ptr (channels*height*width*bidx + (height*width*cidx + (width*row + column))) - mean_accum))) p) p) (out, (0:ℝ)) : (ℕ → ℝ) × ℝ)
      = ((List.range height).foldl (fun o row =>
          (List.range width).foldl (fun o column =>
            (List.range n_batchs).foldl (fun o bidx =>
        updW o (channels*height*width*bidx + (height*width*cidx + (width*row + column)))
          (in_ptr (channels*height*width*bidx + (height*width*cidx + (width*row + column))) - mean_accum)) o) o) out,
         spatialVarAccumNoGuard n_batchs channels height width cidx in_ptr mean_accum) := by
  have hbatch : ∀ (row column : ℕ) (p : (ℕ → ℝ) × ℝ),
      (List.range n_batchs).foldl (fun p bidx =>
        (updW p.1 (channels*height*width*bidx + (height*width*cidx + (width*row + column)))
           (in_ptr (channels*height*width*bidx + (height*width*cidx + (width*row + column))) - mean_accum),
         p.2 + (in_ptr (channels*height*width*bidx + (height*width*cidx + (width*row + column))) - mean_accum) * (in_ptr (channels*height*width*bidx + (height*width*cidx + (width*row + column))) - mean_accum))) p
      = ((List.range n_batchs).foldl (fun o bidx =>
        updW o (channels*height*width*bidx + (height*width*cidx + (width*row + column)))
          (in_ptr (channels*height*width*bidx + (height*width*cidx + (width*row + column))) - mean_accum)) p.1,
         (List.range n_batchs).foldl (fun a bidx =>
        a + (in_ptr (channels*height*width*bidx + (height*width*cidx + (width*row + column))) - mean_accum) * (in_ptr (channels*height*width*bidx + (height*width*cidx + (width*row + column))) - mean_accum)) p.2) :=
    fun row column p => foldl_prod_split (fun p bidx =>
        (updW p.1 (channels*height*width*bidx + (height*width*cidx + (width*row + column)))
           (in_ptr (channels*height*width*bidx + (height*width*cidx + (width*row + column))) - mean_accum),
         p.2 + (in_ptr (channels*height*width*bidx + (height*width*cidx + (width*row + column))) - mean_accum) * (in_ptr (channels*height*width*bidx + (height*width*cidx + (width*row + column))) - mean_accum))) (fun o bidx =>
        updW o (channels*height*width*bidx + (height*width*cidx + (width*row + column)))
          (in_ptr (channels*height*width*bidx + (height*width*cidx + (width*row + column))) - mean_accum)) (fun a bidx =>
        a + (in_ptr (channels*height*width*bidx + (height*width*cidx + (width*row + column))) - mean_accum) * (in_ptr (channels*height*width*bidx + (height*width*cidx + (width*row + column))) - mean_accum))
      (List.range n_batchs) (fun p b _ => rfl) p
  have hcol : ∀ (row : ℕ) (p : (ℕ → ℝ) × ℝ),
      (List.range width).foldl (fun p column =>
        (List.range n_batchs).foldl (fun p bidx =>
        (updW p.1 (channels*height*width*bidx + (height*width*cidx + (width*row + column)))
           (in_ptr (channels*height*width*bidx + (height*width*cidx + (width*row + column))) - mean_accum),
         p.2 + (in_ptr (channels*height*width*bidx + (height*width*cidx + (width*row + column))) - mean_accum) * (in_ptr (channels*height*width*bidx + (height*width*cidx + (width*row + column))) - mean_accum))) p) p
      = ((List.range width).foldl (fun o column =>
            (List.range n_batchs).foldl (fun o bidx =>
        updW o (channels*height*width*bidx + (height*width*cidx + (width*row + column)))
          (in_ptr (channels*height*width*bidx + (height*width*cidx + (width*row + column))) - mean_accum)) o) p.1,
         (List.range width).foldl (fun a column =>
            (List.range n_batchs).foldl (fun a bidx =>
        a + (in_ptr (channels*height*width*bidx + (height*width*cidx + (width*row + column))) - mean_accum) * (in_ptr (channels*height*width*bidx + (height*width*cidx + (width*row + column))) - mean_accum)) a) p.2) :=
    fun row p => foldl_prod_split
      (fun p column => (List.range n_batchs).foldl (fun p bidx =>
        (updW p.1 (channels*height*width*bidx + (height*width*cidx + (width*row + column)))
           (in_ptr (channels*height*width*bidx + (height*width*cidx + (width*row + column))) - mean_accum),
         p.2 + (in_ptr (channels*height*width*bidx + (height*width*cidx + (width*row + column))) - mean_accum) * (in_ptr (channels*height*width*bidx + (height*width*cidx + (width*row + column))) - mean_accum))) p)
      (fun o column => (List.range n_batchs).foldl (fun o bidx =>
        updW o (channels*height*width*bidx + (height*width*cidx + (width*row + column)))
          (in_ptr (channels*height*width*bidx + (height*width*cidx + (width*row + column))) - mean_accum)) o)
      (fun a column => (List.range n_batchs).foldl (fun a bidx =>
        a + (in_ptr (channels*height*width*bidx + (height*width*cidx + (width*row + column))) - mean_accum) * (in_ptr (channels*height*width*bidx + (height*width*cidx + (width*row + column))) - mean_accum)) a)
      (List.range width) (fun p w _ => hbatch row w p) p
  rw [foldl_prod_split
    (fun p row => (List.range width).foldl (fun p column =>
      (List.range n_batchs).foldl (fun p bidx =>
        (updW p.1 (channels*height*width*bidx + (height*width*cidx + (width*row + column)))
           (in_ptr (channels*height*width*bidx + (height*width*cidx + (width*row + column))) - mean_accum),
         p.2 + (in_ptr (channels*height*width*bidx + (height*width*cidx + (width*row + column))) - mean_accum) * (in_ptr (channels*height*width*bidx + (height*width*cidx + (width*row + column))) - mean_accum))) p) p)
    (fun o row => (List.range width).foldl (fun o column =>
      (List.range n_batchs).foldl (fun o bidx =>
        updW o (channels*height*width*bidx + (height*width*cidx + (width*row + column)))
          (in_ptr (channels*height*width*bidx + (height*width*cidx + (width*row + column))) - mean_accum)) o) o)
    (fun a row => (List.range width).foldl (fun a column =>
      (List.range n_batchs).foldl (fun a bidx =>
        a + (in_ptr (channels*height*width*bidx + (height*width*cidx + (width*row + column))) - mean_accum) * (in_ptr (channels*height*width*bidx + (height*width*cidx + (width*row + column))) - mean_accum)) a) a)
    (List.range height) (fun p r _ => hcol r p) (out, (0:ℝ))]
  rfl

theorem fwdInferSpatialNoEst_out_eq (n_batchs channels height width : ℕ)
    (in_ptr scale_ptr bias_ptr estimatedMean estimatedVariance : ℕ → ℝ) (epsilon : ℝ)
    (out : ℕ → ℝ) (cidx row column bidx : ℕ) (hc : cidx < channels) (hrow : row < height)
    (hcol : column < width) (hbx : bidx < n_batchs) :
    miopenBNFwdInferSpatialRunHost n_batchs channels height width in_ptr scale_ptr bias_ptr
        epsilon false estimatedMean estimatedVariance out (channels*height*width*bidx + (height*width*cidx + (width*row + column)))
      = scale_ptr cidx * ((in_ptr (channels*height*width*bidx + (height*width*cidx + (width*row + column))) - (spatialMeanAccumNoGuard n_batchs channels height width cidx in_ptr / ((height*width*n_batchs : ℕ) : ℝ))) * (1 / Real.sqrt (spatialVarAccumNoGuard n_batchs channels height width cidx in_ptr (spatialMeanAccumNoGuard n_batchs channels height width cidx in_ptr / ((height*width*n_batchs : ℕ) : ℝ)) / ((height*width*n_batchs : ℕ) : ℝ) + epsilon)))
        + bias_ptr cidx := by
  simp only [miopenBNFwdInferSpatialRunHost, Bool.false_eq_true, if_false]
  refine foldl_range_locality
    (fun o c => fwdInferSpatialNoEstChannel n_batchs channels height width c in_ptr scale_ptr
      bias_ptr epsilon o)
    (fun o => o (channels*height*width*bidx + (height*width*cidx + (width*row + column))))
    (fun _ => scale_ptr cidx * ((in_ptr (channels*height*width*bidx + (height*width*cidx + (width*row + column))) - (spatialMeanAccumNoGuard n_batchs channels height width cidx in_ptr / ((height*width*n_batchs : ℕ) : ℝ))) * (1 / Real.sqrt (spatialVarAccumNoGuard n_batchs channels height width cidx in_ptr (spatialMeanAccumNoGuard n_batchs channels height width cidx in_ptr / ((height*width*n_batchs : ℕ) : ℝ)) / ((height*width*n_batchs : ℕ) : ℝ) + epsilon)))
      + bias_ptr cidx)
    channels cidx hc ?_ ?_ out out rfl
  · intro o c hcn hne
    simp only [fwdInferSpatialNoEstChannel]
    rw [fwdInferSpatialNoEst_p2 n_batchs channels height width c in_ptr (spatialMeanAccumNoGuard n_batchs channels height width c in_ptr / ((height*width*n_batchs : ℕ) : ℝ)) o]
    simp only []
    refine Eq.trans (foldl_rmw_triple_frame height width n_batchs
      (fun r w b => channels*height*width*b + (height*width*c + (width*r + w)))
      (fun r w b cur => scale_ptr c * (cur * (1 / Real.sqrt (spatialVarAccumNoGuard n_batchs channels height width c in_ptr (spatialMeanAccumNoGuard n_batchs channels height width c in_ptr / ((height*width*n_batchs : ℕ) : ℝ)) / ((height*width*n_batchs : ℕ) : ℝ) + epsilon))) + bias_ptr c)
      _ _ (fun r w b h1 h2 h3 => spatialIndex_ne hcn h1 h2 hc hrow hcol hne)) ?_
    exact foldl_rmw_triple_frame height width n_batchs
      (fun r w b => channels*height*width*b + (height*width*c + (width*r + w)))
      (fun r w b cur => in_ptr (channels*height*width*b + (height*width*c + (width*r + w))) - (spatialMeanAccumNoGuard n_batchs channels height width c in_ptr / ((height*width*n_batchs : ℕ) : ℝ)))
      o _ (fun r w b h1 h2 h3 => spatialIndex_ne hcn h1 h2 hc hrow hcol hne)
  · intro o o' hoo
    simp only [fwdInferSpatialNoEstChannel]
    rw [fwdInferSpatialNoEst_p2 n_batchs channels height width cidx in_ptr (spatialMeanAccumNoGuard n_batchs channels height width cidx in_ptr / ((height*width*n_batchs : ℕ) : ℝ)) o]
    simp only []
    have hW : ((List.range height).foldl (fun o row => (List.range width).foldl (fun o column => (List.range n_batchs).foldl (fun o bidx => updW o (channels*height*width*bidx + (height*width*cidx + (width*row + column))) (in_ptr (channels*height*width*bidx + (height*width*cidx + (width*row + column))) - (spatialMeanAccumNoGuard n_batchs channels height width cidx in_ptr / ((height*width*n_batchs : ℕ) : ℝ)))) o) o) o) (channels*height*width*bidx + (height*width*cidx + (width*row + column)))
        = in_ptr (channels*height*width*bidx + (height*width*cidx + (width*row + column))) - (spatialMeanAccumNoGuard n_batchs channels height width cidx in_ptr / ((height*width*n_batchs : ℕ) : ℝ)) :=
      foldl_rmw_triple_eval height width n_batchs
        (fun r w b => channels*height*width*b + (height*width*cidx + (width*r + w)))
        (fun r w b cur => in_ptr (channels*height*width*b + (height*width*cidx + (width*r + w))) - (spatialMeanAccumNoGuard n_batchs channels height width cidx in_ptr / ((height*width*n_batchs : ℕ) : ℝ)))
        row column bidx hrow hcol hbx
        (fun r w b ha hb2 hc2 he => spatialIndex_inj hc ha hb2 hrow hcol he) o
    refine Eq.trans (foldl_rmw_triple_eval height width n_batchs
      (fun r w b => channels*height*width*b + (height*width*cidx + (width*r + w)))
      (fun r w b cur => scale_ptr cidx * (cur * (1 / Real.sqrt (spatialVarAccumNoGuard n_batchs channels height width cidx in_ptr (spatialMeanAccumNoGuard n_batchs channels height width cidx in_ptr / ((height*width*n_batchs : ℕ) : ℝ)) / ((height*width*n_batchs : ℕ) : ℝ) + epsilon))) + bias_ptr cidx)
      row column bidx hrow hcol hbx
      (fun r w b ha hb2 hc2 he => spatialIndex_inj hc ha hb2 hrow hcol he) _) ?_
    rw [hW]

/-- The kernel's flat index `grpid*imageDims + img_offset` is below the batch
stride when the groups cover at most one batch stride. -/
theorem kernelAdj_lt {imageDims batchStride numGroups g i : ℕ}
    (hle : numGroups*imageDims ≤ batchStride) (hg : g < numGroups) (hi : i < imageDims) :
    g*imageDims + i < batchStride := by
  refine lt_of_lt_of_le ?_ hle
  calc g*imageDims + i < g*imageDims + imageDims := by omega
    _ = (g+1)*imageDims := by ring
    _ ≤ numGroups*imageDims := Nat.mul_le_mul_right _ hg

/-- The kernel's element index determines `(grpid, img_offset, n)`. -/
theorem kernelIndex_inj {imageDims batchStride numGroups : ℕ} {g i n g' i' n' : ℕ}
    (hle : numGroups*imageDims ≤ batchStride)
    (hg : g < numGroups) (hi : i < imageDims) (hg' : g' < numGroups) (hi' : i' < imageDims)
    (h : batchStride*n + (g*imageDims + i) = batchStride*n' + (g'*imageDims + i')) :
    g = g' ∧ i = i' ∧ n = n' := by
  obtain ⟨hn, hadj⟩ := stride_decomp (kernelAdj_lt hle hg hi) (kernelAdj_lt hle hg' hi') h
  rw [Nat.mul_comm g imageDims, Nat.mul_comm g' imageDims] at hadj
  obtain ⟨hgg, hii⟩ := stride_decomp hi hi' hadj
  exact ⟨hgg, hii, hn⟩

theorem bn_fwd_infer_per_activation_out_eq (batchSize imageDims batchStride numGroups : ℕ)
    (in_ptr estimatedMean estimatedVariance scale bias : ℕ → ℝ) (epsilon : ℝ) (out : ℕ → ℝ)
    (grpid img n : ℕ) (hg : grpid < numGroups) (hi : img < imageDims) (hn : n < batchSize)
    (hle : numGroups*imageDims ≤ batchStride) :
    bn_fwd_infer_per_activation batchSize imageDims batchStride numGroups in_ptr estimatedMean
        estimatedVariance scale bias epsilon out (batchStride*n + (grpid*imageDims + img))
      = scale (grpid*imageDims + img) * ((in_ptr (batchStride*n + (grpid*imageDims + img)) - estimatedMean (grpid*imageDims + img)) * (1 / Real.sqrt |estimatedVariance (grpid*imageDims + img) + epsilon|)) + bias (grpid*imageDims + img) := by
  simp only [bn_fwd_infer_per_activation]
  refine foldl_range_locality _ (fun o : ℕ → ℝ => o (batchStride*n + (grpid*imageDims + img)))
    (fun _ => scale (grpid*imageDims + img) * ((in_ptr (batchStride*n + (grpid*imageDims + img)) - estimatedMean (grpid*imageDims + img)) * (1 / Real.sqrt |estimatedVariance (grpid*imageDims + img) + epsilon|)) + bias (grpid*imageDims + img)) numGroups grpid hg ?_ ?_ out out rfl
  · intro o g hgn hne
    refine foldl_obs_const _ (fun o : ℕ → ℝ => o (batchStride*n + (grpid*imageDims + img))) _ (fun o i him => ?_) o
    refine foldl_rmw_range_frame batchSize
      (fun b => batchStride*b + (g*imageDims + i))
      (fun b cur => scale (g*imageDims + i) * ((in_ptr (batchStride*b + (g*imageDims + i)) - estimatedMean (g*imageDims + i)) * (1 / Real.sqrt |estimatedVariance (g*imageDims + i) + epsilon|)) + bias (g*imageDims + i))
      o _ (fun b hbn => fun he => ?_)
    exact hne (kernelIndex_inj hle hgn (List.mem_range.mp him) hg hi he).1
  · intro o o' hoo
    refine foldl_range_locality _ (fun o : ℕ → ℝ => o (batchStride*n + (grpid*imageDims + img)))
      (fun _ => scale (grpid*imageDims + img) * ((in_ptr (batchStride*n + (grpid*imageDims + img)) - estimatedMean (grpid*imageDims + img)) * (1 / Real.sqrt |estimatedVariance (grpid*imageDims + img) + epsilon|)) + bias (grpid*imageDims + img)) imageDims img hi ?_ ?_ o o' hoo
    · intro o i hin hne
      refine foldl_rmw_range_frame batchSize
        (fun b => batchStride*b + (grpid*imageDims + i))
        (fun b cur => scale (grpid*imageDims + i) * ((in_ptr (batchStride*b + (grpid*imageDims + i)) - estimatedMean (grpid*imageDims + i)) * (1 / Real.sqrt |estimatedVariance (grpid*imageDims + i) + epsilon|)) + bias (grpid*imageDims + i))
        o _ (fun b hbn => fun he => ?_)
      exact hne (kernelIndex_inj hle hg hin hg hi he).2.1
    · intro o o' hoo
      exact foldl_rmw_range_eval batchSize
        (fun b => batchStride*b + (grpid*imageDims + img))
        (fun b cur => scale (grpid*imageDims + img) * ((in_ptr (batchStride*b + (grpid*imageDims + img)) - estimatedMean (grpid*imageDims + img)) * (1 / Real.sqrt |estimatedVariance (grpid*imageDims + img) + epsilon|)) + bias (grpid*imageDims + img))
        o n hn
        (fun j hjn he => (kernelIndex_inj hle hg hi hg hi he).2.2)

/-! ## Claim theorems -/

theorem meanAccum_eq_sum (n nstride adj : ℕ) (x : ℕ → ℝ) :
    meanAccum n nstride adj x = ∑ b ∈ Finset.range n, x (nstride*b + adj) := by
  rw [meanAccum, foldl_add_range, zero_add]

theorem varianceAccum_eq_sum (n nstride adj : ℕ) (x : ℕ → ℝ) (m : ℝ) :
    varianceAccum n nstride adj x m
      = ∑ b ∈ Finset.range n, (x (nstride*b + adj) - m) * (x (nstride*b + adj) - m) := by
  rw [varianceAccum, foldl_add_range, zero_add]

/-- C2: for every reduction group of `M` input values processed by a training
forward call (or by a backward call that recomputes statistics, which runs the
same `meanAccum`/`varianceAccum` and `spatialMeanAccumNoGuard`/
`spatialVarAccumNoGuard` loops), the group mean equals `(1/M)·Σ xᵢ` and the
group variance equals `(1/M)·Σ (xᵢ - mean)²` where the second pass uses the
pass-1 mean; the training forward emits exactly these two-pass statistics
through `saveMean` and `saveInvVariance` in both modes. -/
theorem C2_two_pass_statistics :
    (∀ (n nstride adj : ℕ) (x : ℕ → ℝ),
      meanAccum n nstride adj x / (n : ℝ)
        = (∑ b ∈ Finset.range n, x (nstride*b + adj)) / (n : ℝ)) ∧
    (∀ (n nstride adj : ℕ) (x : ℕ → ℝ) (m : ℝ),
      varianceAccum n nstride adj x m / (n : ℝ)
        = (∑ b ∈ Finset.range n, (x (nstride*b + adj) - m) * (x (nstride*b + adj) - m)) / (n : ℝ)) ∧
    (∀ (n C H W c : ℕ) (x : ℕ → ℝ),
      spatialMeanAccum n C H W c x = spatialMeanAccumNoGuard n C H W c x ∧
      spatialMeanAccumNoGuard n C H W c x
        = ∑ r ∈ Finset.range H, ∑ w ∈ Finset.range W, ∑ b ∈ Finset.range n,
            x (C*H*W*b + (H*W*c + (W*r + w)))) ∧
    (∀ (n C H W c : ℕ) (x : ℕ → ℝ) (m : ℝ),
      spatialVarAccumNoGuard n C H W c x m
        = ∑ r ∈ Finset.range H, ∑ w ∈ Finset.range W, ∑ b ∈ Finset.range n,
            (x (C*H*W*b + (H*W*c + (W*r + w))) - m) * (x (C*H*W*b + (H*W*c + (W*r + w))) - m)) ∧
    (∀ (n_batchs channels height width : ℕ) (in_ptr scale_ptr bias_ptr : ℕ → ℝ)
      (epsilon : ℝ) (runningmeanvar : Bool) (expAvgFactor : ℝ) (s : BNState)
      (cidx row column : ℕ), cidx < channels → row < height → column < width →
      (miopenBNFwdTrainPerActivationRunHost n_batchs channels height width in_ptr scale_ptr
          bias_ptr epsilon true runningmeanvar expAvgFactor s).saveMean
          (height*width*cidx + (width*row + column))
        = (∑ b ∈ Finset.range n_batchs,
            in_ptr (channels*height*width*b + (height*width*cidx + (width*row + column))))
          / (n_batchs : ℝ) ∧
      (miopenBNFwdTrainPerActivationRunHost n_batchs channels height width in_ptr scale_ptr
          bias_ptr epsilon true runningmeanvar expAvgFactor s).saveInvVariance
          (height*width*cidx + (width*row + column))
        = 1 / Real.sqrt ((∑ b ∈ Finset.range n_batchs,
            (in_ptr (channels*height*width*b + (height*width*cidx + (width*row + column))) -
              (∑ b ∈ Finset.range n_batchs,
                in_ptr (channels*height*width*b + (height*width*cidx + (width*row + column))))
                / (n_batchs : ℝ)) *
            (in_ptr (channels*height*width*b + (height*width*cidx + (width*row + column))) -
              (∑ b ∈ Finset.range n_batchs,
                in_ptr (channels*height*width*b + (height*width*cidx + (width*row + column))))
                / (n_batchs : ℝ))) / (n_batchs : ℝ) + epsilon)) ∧
    (∀ (n_batchs channels height width : ℕ) (in_ptr scale_ptr bias_ptr : ℕ → ℝ)
      (epsilon : ℝ) (runningmeanvar : Bool) (expAvgFactor : ℝ) (s : BNState)
      (cidx : ℕ), cidx < channels →
      (miopenBNFwdTrainSpatialRunHost n_batchs channels height width in_ptr scale_ptr
          bias_ptr epsilon true runningmeanvar expAvgFactor s).saveMean cidx
        = (∑ r ∈ Finset.range height, ∑ w ∈ Finset.range width, ∑ b ∈ Finset.range n_batchs,
            in_ptr (channels*height*width*b + (height*width*cidx + (width*r + w))))
          / ((height*width*n_batchs : ℕ) : ℝ)) := by
  refine ⟨?_, ?_, ?_, ?_, ?_, ?_⟩
  · intro n nstride adj x
    rw [meanAccum_eq_sum]
  · intro n nstride adj x m
    rw [varianceAccum_eq_sum]
  · intro n C H W c x
    exact ⟨(spatialMeanAccum_eq_sum n C H W c x).trans
      (spatialMeanAccumNoGuard_eq_sum n C H W c x).symm,
      spatialMeanAccumNoGuard_eq_sum n C H W c x⟩
  · intro n C H W c x m
    exact spatialVarAccumNoGuard_eq_sum n C H W c x m
  · intro n_batchs channels height width in_ptr scale_ptr bias_ptr epsilon rmv f s c r w hc hr hw
    constructor
    · rw [fwdTrainPerAct_saveMean_eq n_batchs channels height width in_ptr scale_ptr bias_ptr
        epsilon true rmv f s c r w hc hr hw]
      simp [meanAccum_eq_sum]
    · rw [fwdTrainPerAct_saveInvVariance_eq n_batchs channels height width in_ptr scale_ptr
        bias_ptr epsilon true rmv f s c r w hc hr hw]
      simp [meanAccum_eq_sum, varianceAccum_eq_sum]
  · intro n_batchs channels height width in_ptr scale_ptr bias_ptr epsilon rmv f s c hc
    rw [fwdTrainSpatial_saveMean_eq n_batchs channels height width in_ptr scale_ptr bias_ptr
      epsilon true rmv f s c hc]
    simp [spatialMeanAccum_eq_sum]

/-- Witness for C2 at a concrete configuration. -/
theorem C2_two_pass_statistics_witness :
    (0 : ℕ) < 1 ∧
    ((miopenBNFwdTrainPerActivationRunHost 2 1 1 1 (fun _ => 3) (fun _ => 1) (fun _ => 0)
        1 true false 0
        ⟨fun _ => 0, fun _ => 0, fun _ => 0, fun _ => 0, fun _ => 0⟩).saveMean
        (1*1*0 + (1*0 + 0))
      = (∑ b ∈ Finset.range 2, (fun _ => (3:ℝ)) (1*1*1*b + (1*1*0 + (1*0 + 0)))) / ((2:ℕ) : ℝ)) :=
  ⟨by decide,
    ((C2_two_pass_statistics.2.2.2.2.1 2 1 1 1 (fun _ => 3) (fun _ => 1) (fun _ => 0) 1 false 0
      ⟨fun _ => 0, fun _ => 0, fun _ => 0, fun _ => 0, fun _ => 0⟩ 0 0 0
      (by decide) (by decide) (by decide)).1)⟩

/-- C3: with running-statistics tracking enabled, each group's persistent
statistics are updated as `newRunningMean = runningMean·(1-momentum) +
mean·momentum` and `newRunningVariance = momentum·runningVariance +
(1-momentum)·adjustedVariance`, where `adjustedVariance` is the biased
variance Bessel-corrected by `M/(M-1)` unless the group size `M` is `1`;
the asymmetry between the two blends is preserved exactly. -/
theorem C3_running_stats_update :
    (∀ (n_batchs channels height width : ℕ) (in_ptr scale_ptr bias_ptr : ℕ → ℝ)
      (epsilon : ℝ) (savemeanvar : Bool) (expAvgFactor : ℝ) (s : BNState)
      (cidx row column : ℕ), cidx < channels → row < height → column < width →
      1 ≤ n_batchs →
      (miopenBNFwdTrainPerActivationRunHost n_batchs channels height width in_ptr scale_ptr
          bias_ptr epsilon savemeanvar true expAvgFactor s).runningMean (height*width*cidx + (width*row + column))
        = s.runningMean (height*width*cidx + (width*row + column)) * (1 - expAvgFactor) + ((∑ b ∈ Finset.range n_batchs, in_ptr (channels*height*width*b + (height*width*cidx + (width*row + column)))) / (n_batchs : ℝ)) * expAvgFactor ∧
      (miopenBNFwdTrainPerActivationRunHost n_batchs channels height width in_ptr scale_ptr
          bias_ptr epsilon savemeanvar true expAvgFactor s).runningVariance (height*width*cidx + (width*row + column))
        = expAvgFactor * s.runningVariance (height*width*cidx + (width*row + column)) +
            (1 - expAvgFactor) *
              (if n_batchs = 1 then ((∑ b ∈ Finset.range n_batchs, (in_ptr (channels*height*width*b + (height*width*cidx + (width*row + column))) - ((∑ b ∈ Finset.range n_batchs, in_ptr (channels*height*width*b + (height*width*cidx + (width*row + column)))) / (n_batchs : ℝ))) * (in_ptr (channels*height*width*b + (height*width*cidx + (width*row + column))) - ((∑ b ∈ Finset.range n_batchs, in_ptr (channels*height*width*b + (height*width*cidx + (width*row + column)))) / (n_batchs : ℝ)))) / (n_batchs : ℝ))
               else ((∑ b ∈ Finset.range n_batchs, (in_ptr (channels*height*width*b + (height*width*cidx + (width*row + column))) - ((∑ b ∈ Finset.range n_batchs, in_ptr (channels*height*width*b + (height*width*cidx + (width*row + column)))) / (n_batchs : ℝ))) * (in_ptr (channels*height*width*b + (height*width*cidx + (width*row + column))) - ((∑ b ∈ Finset.range n_batchs, in_ptr (channels*height*width*b + (height*width*cidx + (width*row + column)))) / (n_batchs : ℝ)))) / (n_batchs : ℝ)) * (n_batchs : ℝ) / ((n_batchs : ℝ) - 1))) ∧
    (∀ (n_batchs channels height width : ℕ) (in_ptr scale_ptr bias_ptr : ℕ → ℝ)
      (epsilon : ℝ) (savemeanvar : Bool) (expAvgFactor : ℝ) (s : BNState)
      (cidx : ℕ), cidx < channels → 1 ≤ n_batchs*(height*width) →
      (miopenBNFwdTrainSpatialRunHost n_batchs channels height width in_ptr scale_ptr
          bias_ptr epsilon savemeanvar true expAvgFactor s).runningMean cidx
        = s.runningMean cidx * (1 - expAvgFactor) + ((∑ r ∈ Finset.range height, ∑ w ∈ Finset.range width, ∑ b ∈ Finset.range n_batchs, in_ptr (channels*height*width*b + (height*width*cidx + (width*r + w)))) / ((height*width*n_batchs : ℕ) : ℝ)) * expAvgFactor ∧
      (miopenBNFwdTrainSpatialRunHost n_batchs channels height width in_ptr scale_ptr
          bias_ptr epsilon savemeanvar true expAvgFactor s).runningVariance cidx
        = expAvgFactor * s.runningVariance cidx +
            (1 - expAvgFactor) *
              (if n_batchs*(height*width) = 1 then ((∑ r ∈ Finset.range height, ∑ w ∈ Finset.range width, ∑ b ∈ Finset.range n_batchs, (in_ptr (channels*height*width*b + (height*width*cidx + (width*r + w))) - ((∑ r ∈ Finset.range height, ∑ w ∈ Finset.range width, ∑ b ∈ Finset.range n_batchs, in_ptr (channels*height*width*b + (height*width*cidx + (width*r + w)))) / ((height*width*n_batchs : ℕ) : ℝ))) * (in_ptr (channels*height*width*b + (height*width*cidx + (width*r + w))) - ((∑ r ∈ Finset.range height, ∑ w ∈ Finset.range width, ∑ b ∈ Finset.range n_batchs, in_ptr (channels*height*width*b + (height*width*cidx + (width*r + w)))) / ((height*width*n_batchs : ℕ) : ℝ)))) / ((height*width*n_batchs : ℕ) : ℝ))
               else ((∑ r ∈ Finset.range height, ∑ w ∈ Finset.range width, ∑ b ∈ Finset.range n_batchs, (in_ptr (channels*height*width*b + (height*width*cidx + (width*r + w))) - ((∑ r ∈ Finset.range height, ∑ w ∈ Finset.range width, ∑ b ∈ Finset.range n_batchs, in_ptr (channels*height*width*b + (height*width*cidx + (width*r + w)))) / ((height*width*n_batchs : ℕ) : ℝ))) * (in_ptr (channels*height*width*b + (height*width*cidx + (width*r + w))) - ((∑ r ∈ Finset.range height, ∑ w ∈ Finset.range width, ∑ b ∈ Finset.range n_batchs, in_ptr (channels*height*width*b + (height*width*cidx + (width*r + w)))) / ((height*width*n_batchs : ℕ) : ℝ)))) / ((height*width*n_batchs : ℕ) : ℝ)) * ((height*width*n_batchs : ℕ) : ℝ) / (((height*width*n_batchs : ℕ) : ℝ) - 1))) := by
  constructor
  · intro n_batchs channels height width in_ptr scale_ptr bias_ptr epsilon smv f s
      cidx row column hc hr hw hn
    constructor
    · rw [fwdTrainPerAct_runningMean_eq n_batchs channels height width in_ptr scale_ptr
        bias_ptr epsilon smv true f s cidx row column hc hr hw]
      simp only [if_true, meanAccum_eq_sum]
      ring
    · rw [fwdTrainPerAct_runningVariance_eq n_batchs channels height width in_ptr scale_ptr
        bias_ptr epsilon smv true f s cidx row column hc hr hw]
      simp only [if_true, meanAccum_eq_sum, varianceAccum_eq_sum]
      by_cases h1 : n_batchs = 1
      · simp [h1]
      · simp only [h1, if_false]
        ring
  · intro n_batchs channels height width in_ptr scale_ptr bias_ptr epsilon smv f s cidx hc hn
    constructor
    · rw [fwdTrainSpatial_runningMean_eq n_batchs channels height width in_ptr scale_ptr
        bias_ptr epsilon smv true f s cidx hc]
      simp only [if_true, spatialMeanAccum_eq_sum]
      ring
    · rw [fwdTrainSpatial_runningVariance_eq n_batchs channels height width in_ptr scale_ptr
        bias_ptr epsilon smv true f s cidx hc]
      simp only [if_true, spatialMeanAccum_eq_sum, spatialVarAccumNoGuard_eq_sum]
      by_cases h1 : n_batchs*(height*width) = 1
      · simp [h1]
      · simp only [h1, if_false]
        ring

/-- C4: every forward output element, in training and inference and in both
parameterizations (host reference and HIP inference kernel), equals
`scale·(x - mean)·invVariance + bias` with
`invVariance = 1/sqrt(variance + epsilon)` — epsilon strictly added before
the square root; this holds for the spatial training path even though it
stages `x - mean` in the output buffer between its passes.  For the HIP
kernel, which applies `fabs` before `rsqrt`, the formula holds whenever the
radicand is nonnegative. -/
theorem C4_forward_normalization :
    (∀ (n_batchs channels height width : ℕ) (in_ptr scale_ptr bias_ptr : ℕ → ℝ)
      (epsilon : ℝ) (savemeanvar runningmeanvar : Bool) (expAvgFactor : ℝ) (s : BNState)
      (cidx row column bidx : ℕ), cidx < channels → row < height → column < width → bidx < n_batchs →
      (miopenBNFwdTrainPerActivationRunHost n_batchs channels height width in_ptr scale_ptr
          bias_ptr epsilon savemeanvar runningmeanvar expAvgFactor s).out (channels*height*width*bidx + (height*width*cidx + (width*row + column)))
        = scale_ptr (height*width*cidx + (width*row + column)) * (in_ptr (channels*height*width*bidx + (height*width*cidx + (width*row + column))) - ((∑ b ∈ Finset.range n_batchs, in_ptr (channels*height*width*b + (height*width*cidx + (width*row + column)))) / (n_batchs : ℝ))) * (1 / Real.sqrt (((∑ b ∈ Finset.range n_batchs, (in_ptr (channels*height*width*b + (height*width*cidx + (width*row + column))) - ((∑ b ∈ Finset.range n_batchs, in_ptr (channels*height*width*b + (height*width*cidx + (width*row + column)))) / (n_batchs : ℝ))) * (in_ptr (channels*height*width*b + (height*width*cidx + (width*row + column))) - ((∑ b ∈ Finset.range n_batchs, in_ptr (channels*height*width*b + (height*width*cidx + (width*row + column)))) / (n_batchs : ℝ)))) / (n_batchs : ℝ)) + epsilon)) + bias_ptr (height*width*cidx + (width*row + column))) ∧
    (∀ (n_batchs channels height width : ℕ) (in_ptr scale_ptr bias_ptr : ℕ → ℝ)
      (epsilon : ℝ) (savemeanvar runningmeanvar : Bool) (expAvgFactor : ℝ) (s : BNState)
      (cidx row column bidx : ℕ), cidx < channels → row < height → column < width → bidx < n_batchs →
      (miopenBNFwdTrainSpatialRunHost n_batchs channels height width in_ptr scale_ptr
          bias_ptr epsilon savemeanvar runningmeanvar expAvgFactor s).out (channels*height*width*bidx + (height*width*cidx + (width*row + column)))
        = scale_ptr cidx * (in_ptr (channels*height*width*bidx + (height*width*cidx + (width*row + column))) - ((∑ r ∈ Finset.range height, ∑ w ∈ Finset.range width, ∑ b ∈ Finset.range n_batchs, in_ptr (channels*height*width*b + (height*width*cidx + (width*r + w)))) / ((height*width*n_batchs : ℕ) : ℝ))) * (1 / Real.sqrt (((∑ r ∈ Finset.range height, ∑ w ∈ Finset.range width, ∑ b ∈ Finset.range n_batchs, (in_ptr (channels*height*width*b + (height*width*cidx + (width*r + w))) - ((∑ r ∈ Finset.range height, ∑ w ∈ Finset.range width, ∑ b ∈ Finset.range n_batchs, in_ptr (channels*height*width*b + (height*width*cidx + (width*r + w)))) / ((height*width*n_batchs : ℕ) : ℝ))) * (in_ptr (channels*height*width*b + (height*width*cidx + (width*r + w))) - ((∑ r ∈ Finset.range height, ∑ w ∈ Finset.range width, ∑ b ∈ Finset.range n_batchs, in_ptr (channels*height*width*b + (height*width*cidx + (width*r + w)))) / ((height*width*n_batchs : ℕ) : ℝ)))) / ((height*width*n_batchs : ℕ) : ℝ)) + epsilon)) + bias_ptr cidx) ∧
    (∀ (n_batchs channels height width : ℕ) (in_ptr scale_ptr bias_ptr : ℕ → ℝ)
      (epsilon : ℝ) (estimatedMean estimatedVariance : ℕ → ℝ) (out : ℕ → ℝ)
      (cidx row column bidx : ℕ), cidx < channels → row < height → column < width → bidx < n_batchs →
      miopenBNFwdInferPerActivationRunHost n_batchs channels height width in_ptr scale_ptr
          bias_ptr epsilon true estimatedMean estimatedVariance out (channels*height*width*bidx + (height*width*cidx + (width*row + column)))
        = scale_ptr (height*width*cidx + (width*row + column)) * (in_ptr (channels*height*width*bidx + (height*width*cidx + (width*row + column))) - (estimatedMean (height*width*cidx + (width*row + column)))) * (1 / Real.sqrt (estimatedVariance (height*width*cidx + (width*row + column)) + epsilon)) + bias_ptr (height*width*cidx + (width*row + column))) ∧
    (∀ (n_batchs channels height width : ℕ) (in_ptr scale_ptr bias_ptr : ℕ → ℝ)
      (epsilon : ℝ) (estimatedMean estimatedVariance : ℕ → ℝ) (out : ℕ → ℝ)
      (cidx row column bidx : ℕ), cidx < channels → row < height → column < width → bidx < n_batchs →
      miopenBNFwdInferPerActivationRunHost n_batchs channels height width in_ptr scale_ptr
          bias_ptr epsilon false estimatedMean estimatedVariance out (channels*height*width*bidx + (height*width*cidx + (width*row + column)))
        = scale_ptr (height*width*cidx + (width*row + column)) * (in_ptr (channels*height*width*bidx + (height*width*cidx + (width*row + column))) - ((∑ b ∈ Finset.range n_batchs, in_ptr (channels*height*width*b + (height*width*cidx + (width*row + column)))) / (n_batchs : ℝ))) * (1 / Real.sqrt (((∑ b ∈ Finset.range n_batchs, (in_ptr (channels*height*width*b + (height*width*cidx + (width*row + column))) - ((∑ b ∈ Finset.range n_batchs, in_ptr (channels*height*width*b + (height*width*cidx + (width*row + column)))) / (n_batchs : ℝ))) * (in_ptr (channels*height*width*b + (height*width*cidx + (width*row + column))) - ((∑ b ∈ Finset.range n_batchs, in_ptr (channels*height*width*b + (height*width*cidx + (width*row + column)))) / (n_batchs : ℝ)))) / (n_batchs : ℝ)) + epsilon)) + bias_ptr (height*width*cidx + (width*row + column))) ∧
    (∀ (n_batchs channels height width : ℕ) (in_ptr scale_ptr bias_ptr : ℕ → ℝ)
      (epsilon : ℝ) (estimatedMean estimatedVariance : ℕ → ℝ) (out : ℕ → ℝ)
      (cidx row column bidx : ℕ), cidx < channels → row < height → column < width → bidx < n_batchs →
      miopenBNFwdInferSpatialRunHost n_batchs channels height width in_ptr scale_ptr
          bias_ptr epsilon true estimatedMean estimatedVariance out (channels*height*width*bidx + (height*width*cidx + (width*row + column)))
        = scale_ptr cidx * (in_ptr (channels*height*width*bidx + (height*width*cidx + (width*row + column))) - (estimatedMean cidx)) * (1 / Real.sqrt (estimatedVariance cidx + epsilon)) + bias_ptr cidx) ∧
    (∀ (n_batchs channels height width : ℕ) (in_ptr scale_ptr bias_ptr : ℕ → ℝ)
      (epsilon : ℝ) (estimatedMean estimatedVariance : ℕ → ℝ) (out : ℕ → ℝ)
      (cidx row column bidx : ℕ), cidx < channels → row < height → column < width → bidx < n_batchs →
      miopenBNFwdInferSpatialRunHost n_batchs channels height width in_ptr scale_ptr
          bias_ptr epsilon false estimatedMean estimatedVariance out (channels*height*width*bidx + (height*width*cidx + (width*row + column)))
        = scale_ptr cidx * (in_ptr (channels*height*width*bidx + (height*width*cidx + (width*row + column))) - ((∑ r ∈ Finset.range height, ∑ w ∈ Finset.range width, ∑ b ∈ Finset.range n_batchs, in_ptr (channels*height*width*b + (height*width*cidx + (width*r + w)))) / ((height*width*n_batchs : ℕ) : ℝ))) * (1 / Real.sqrt (((∑ r ∈ Finset.range height, ∑ w ∈ Finset.range width, ∑ b ∈ Finset.range n_batchs, (in_ptr (channels*height*width*b + (height*width*cidx + (width*r + w))) - ((∑ r ∈ Finset.range height, ∑ w ∈ Finset.range width, ∑ b ∈ Finset.range n_batchs, in_ptr (channels*height*width*b + (height*width*cidx + (width*r + w)))) / ((height*width*n_batchs : ℕ) : ℝ))) * (in_ptr (channels*height*width*b + (height*width*cidx + (width*r + w))) - ((∑ r ∈ Finset.range height, ∑ w ∈ Finset.range width, ∑ b ∈ Finset.range n_batchs, in_ptr (channels*height*width*b + (height*width*cidx + (width*r + w)))) / ((height*width*n_batchs : ℕ) : ℝ)))) / ((height*width*n_batchs : ℕ) : ℝ)) + epsilon)) + bias_ptr cidx) ∧
    (∀ (batchSize imageDims batchStride numGroups : ℕ)
      (in_ptr estimatedMean estimatedVariance scale bias : ℕ → ℝ) (epsilon : ℝ)
      (out : ℕ → ℝ) (grpid img n : ℕ),
      grpid < numGroups → img < imageDims → n < batchSize →
      numGroups*imageDims ≤ batchStride →
      0 ≤ estimatedVariance (grpid*imageDims + img) + epsilon →
      bn_fwd_infer_per_activation batchSize imageDims batchStride numGroups in_ptr
          estimatedMean estimatedVariance scale bias epsilon out
          (batchStride*n + (grpid*imageDims + img))
        = scale (grpid*imageDims + img) * (in_ptr (batchStride*n + (grpid*imageDims + img)) - (estimatedMean (grpid*imageDims + img))) * (1 / Real.sqrt (estimatedVariance (grpid*imageDims + img) + epsilon)) + bias (grpid*imageDims + img)) := by
  refine ⟨?_, ?_, ?_, ?_, ?_, ?_, ?_⟩
  · intro n_batchs channels height width in_ptr scale_ptr bias_ptr epsilon smv rmv f s
      cidx row column bidx hc hr hw hb
    rw [fwdTrainPerAct_out_eq n_batchs channels height width in_ptr scale_ptr bias_ptr
      epsilon smv rmv f s cidx row column bidx hc hr hw hb]
    simp only [meanAccum_eq_sum, varianceAccum_eq_sum]
    ring
  · intro n_batchs channels height width in_ptr scale_ptr bias_ptr epsilon smv rmv f s
      cidx row column bidx hc hr hw hb
    rw [fwdTrainSpatial_out_eq n_batchs channels height width in_ptr scale_ptr bias_ptr
      epsilon smv rmv f s cidx row column bidx hc hr hw hb]
    simp only [spatialMeanAccum_eq_sum, spatialVarAccumNoGuard_eq_sum]
    ring
  · intro n_batchs channels height width in_ptr scale_ptr bias_ptr epsilon em ev out
      cidx row column bidx hc hr hw hb
    rw [fwdInferPerActEst_out_eq n_batchs channels height width in_ptr scale_ptr bias_ptr
      em ev epsilon out cidx row column bidx hc hr hw hb]
    ring
  · intro n_batchs channels height width in_ptr scale_ptr bias_ptr epsilon em ev out
      cidx row column bidx hc hr hw hb
    rw [fwdInferPerActNoEst_out_eq n_batchs channels height width in_ptr scale_ptr bias_ptr
      em ev epsilon out cidx row column bidx hc hr hw hb]
    simp only [meanAccum_eq_sum, varianceAccum_eq_sum]
    ring
  · intro n_batchs channels height width in_ptr scale_ptr bias_ptr epsilon em ev out
      cidx row column bidx hc hr hw hb
    rw [fwdInferSpatialEst_out_eq n_batchs channels height width in_ptr scale_ptr bias_ptr
      em ev epsilon out cidx row column bidx hc hr hw hb]
    ring
  · intro n_batchs channels height width in_ptr scale_ptr bias_ptr epsilon em ev out
      cidx row column bidx hc hr hw hb
    rw [fwdInferSpatialNoEst_out_eq n_batchs channels height width in_ptr scale_ptr bias_ptr
      em ev epsilon out cidx row column bidx hc hr hw hb]
    simp only [spatialMeanAccumNoGuard_eq_sum, spatialVarAccumNoGuard_eq_sum]
    ring
  · intro batchSize imageDims batchStride numGroups in_ptr em ev scale bias epsilon out
      grpid img n hg hi hn hle hnn
    rw [bn_fwd_infer_per_activation_out_eq batchSize imageDims batchStride numGroups in_ptr
      em ev scale bias epsilon out grpid img n hg hi hn hle, abs_of_nonneg hnn]
    ring

/-- Witness for C3 at a concrete configuration. -/
theorem C3_running_stats_update_witness :
    (0:ℕ) < 1 ∧ 1 ≤ 2 ∧
    ((miopenBNFwdTrainPerActivationRunHost 2 1 1 1 (fun _ => 3) (fun _ => 1) (fun _ => 0)
        1 false true (1/2)
        ⟨fun _ => 0, fun _ => 0, fun _ => 0, fun _ => 5, fun _ => 7⟩).runningMean
        (1*1*0 + (1*0 + 0))
      = (5:ℝ) * (1 - 1/2)
        + ((∑ b ∈ Finset.range 2, (3:ℝ)) / ((2:ℕ) : ℝ)) * (1/2)) :=
  ⟨by decide, by decide,
    (C3_running_stats_update.1 2 1 1 1 (fun _ => 3) (fun _ => 1) (fun _ => 0) 1 false (1/2)
      ⟨fun _ => 0, fun _ => 0, fun _ => 0, fun _ => 5, fun _ => 7⟩ 0 0 0
      (by decide) (by decide) (by decide) (by decide)).1⟩

/-- Witness for C4 at a concrete configuration of the HIP kernel conjunct. -/
theorem C4_forward_normalization_witness :
    (0:ℕ) < 1 ∧ 1*1 ≤ 1 ∧ (0:ℝ) ≤ (1:ℝ) + 0 ∧
    bn_fwd_infer_per_activation 1 1 1 1 (fun _ => 1) (fun _ => 0) (fun _ => 1) (fun _ => 1)
        (fun _ => 0) 0 (fun _ => 0) (1*0 + (0*1 + 0))
      = (1:ℝ) * ((1:ℝ) - 0) * (1 / Real.sqrt ((1:ℝ) + 0)) + 0 :=
  ⟨by decide, by decide, by norm_num,
    C4_forward_normalization.2.2.2.2.2.2 1 1 1 1 (fun _ => 1) (fun _ => 0) (fun _ => 1)
      (fun _ => 1) (fun _ => 0) 0 (fun _ => 0) 0 0 0
      (by decide) (by decide) (by decide) (by decide) (by norm_num)⟩

/-- The output buffer produced by one spatial training channel equals the one
produced by the estimate-free spatial inference channel (the statistics
buffers and flags do not influence `out`). -/
theorem fwdTrainSpatialChannel_out_infer (n_batchs channels height width cidx : ℕ)
    (in_ptr scale_ptr bias_ptr : ℕ → ℝ) (epsilon : ℝ) (savemeanvar runningmeanvar : Bool)
    (expAvgFactor : ℝ) (s : BNState) :
    (fwdTrainSpatialChannel n_batchs channels height width cidx in_ptr scale_ptr bias_ptr
        epsilon savemeanvar runningmeanvar expAvgFactor s).out
      = fwdInferSpatialNoEstChannel n_batchs channels height width cidx in_ptr scale_ptr
        bias_ptr epsilon s.out := by
  simp only [fwdTrainSpatialChannel, fwdInferSpatialNoEstChannel]
  rw [show spatialMeanAccum n_batchs channels height width cidx in_ptr
      = spatialMeanAccumNoGuard n_batchs channels height width cidx in_ptr from
    (spatialMeanAccum_eq_sum n_batchs channels height width cidx in_ptr).trans
      (spatialMeanAccumNoGuard_eq_sum n_batchs channels height width cidx in_ptr).symm]
  rw [fwdTrainSpatialChannel_p2 n_batchs channels height width cidx in_ptr (spatialMeanAccumNoGuard n_batchs channels height width cidx in_ptr / ((height*width*n_batchs : ℕ) : ℝ)) s.out]
  rw [fwdInferSpatialNoEst_p2 n_batchs channels height width cidx in_ptr (spatialMeanAccumNoGuard n_batchs channels height width cidx in_ptr / ((height*width*n_batchs : ℕ) : ℝ)) s.out]
  simp only []
  rw [foldl_guard_true height width (fun row column (o : ℕ → ℝ) =>
    (List.range n_batchs).foldl (fun o bidx =>
      updW o (channels*height*width*bidx + (height*width*cidx + (width*row + column))) (scale_ptr cidx * ((1 / Real.sqrt (spatialVarAccumNoGuard n_batchs channels height width cidx in_ptr (spatialMeanAccumNoGuard n_batchs channels height width cidx in_ptr / ((height*width*n_batchs : ℕ) : ℝ)) / ((height*width*n_batchs : ℕ) : ℝ) + epsilon)) * o (channels*height*width*bidx + (height*width*cidx + (width*row + column)))) + bias_ptr cidx)) o)]
  refine foldl_congr_mem _ _ _ (fun o r _ => ?_) _
  refine foldl_congr_mem _ _ _ (fun o w _ => ?_) _
  refine foldl_congr_mem _ _ _ (fun o b _ => ?_) _
  refine congrArg (updW o (channels*height*width*b + (height*width*cidx + (width*r + w)))) ?_
  rw [mul_comm (1 / Real.sqrt (spatialVarAccumNoGuard n_batchs channels height width cidx in_ptr (spatialMeanAccumNoGuard n_batchs channels height width cidx in_ptr / ((height*width*n_batchs : ℕ) : ℝ)) / ((height*width*n_batchs : ℕ) : ℝ) + epsilon))
    (o (channels*height*width*b + (height*width*cidx + (width*r + w))))]

/-- C7: forward inference called without supplied estimates
(`estmeanvar = false`) produces exactly the same output buffer as forward
training with saving and running-statistics tracking both disabled
(`savemeanvar = false`, `runningmeanvar = false`), in both modes; the
inference routine reads no statistics buffers in this branch and writes none
(it returns only the output buffer). -/
theorem C7_infer_noest_equals_train :
    (∀ (n_batchs channels height width : ℕ) (in_ptr scale_ptr bias_ptr : ℕ → ℝ)
      (epsilon : ℝ) (estimatedMean estimatedVariance : ℕ → ℝ) (expAvgFactor : ℝ)
      (s : BNState),
      miopenBNFwdInferPerActivationRunHost n_batchs channels height width in_ptr scale_ptr
          bias_ptr epsilon false estimatedMean estimatedVariance s.out
        = (miopenBNFwdTrainPerActivationRunHost n_batchs channels height width in_ptr
          scale_ptr bias_ptr epsilon false false expAvgFactor s).out) ∧
    (∀ (n_batchs channels height width : ℕ) (in_ptr scale_ptr bias_ptr : ℕ → ℝ)
      (epsilon : ℝ) (estimatedMean estimatedVariance : ℕ → ℝ) (expAvgFactor : ℝ)
      (s : BNState),
      miopenBNFwdInferSpatialRunHost n_batchs channels height width in_ptr scale_ptr
          bias_ptr epsilon false estimatedMean estimatedVariance s.out
        = (miopenBNFwdTrainSpatialRunHost n_batchs channels height width in_ptr
          scale_ptr bias_ptr epsilon false false expAvgFactor s).out) := by
  constructor
  · intro n_batchs channels height width in_ptr scale_ptr bias_ptr epsilon em ev f s
    simp only [miopenBNFwdInferPerActivationRunHost, miopenBNFwdTrainPerActivationRunHost,
      Bool.false_eq_true, if_false]
    refine Eq.symm (foldl_hom_mem BNState.out _ _ _ (fun t c _ => ?_) s)
    refine foldl_hom_mem BNState.out _ _ _ (fun t2 r _ => ?_) t
    refine foldl_hom_mem BNState.out _ _ _ (fun t3 w _ => ?_) t2
    rfl
  · intro n_batchs channels height width in_ptr scale_ptr bias_ptr epsilon em ev f s
    simp only [miopenBNFwdInferSpatialRunHost, miopenBNFwdTrainSpatialRunHost,
      Bool.false_eq_true, if_false]
    refine Eq.symm (foldl_hom_mem BNState.out _ _ _ (fun t c _ => ?_) s)
    exact fwdTrainSpatialChannel_out_infer n_batchs channels height width c in_ptr
      scale_ptr bias_ptr epsilon false false f t

/-- C9 (amended): no entry point validates the configuration.  With a
zero-sized batch the per-element loops run zero iterations, so the output
buffer is untouched in both training modes, yet the per-activation training
forward still computes the group mean as the `0/0` quotient
`meanAccum 0 … / 0` and, when saving is requested, writes it into
`saveMean` — no rejection happens before the reduction loops. -/
theorem C9_zero_batch_behaviour :
    (∀ (channels height width : ℕ) (in_ptr scale_ptr bias_ptr : ℕ → ℝ) (epsilon : ℝ)
      (savemeanvar runningmeanvar : Bool) (expAvgFactor : ℝ) (s : BNState),
      (miopenBNFwdTrainPerActivationRunHost 0 channels height width in_ptr scale_ptr
        bias_ptr epsilon savemeanvar runningmeanvar expAvgFactor s).out = s.out) ∧
    (∀ (channels height width : ℕ) (in_ptr scale_ptr bias_ptr : ℕ → ℝ) (epsilon : ℝ)
      (savemeanvar runningmeanvar : Bool) (expAvgFactor : ℝ) (s : BNState),
      (miopenBNFwdTrainSpatialRunHost 0 channels height width in_ptr scale_ptr
        bias_ptr epsilon savemeanvar runningmeanvar expAvgFactor s).out = s.out) ∧
    (∀ (channels height width : ℕ) (in_ptr scale_ptr bias_ptr : ℕ → ℝ) (epsilon : ℝ)
      (runningmeanvar : Bool) (expAvgFactor : ℝ) (s : BNState) (cidx row column : ℕ),
      cidx < channels → row < height → column < width →
      (miopenBNFwdTrainPerActivationRunHost 0 channels height width in_ptr scale_ptr
          bias_ptr epsilon true runningmeanvar expAvgFactor s).saveMean
          (height*width*cidx + (width*row + column))
        = meanAccum 0 (channels*height*width) (height*width*cidx + (width*row + column))
            in_ptr / ((0:ℕ) : ℝ)) := by
  refine ⟨?_, ?_, ?_⟩
  · intro channels height width in_ptr scale_ptr bias_ptr epsilon smv rmv f s
    refine foldl_obs_const _ BNState.out _ (fun t c _ => ?_) s
    refine foldl_obs_const _ BNState.out _ (fun t2 r _ => ?_) t
    refine foldl_obs_const _ BNState.out _ (fun t3 w _ => ?_) t2
    rfl
  · intro channels height width in_ptr scale_ptr bias_ptr epsilon smv rmv f s
    refine foldl_obs_const _ BNState.out _ (fun t c _ => ?_) s
    show (fwdTrainSpatialChannel 0 channels height width c in_ptr scale_ptr bias_ptr
      epsilon smv rmv f t).out = t.out
    simp only [fwdTrainSpatialChannel]
    rw [fwdTrainSpatialChannel_p2 0 channels height width c in_ptr (spatialMeanAccum 0 channels height width c in_ptr / ((height*width*0 : ℕ) : ℝ)) t.out]
    simp only []
    rw [foldl_guard_true height width (fun row column (o : ℕ → ℝ) =>
      (List.range 0).foldl (fun o bidx =>
        updW o (channels*height*width*bidx + (height*width*c + (width*row + column))) (scale_ptr c * ((1 / Real.sqrt (spatialVarAccumNoGuard 0 channels height width c in_ptr (spatialMeanAccum 0 channels height width c in_ptr / ((height*width*0 : ℕ) : ℝ)) / ((height*width*0 : ℕ) : ℝ) + epsilon)) * o (channels*height*width*bidx + (height*width*c + (width*row + column)))) + bias_ptr c)) o)]
    funext j
    refine Eq.trans (foldl_rmw_triple_frame height width 0
      (fun r w b => channels*height*width*b + (height*width*c + (width*r + w)))
      (fun r w b cur => scale_ptr c * ((1 / Real.sqrt (spatialVarAccumNoGuard 0 channels height width c in_ptr (spatialMeanAccum 0 channels height width c in_ptr / ((height*width*0 : ℕ) : ℝ)) / ((height*width*0 : ℕ) : ℝ) + epsilon)) * cur) + bias_ptr c)
      _ j (fun r w b _ _ h3 => absurd h3 (Nat.not_lt_zero b))) ?_
    exact foldl_rmw_triple_frame height width 0
      (fun r w b => channels*height*width*b + (height*width*c + (width*r + w)))
      (fun r w b cur => in_ptr (channels*height*width*b + (height*width*c + (width*r + w))) - (spatialMeanAccum 0 channels height width c in_ptr / ((height*width*0 : ℕ) : ℝ)))
      t.out j (fun r w b _ _ h3 => absurd h3 (Nat.not_lt_zero b))
  · intro channels height width in_ptr scale_ptr bias_ptr epsilon rmv f s cidx row column
      hc hr hw
    rw [fwdTrainPerAct_saveMean_eq 0 channels height width in_ptr scale_ptr bias_ptr
      epsilon true rmv f s cidx row column hc hr hw]
    simp only [if_true]

/-- Witness for the amended C9 at a concrete configuration. -/
theorem C9_zero_batch_behaviour_witness :
    (0:ℕ) < 1 ∧
    ((miopenBNFwdTrainPerActivationRunHost 0 1 1 1 (fun _ => 0) (fun _ => 1) (fun _ => 0)
        1 true false 0
        ⟨fun _ => 0, fun _ => 1, fun _ => 1, fun _ => 1, fun _ => 1⟩).saveMean
        (1*1*0 + (1*0 + 0))
      = meanAccum 0 (1*1*1) (1*1*0 + (1*0 + 0)) (fun _ => 0) / ((0:ℕ) : ℝ)) :=
  ⟨by decide,
    C9_zero_batch_behaviour.2.2 1 1 1 (fun _ => 0) (fun _ => 1) (fun _ => 0) 1 false 0
      ⟨fun _ => 0, fun _ => 1, fun _ => 1, fun _ => 1, fun _ => 1⟩ 0 0 0
      (by decide) (by decide) (by decide)⟩

/-- C9 counterexample: with `n_batchs = 0` and saving enabled, the
per-activation training forward overwrites the statistics buffer `saveMean`
(initialized to `1` here), so configuration errors are not rejected before
the reduction loops and statistics buffers are written. -/
theorem C9_counterexample :
    (miopenBNFwdTrainPerActivationRunHost 0 1 1 1 (fun _ => 0) (fun _ => 1) (fun _ => 0)
        1 true false 0
        ⟨fun _ => 0, fun _ => 1, fun _ => 1, fun _ => 1, fun _ => 1⟩).saveMean 0
      ≠ (1:ℝ) := by
  have h := fwdTrainPerAct_saveMean_eq 0 1 1 1 (fun _ => 0) (fun _ => 1) (fun _ => 0)
    1 true false 0 ⟨fun _ => 0, fun _ => 1, fun _ => 1, fun _ => 1, fun _ => 1⟩ 0 0 0
    (by decide) (by decide) (by decide)
  norm_num [meanAccum] at h
  rw [h]
  norm_num

/-- C10: with supplied estimates the host inference engines compute
`invVariance = 1/sqrt(estimatedVariance + epsilon)` directly, with no clamping
or absolute value on the radicand, while the HIP inference kernel applies
`fabs` before the reciprocal square root; the two agree whenever the radicand
is nonnegative, and diverge on a concrete input whose estimated variance is
more negative than `-epsilon` (in this real-number model `sqrt` of a negative
radicand is `0` where the C host code would produce NaN). -/
theorem C10_host_no_fabs_vs_kernel :
    (∀ (n_batchs channels height width : ℕ) (in_ptr scale_ptr bias_ptr : ℕ → ℝ)
      (epsilon : ℝ) (estimatedMean estimatedVariance : ℕ → ℝ) (out : ℕ → ℝ)
      (cidx row column bidx : ℕ),
      cidx < channels → row < height → column < width → bidx < n_batchs →
      miopenBNFwdInferPerActivationRunHost n_batchs channels height width in_ptr scale_ptr
          bias_ptr epsilon true estimatedMean estimatedVariance out (channels*height*width*bidx + (height*width*cidx + (width*row + column)))
        = scale_ptr (height*width*cidx + (width*row + column)) * ((in_ptr (channels*height*width*bidx + (height*width*cidx + (width*row + column))) - estimatedMean (height*width*cidx + (width*row + column))) *
            (1 / Real.sqrt (estimatedVariance (height*width*cidx + (width*row + column)) + epsilon))) + bias_ptr (height*width*cidx + (width*row + column))) ∧
    (∀ (n_batchs channels height width : ℕ) (in_ptr scale_ptr bias_ptr : ℕ → ℝ)
      (epsilon : ℝ) (estimatedMean estimatedVariance : ℕ → ℝ) (out : ℕ → ℝ)
      (cidx row column bidx : ℕ),
      cidx < channels → row < height → column < width → bidx < n_batchs →
      miopenBNFwdInferSpatialRunHost n_batchs channels height width in_ptr scale_ptr
          bias_ptr epsilon true estimatedMean estimatedVariance out (channels*height*width*bidx + (height*width*cidx + (width*row + column)))
        = scale_ptr cidx * ((in_ptr (channels*height*width*bidx + (height*width*cidx + (width*row + column))) - estimatedMean cidx) *
            (1 / Real.sqrt (estimatedVariance cidx + epsilon))) + bias_ptr cidx) ∧
    (∀ (batchSize imageDims batchStride numGroups : ℕ)
      (in_ptr estimatedMean estimatedVariance scale bias : ℕ → ℝ) (epsilon : ℝ)
      (out : ℕ → ℝ) (grpid img n : ℕ),
      grpid < numGroups → img < imageDims → n < batchSize →
      numGroups*imageDims ≤ batchStride →
      bn_fwd_infer_per_activation batchSize imageDims batchStride numGroups in_ptr
          estimatedMean estimatedVariance scale bias epsilon out (batchStride*n + (grpid*imageDims + img))
        = scale (grpid*imageDims + img) * ((in_ptr (batchStride*n + (grpid*imageDims + img)) - estimatedMean (grpid*imageDims + img)) *
            (1 / Real.sqrt |estimatedVariance (grpid*imageDims + img) + epsilon|)) + bias (grpid*imageDims + img)) ∧
    (∀ v e : ℝ, 0 ≤ v + e → 1 / Real.sqrt |v + e| = 1 / Real.sqrt (v + e)) ∧
    (((-2:ℝ) + 1 < 0) ∧
      miopenBNFwdInferPerActivationRunHost 1 1 1 1 (fun _ => 1) (fun _ => 1) (fun _ => 0)
          1 true (fun _ => 0) (fun _ => -2) (fun _ => 5) 0
        ≠ bn_fwd_infer_per_activation 1 1 1 1 (fun _ => 1) (fun _ => 0) (fun _ => -2)
          (fun _ => 1) (fun _ => 0) 1 (fun _ => 5) 0) := by
  refine ⟨?_, ?_, ?_, ?_, ?_, ?_⟩
  · intro n_batchs channels height width in_ptr scale_ptr bias_ptr epsilon em ev out
      cidx row column bidx hc hr hw hb
    exact fwdInferPerActEst_out_eq n_batchs channels height width in_ptr scale_ptr bias_ptr
      em ev epsilon out cidx row column bidx hc hr hw hb
  · intro n_batchs channels height width in_ptr scale_ptr bias_ptr epsilon em ev out
      cidx row column bidx hc hr hw hb
    exact fwdInferSpatialEst_out_eq n_batchs channels height width in_ptr scale_ptr bias_ptr
      em ev epsilon out cidx row column bidx hc hr hw hb
  · intro batchSize imageDims batchStride numGroups in_ptr em ev scale bias epsilon out
      grpid img n hg hi hn hle
    exact bn_fwd_infer_per_activation_out_eq batchSize imageDims batchStride numGroups
      in_ptr em ev scale bias epsilon out grpid img n hg hi hn hle
  · intro v e h
    rw [abs_of_nonneg h]
  · norm_num
  · have hh := fwdInferPerActEst_out_eq 1 1 1 1 (fun _ => 1) (fun _ => 1) (fun _ => 0)
      (fun _ => 0) (fun _ => -2) 1 (fun _ => 5) 0 0 0 0
      (by decide) (by decide) (by decide) (by decide)
    have hk := bn_fwd_infer_per_activation_out_eq 1 1 1 1 (fun _ => 1) (fun _ => 0)
      (fun _ => -2) (fun _ => 1) (fun _ => 0) 1 (fun _ => 5) 0 0 0
      (by decide) (by decide) (by decide) (by decide)
    have hs : Real.sqrt ((-2:ℝ) + 1) = 0 := Real.sqrt_eq_zero_of_nonpos (by norm_num)
    have ha : |(-2:ℝ) + 1| = 1 := by norm_num
    norm_num at hh hk
    rw [hh, hk]
    rw [hs] at *
    norm_num [ha, Real.sqrt_one] at *

/-- Witness for C10: the agreement conjunct at a nonnegative radicand, and the
host per-activation inference conjunct at a concrete configuration. -/
theorem C10_host_no_fabs_vs_kernel_witness :
    (0:ℝ) ≤ (3:ℝ) + 1 ∧ (0:ℕ) < 1 ∧
    (1 / Real.sqrt |(3:ℝ) + 1| = 1 / Real.sqrt ((3:ℝ) + 1)) ∧
    miopenBNFwdInferPerActivationRunHost 1 1 1 1 (fun _ => 2) (fun _ => 1) (fun _ => 0)
        1 true (fun _ => 0) (fun _ => 3) (fun _ => 0) 0
      = 1 * (((2:ℝ) - 0) * (1 / Real.sqrt ((3:ℝ) + 1))) + 0 :=
  ⟨by norm_num, by decide,
    C10_host_no_fabs_vs_kernel.2.2.2.1 3 1 (by norm_num),
    C10_host_no_fabs_vs_kernel.1 1 1 1 1 (fun _ => 2) (fun _ => 1) (fun _ => 0) 1
      (fun _ => 0) (fun _ => 3) (fun _ => 0) 0 0 0 0
      (by decide) (by decide) (by decide) (by decide)⟩

/-- C1: corrected input-gradient contract.  In both spatial paths the code
writes exactly the claimed formula
`dx_i = (invVar/M) * (M*scale*dy_i - scale*dbias[g] - xhat_i*scale*dscale[g])`
with `dbias[g]`, `dscale[g]` the emitted group accumulators (first two
conjuncts: saved and recomputed statistics).  The per-activation backward does
NOT use `dy_i`: both of its paths replace the claimed `M*scale*dy_i` term by
`M * sum_b scale*dy_b`, the group-summed scaled upstream gradient (last two
conjuncts give the formulas the code actually computes). -/
theorem C1_backward_dx_formula :
    (∀ (n_batchs channels height width : ℕ)
      (x_ptr dy_ptr scale_ptr savedMean savedInvVariance : ℕ → ℝ) (epsilon : ℝ) (s : BwdState)
      (cidx row column bidx : ℕ),
      cidx < channels → row < height → column < width → bidx < n_batchs →
      (miopenBNBwdSpatialRunHost n_batchs channels height width x_ptr dy_ptr scale_ptr epsilon true savedMean savedInvVariance s).dx (channels*height*width*bidx + (height*width*cidx + (width*row + column)))
        = savedInvVariance cidx / ((n_batchs*(height*width) : ℕ) : ℝ) *
            (((n_batchs*(height*width) : ℕ) : ℝ) * scale_ptr cidx * dy_ptr (channels*height*width*bidx + (height*width*cidx + (width*row + column)))
              - scale_ptr cidx * (miopenBNBwdSpatialRunHost n_batchs channels height width x_ptr dy_ptr scale_ptr epsilon true savedMean savedInvVariance s).dbias cidx
              - ((x_ptr (channels*height*width*bidx + (height*width*cidx + (width*row + column))) - savedMean cidx) * savedInvVariance cidx) * scale_ptr cidx * (miopenBNBwdSpatialRunHost n_batchs channels height width x_ptr dy_ptr scale_ptr epsilon true savedMean savedInvVariance s).dscale cidx)) ∧
    (∀ (n_batchs channels height width : ℕ)
      (x_ptr dy_ptr scale_ptr savedMean savedInvVariance : ℕ → ℝ) (epsilon : ℝ) (s : BwdState)
      (cidx row column bidx : ℕ),
      cidx < channels → row < height → column < width → bidx < n_batchs →
      (miopenBNBwdSpatialRunHost n_batchs channels height width x_ptr dy_ptr scale_ptr epsilon false savedMean savedInvVariance s).dx (channels*height*width*bidx + (height*width*cidx + (width*row + column)))
        = (1 / Real.sqrt (spatialVarAccumNoGuard n_batchs channels height width cidx x_ptr (spatialMeanAccumNoGuard n_batchs channels height width cidx x_ptr / ((n_batchs*(height*width) : ℕ) : ℝ)) / ((n_batchs*(height*width) : ℕ) : ℝ) + epsilon)) / ((n_batchs*(height*width) : ℕ) : ℝ) *
            (((n_batchs*(height*width) : ℕ) : ℝ) * scale_ptr cidx * dy_ptr (channels*height*width*bidx + (height*width*cidx + (width*row + column)))
              - scale_ptr cidx * (miopenBNBwdSpatialRunHost n_batchs channels height width x_ptr dy_ptr scale_ptr epsilon false savedMean savedInvVariance s).dbias cidx
              - ((x_ptr (channels*height*width*bidx + (height*width*cidx + (width*row + column))) - (spatialMeanAccumNoGuard n_batchs channels height width cidx x_ptr / ((n_batchs*(height*width) : ℕ) : ℝ))) * (1 / Real.sqrt (spatialVarAccumNoGuard n_batchs channels height width cidx x_ptr (spatialMeanAccumNoGuard n_batchs channels height width cidx x_ptr / ((n_batchs*(height*width) : ℕ) : ℝ)) / ((n_batchs*(height*width) : ℕ) : ℝ) + epsilon))) * scale_ptr cidx * (miopenBNBwdSpatialRunHost n_batchs channels height width x_ptr dy_ptr scale_ptr epsilon false savedMean savedInvVariance s).dscale cidx)) ∧
    (∀ (n_batchs channels height width : ℕ)
      (x_ptr dy_ptr scale_ptr savedMean savedInvVariance : ℕ → ℝ) (epsilon : ℝ) (s : BwdState)
      (cidx row column bidx : ℕ),
      cidx < channels → row < height → column < width → bidx < n_batchs →
      (miopenBNBwdPerActivationRunHost n_batchs channels height width x_ptr dy_ptr scale_ptr epsilon true savedMean savedInvVariance s).dx (channels*height*width*bidx + (height*width*cidx + (width*row + column)))
        = savedInvVariance (height*width*cidx + (width*row + column)) / (n_batchs : ℝ) *
            ((n_batchs : ℝ) * (∑ b ∈ Finset.range n_batchs, scale_ptr (height*width*cidx + (width*row + column)) * dy_ptr (channels*height*width*b + (height*width*cidx + (width*row + column))))
              - (((x_ptr (channels*height*width*bidx + (height*width*cidx + (width*row + column))) - savedMean (height*width*cidx + (width*row + column))) * savedInvVariance (height*width*cidx + (width*row + column))) * (∑ b ∈ Finset.range n_batchs, scale_ptr (height*width*cidx + (width*row + column)) * dy_ptr (channels*height*width*b + (height*width*cidx + (width*row + column))) * ((x_ptr (channels*height*width*b + (height*width*cidx + (width*row + column))) - savedMean (height*width*cidx + (width*row + column))) * savedInvVariance (height*width*cidx + (width*row + column)))) + (∑ b ∈ Finset.range n_batchs, scale_ptr (height*width*cidx + (width*row + column)) * dy_ptr (channels*height*width*b + (height*width*cidx + (width*row + column))))))) ∧
    (∀ (n_batchs channels height width : ℕ)
      (x_ptr dy_ptr scale_ptr savedMean savedInvVariance : ℕ → ℝ) (epsilon : ℝ) (s : BwdState)
      (cidx row column bidx : ℕ),
      cidx < channels → row < height → column < width → bidx < n_batchs →
      (miopenBNBwdPerActivationRunHost n_batchs channels height width x_ptr dy_ptr scale_ptr epsilon false savedMean savedInvVariance s).dx (channels*height*width*bidx + (height*width*cidx + (width*row + column)))
        = (1 / Real.sqrt (varianceAccum n_batchs (channels*height*width) (height*width*cidx + (width*row + column)) x_ptr (meanAccum n_batchs (channels*height*width) (height*width*cidx + (width*row + column)) x_ptr / (n_batchs : ℝ)) / (n_batchs : ℝ) + epsilon)) / (n_batchs : ℝ) *
            ((n_batchs : ℝ) * (∑ b ∈ Finset.range n_batchs, scale_ptr (height*width*cidx + (width*row + column)) * dy_ptr (channels*height*width*b + (height*width*cidx + (width*row + column))))
              - (((x_ptr (channels*height*width*bidx + (height*width*cidx + (width*row + column))) - (meanAccum n_batchs (channels*height*width) (height*width*cidx + (width*row + column)) x_ptr / (n_batchs : ℝ))) * (1 / Real.sqrt (varianceAccum n_batchs (channels*height*width) (height*width*cidx + (width*row + column)) x_ptr (meanAccum n_batchs (channels*height*width) (height*width*cidx + (width*row + column)) x_ptr / (n_batchs : ℝ)) / (n_batchs : ℝ) + epsilon))) * (∑ b ∈ Finset.range n_batchs, scale_ptr (height*width*cidx + (width*row + column)) * dy_ptr (channels*height*width*b + (height*width*cidx + (width*row + column))) * ((x_ptr (channels*height*width*b + (height*width*cidx + (width*row + column))) - (meanAccum n_batchs (channels*height*width) (height*width*cidx + (width*row + column)) x_ptr / (n_batchs : ℝ))) * (1 / Real.sqrt (varianceAccum n_batchs (channels*height*width) (height*width*cidx + (width*row + column)) x_ptr (meanAccum n_batchs (channels*height*width) (height*width*cidx + (width*row + column)) x_ptr / (n_batchs : ℝ)) / (n_batchs : ℝ) + epsilon)))) + (∑ b ∈ Finset.range n_batchs, scale_ptr (height*width*cidx + (width*row + column)) * dy_ptr (channels*height*width*b + (height*width*cidx + (width*row + column))))))) := by
  refine ⟨?_, ?_, ?_, ?_⟩
  · intro n_batchs channels height width x_ptr dy_ptr scale_ptr savedMean savedInvVariance epsilon s cidx row column bidx hc hrow hcol hbx
    have h := bwdSpatialSaved_eq n_batchs channels height width x_ptr dy_ptr scale_ptr savedMean savedInvVariance epsilon s cidx row column bidx hc hrow hcol hbx
    simp only [Prod.mk.injEq] at h
    obtain ⟨hdb, hds, hdx⟩ := h
    rw [hdx, hdb, hds]
    ring
  · intro n_batchs channels height width x_ptr dy_ptr scale_ptr savedMean savedInvVariance epsilon s cidx row column bidx hc hrow hcol hbx
    have h := bwdSpatialRecomp_eq n_batchs channels height width x_ptr dy_ptr scale_ptr savedMean savedInvVariance epsilon s cidx row column bidx hc hrow hcol hbx
    simp only [Prod.mk.injEq] at h
    obtain ⟨hdb, hds, hdx⟩ := h
    rw [hdx, hdb, hds]
    ring
  · intro n_batchs channels height width x_ptr dy_ptr scale_ptr savedMean savedInvVariance epsilon s cidx row column bidx hc hrow hcol hbx
    exact (bwdPerActSaved_dx_eq n_batchs channels height width x_ptr dy_ptr scale_ptr savedMean savedInvVariance epsilon s cidx row column bidx hc hrow hcol hbx).trans (by ring)
  · intro n_batchs channels height width x_ptr dy_ptr scale_ptr savedMean savedInvVariance epsilon s cidx row column bidx hc hrow hcol hbx
    exact (bwdPerActRecomp_dx_eq n_batchs channels height width x_ptr dy_ptr scale_ptr savedMean savedInvVariance epsilon s cidx row column bidx hc hrow hcol hbx).trans (by ring)

/-- Witness for C1: the per-activation saved-statistics conjunct at a concrete
one-element configuration. -/
theorem C1_backward_dx_formula_witness :
    (0:ℕ) < 1 ∧
    (miopenBNBwdPerActivationRunHost 1 1 1 1 (fun _ => 5) (fun _ => 1) (fun _ => 1) 0 true
        (fun _ => 0) (fun _ => 1) ⟨fun _ => 0, fun _ => 0, fun _ => 0⟩).dx 0
      = (1:ℝ) / ((1:ℕ) : ℝ) *
          (((1:ℕ) : ℝ) * (∑ b ∈ Finset.range 1, (1:ℝ) * 1)
            - ((((5:ℝ) - 0) * 1) * (∑ b ∈ Finset.range 1, (1:ℝ) * 1 * (((5:ℝ) - 0) * 1))
              + (∑ b ∈ Finset.range 1, (1:ℝ) * 1))) :=
  ⟨by decide,
    C1_backward_dx_formula.2.2.1 1 1 1 1 (fun _ => 5) (fun _ => 1) (fun _ => 1) (fun _ => 0)
      (fun _ => 1) 0 ⟨fun _ => 0, fun _ => 0, fun _ => 0⟩ 0 0 0 0
      (by decide) (by decide) (by decide) (by decide)⟩

/-- C1 counterexample: per-activation saved-statistics backward with
`n_batchs = 2`, `channels = height = width = 1`, `x = (1,0)`, `dy = (1,1)`,
`scale = 1`, `savedMean = 0`, `savedInvVariance = 1`, zero-initialised
gradient buffers.  The code writes `dx_0 = 1/2`, but the claimed formula
gives `-1/2` when `dbias`, `dscale` are read as the raw group sums (2 and 1)
and `-1/4` when they are read as the emitted accumulators (2 and 1/2). -/
theorem C1_counterexample :
    ((miopenBNBwdPerActivationRunHost 2 1 1 1 (fun i => if i = 0 then (1:ℝ) else 0)
        (fun _ => 1) (fun _ => 1) 0 true (fun _ => 0) (fun _ => 1)
        ⟨fun _ => 0, fun _ => 0, fun _ => 0⟩).dx 0
      ≠ (1:ℝ) / ((2:ℕ) : ℝ) * (((2:ℕ) : ℝ) * 1 * 1 - 1 * 2 - 1 * 1 * 1)) ∧
    ((miopenBNBwdPerActivationRunHost 2 1 1 1 (fun i => if i = 0 then (1:ℝ) else 0)
        (fun _ => 1) (fun _ => 1) 0 true (fun _ => 0) (fun _ => 1)
        ⟨fun _ => 0, fun _ => 0, fun _ => 0⟩).dx 0
      ≠ (1:ℝ) / ((2:ℕ) : ℝ) * (((2:ℕ) : ℝ) * 1 * 1 - 1 * 2 - 1 * 1 * (1 / ((2:ℕ) : ℝ)))) := by
  have h := bwdPerActSaved_dx_eq 2 1 1 1 (fun i => if i = 0 then (1:ℝ) else 0)
    (fun _ => 1) (fun _ => 1) (fun _ => 0) (fun _ => 1) 0
    ⟨fun _ => 0, fun _ => 0, fun _ => 0⟩ 0 0 0 0
    (by decide) (by decide) (by decide) (by decide)
  norm_num [Finset.sum_range_succ] at h
  constructor <;> rw [h] <;> norm_num

/-- C5: corrected group-gradient contract.  In every backward path the group
`dbias` accumulator receives the raw sum of the upstream gradients and `dscale`
the raw sum of `xhat_i*dy_i`, but (1) `dscale` is then divided by the group
size (`n_batchs` per-activation, `n_batchs*height*width` spatial), and (2) the
sums are accumulated onto the caller-supplied initial buffer contents in the
per-activation paths and the saved-statistics spatial path, while the
recomputing spatial path first zeroes both accumulators. -/
theorem C5_emitted_group_gradients :
    (∀ (n_batchs channels height width : ℕ)
      (x_ptr dy_ptr scale_ptr savedMean savedInvVariance : ℕ → ℝ) (epsilon : ℝ) (s : BwdState)
      (cidx row column : ℕ),
      cidx < channels → row < height → column < width →
      (miopenBNBwdPerActivationRunHost n_batchs channels height width x_ptr dy_ptr scale_ptr epsilon true savedMean savedInvVariance s).dbias (height*width*cidx + (width*row + column))
        = s.dbias (height*width*cidx + (width*row + column)) + (∑ b ∈ Finset.range n_batchs, dy_ptr (channels*height*width*b + (height*width*cidx + (width*row + column)))) ∧
      (miopenBNBwdPerActivationRunHost n_batchs channels height width x_ptr dy_ptr scale_ptr epsilon true savedMean savedInvVariance s).dscale (height*width*cidx + (width*row + column))
        = (s.dscale (height*width*cidx + (width*row + column)) + (∑ b ∈ Finset.range n_batchs, ((x_ptr (channels*height*width*b + (height*width*cidx + (width*row + column))) - (savedMean (height*width*cidx + (width*row + column)))) * (savedInvVariance (height*width*cidx + (width*row + column)))) * dy_ptr (channels*height*width*b + (height*width*cidx + (width*row + column))))) / (n_batchs : ℝ)) ∧
    (∀ (n_batchs channels height width : ℕ)
      (x_ptr dy_ptr scale_ptr savedMean savedInvVariance : ℕ → ℝ) (epsilon : ℝ) (s : BwdState)
      (cidx row column : ℕ),
      cidx < channels → row < height → column < width →
      (miopenBNBwdPerActivationRunHost n_batchs channels height width x_ptr dy_ptr scale_ptr epsilon false savedMean savedInvVariance s).dbias (height*width*cidx + (width*row + column))
        = s.dbias (height*width*cidx + (width*row + column)) + (∑ b ∈ Finset.range n_batchs, dy_ptr (channels*height*width*b + (height*width*cidx + (width*row + column)))) ∧
      (miopenBNBwdPerActivationRunHost n_batchs channels height width x_ptr dy_ptr scale_ptr epsilon false savedMean savedInvVariance s).dscale (height*width*cidx + (width*row + column))
        = (s.dscale (height*width*cidx + (width*row + column)) + (∑ b ∈ Finset.range n_batchs, ((x_ptr (channels*height*width*b + (height*width*cidx + (width*row + column))) - (meanAccum n_batchs (channels*height*width) (height*width*cidx + (width*row + column)) x_ptr / (n_batchs : ℝ))) * (1 / Real.sqrt (varianceAccum n_batchs (channels*height*width) (height*width*cidx + (width*row + column)) x_ptr (meanAccum n_batchs (channels*height*width) (height*width*cidx + (width*row + column)) x_ptr / (n_batchs : ℝ)) / (n_batchs : ℝ) + epsilon))) * dy_ptr (channels*height*width*b + (height*width*cidx + (width*row + column))))) / (n_batchs : ℝ)) ∧
    (∀ (n_batchs channels height width : ℕ)
      (x_ptr dy_ptr scale_ptr savedMean savedInvVariance : ℕ → ℝ) (epsilon : ℝ) (s : BwdState)
      (cidx row column bidx : ℕ),
      cidx < channels → row < height → column < width → bidx < n_batchs →
      (miopenBNBwdSpatialRunHost n_batchs channels height width x_ptr dy_ptr scale_ptr epsilon true savedMean savedInvVariance s).dbias cidx = s.dbias cidx + (∑ r ∈ Finset.range height, ∑ w ∈ Finset.range width, ∑ b ∈ Finset.range n_batchs, dy_ptr (channels*height*width*b + (height*width*cidx + (width*r + w)))) ∧
      (miopenBNBwdSpatialRunHost n_batchs channels height width x_ptr dy_ptr scale_ptr epsilon true savedMean savedInvVariance s).dscale cidx = (s.dscale cidx + (∑ r ∈ Finset.range height, ∑ w ∈ Finset.range width, ∑ b ∈ Finset.range n_batchs, (x_ptr (channels*height*width*b + (height*width*cidx + (width*r + w))) - savedMean cidx)*savedInvVariance cidx*dy_ptr (channels*height*width*b + (height*width*cidx + (width*r + w))))) / ((n_batchs*(height*width) : ℕ) : ℝ)) ∧
    (∀ (n_batchs channels height width : ℕ)
      (x_ptr dy_ptr scale_ptr savedMean savedInvVariance : ℕ → ℝ) (epsilon : ℝ) (s : BwdState)
      (cidx row column bidx : ℕ),
      cidx < channels → row < height → column < width → bidx < n_batchs →
      (miopenBNBwdSpatialRunHost n_batchs channels height width x_ptr dy_ptr scale_ptr epsilon false savedMean savedInvVariance s).dbias cidx = 0 + (∑ r ∈ Finset.range height, ∑ w ∈ Finset.range width, ∑ b ∈ Finset.range n_batchs, dy_ptr (channels*height*width*b + (height*width*cidx + (width*r + w)))) ∧
      (miopenBNBwdSpatialRunHost n_batchs channels height width x_ptr dy_ptr scale_ptr epsilon false savedMean savedInvVariance s).dscale cidx = (0 + (∑ r ∈ Finset.range height, ∑ w ∈ Finset.range width, ∑ b ∈ Finset.range n_batchs, ((x_ptr (channels*height*width*b + (height*width*cidx + (width*r + w))) - (spatialMeanAccumNoGuard n_batchs channels height width cidx x_ptr / ((n_batchs*(height*width) : ℕ) : ℝ)))*(1 / Real.sqrt (spatialVarAccumNoGuard n_batchs channels height width cidx x_ptr (spatialMeanAccumNoGuard n_batchs channels height width cidx x_ptr / ((n_batchs*(height*width) : ℕ) : ℝ)) / ((n_batchs*(height*width) : ℕ) : ℝ) + epsilon)))*dy_ptr (channels*height*width*b + (height*width*cidx + (width*r + w))))) / ((n_batchs*(height*width) : ℕ) : ℝ)) := by
  refine ⟨?_, ?_, ?_, ?_⟩
  · intro n_batchs channels height width x_ptr dy_ptr scale_ptr savedMean savedInvVariance epsilon s cidx row column hc hr hw
    exact ⟨bwdPerActSaved_dbias_eq n_batchs channels height width x_ptr dy_ptr scale_ptr savedMean savedInvVariance epsilon s cidx row column hc hr hw,
           bwdPerActSaved_dscale_eq n_batchs channels height width x_ptr dy_ptr scale_ptr savedMean savedInvVariance epsilon s cidx row column hc hr hw⟩
  · intro n_batchs channels height width x_ptr dy_ptr scale_ptr savedMean savedInvVariance epsilon s cidx row column hc hr hw
    exact ⟨bwdPerActRecomp_dbias_eq n_batchs channels height width x_ptr dy_ptr scale_ptr savedMean savedInvVariance epsilon s cidx row column hc hr hw,
           bwdPerActRecomp_dscale_eq n_batchs channels height width x_ptr dy_ptr scale_ptr savedMean savedInvVariance epsilon s cidx row column hc hr hw⟩
  · intro n_batchs channels height width x_ptr dy_ptr scale_ptr savedMean savedInvVariance epsilon s cidx row column bidx hc hrow hcol hbx
    have h := bwdSpatialSaved_eq n_batchs channels height width x_ptr dy_ptr scale_ptr savedMean savedInvVariance epsilon s cidx row column bidx hc hrow hcol hbx
    simp only [Prod.mk.injEq] at h
    exact ⟨h.1, h.2.1⟩
  · intro n_batchs channels height width x_ptr dy_ptr scale_ptr savedMean savedInvVariance epsilon s cidx row column bidx hc hrow hcol hbx
    have h := bwdSpatialRecomp_eq n_batchs channels height width x_ptr dy_ptr scale_ptr savedMean savedInvVariance epsilon s cidx row column bidx hc hrow hcol hbx
    simp only [Prod.mk.injEq] at h
    exact ⟨h.1, h.2.1⟩

/-- Witness for C5: the per-activation saved-statistics conjunct at a concrete
one-element configuration. -/
theorem C5_emitted_group_gradients_witness :
    (0:ℕ) < 1 ∧
    ((miopenBNBwdPerActivationRunHost 1 1 1 1 (fun _ => 2) (fun _ => 1) (fun _ => 1) 0 true
        (fun _ => 0) (fun _ => 1) ⟨fun _ => 0, fun _ => 0, fun _ => 0⟩).dbias 0
      = 0 + (∑ b ∈ Finset.range 1, (1:ℝ)) ∧
     (miopenBNBwdPerActivationRunHost 1 1 1 1 (fun _ => 2) (fun _ => 1) (fun _ => 1) 0 true
        (fun _ => 0) (fun _ => 1) ⟨fun _ => 0, fun _ => 0, fun _ => 0⟩).dscale 0
      = (0 + (∑ b ∈ Finset.range 1, (((2:ℝ) - 0) * 1) * 1)) / ((1:ℕ) : ℝ)) :=
  ⟨by decide,
    C5_emitted_group_gradients.1 1 1 1 1 (fun _ => 2) (fun _ => 1) (fun _ => 1) (fun _ => 0)
      (fun _ => 1) 0 ⟨fun _ => 0, fun _ => 0, fun _ => 0⟩ 0 0 0
      (by decide) (by decide) (by decide)⟩

/-- C5 counterexample: per-activation saved-statistics backward with
`n_batchs = 2`, `x = (2,0)`, `dy = (1,0)`, `savedMean = 0`,
`savedInvVariance = 1`, zero-initialised buffers.  The raw group sum of
`xhat_i*dy_i` is `2`, but the code emits `dscale = 2/2 = 1`. -/
theorem C5_counterexample :
    (miopenBNBwdPerActivationRunHost 2 1 1 1 (fun i => if i = 0 then (2:ℝ) else 0)
        (fun i => if i = 0 then (1:ℝ) else 0) (fun _ => 1) 0 true (fun _ => 0) (fun _ => 1)
        ⟨fun _ => 0, fun _ => 0, fun _ => 0⟩).dscale 0
      ≠ (((2:ℝ) - 0) * 1) * 1 + (((0:ℝ) - 0) * 1) * 0 := by
  have h := bwdPerActSaved_dscale_eq 2 1 1 1 (fun i => if i = 0 then (2:ℝ) else 0)
    (fun i => if i = 0 then (1:ℝ) else 0) (fun _ => 1) (fun _ => 0) (fun _ => 1) 0
    ⟨fun _ => 0, fun _ => 0, fun _ => 0⟩ 0 0 0
    (by decide) (by decide) (by decide)
  norm_num [Finset.sum_range_succ] at h
  rw [h]
  norm_num

/-- C6: corrected single-write / initial-contents contract.  The `dbias` and
`dscale` buffers are read-modify-write accumulators in every path except the
recomputing spatial one, so their final contents DO depend on the
caller-supplied initial contents.  What is initial-contents independent: the
`dx` buffer written by both per-activation paths (first two conjuncts), all
three gradient buffers of the recomputing spatial path, which zeroes its
accumulators (third conjunct), and the `dx` written by the saved-statistics
spatial path provided the two runs start from equal `dbias`/`dscale` contents
for the channel (fourth conjunct). -/
theorem C6_buffer_initial_contents :
    (∀ (n_batchs channels height width : ℕ)
      (x_ptr dy_ptr scale_ptr savedMean savedInvVariance : ℕ → ℝ) (epsilon : ℝ)
      (s s' : BwdState) (cidx row column bidx : ℕ),
      cidx < channels → row < height → column < width → bidx < n_batchs →
      (miopenBNBwdPerActivationRunHost n_batchs channels height width x_ptr dy_ptr scale_ptr epsilon true savedMean savedInvVariance s).dx (channels*height*width*bidx + (height*width*cidx + (width*row + column)))
        = (miopenBNBwdPerActivationRunHost n_batchs channels height width x_ptr dy_ptr scale_ptr epsilon true savedMean savedInvVariance s').dx (channels*height*width*bidx + (height*width*cidx + (width*row + column)))) ∧
    (∀ (n_batchs channels height width : ℕ)
      (x_ptr dy_ptr scale_ptr savedMean savedInvVariance : ℕ → ℝ) (epsilon : ℝ)
      (s s' : BwdState) (cidx row column bidx : ℕ),
      cidx < channels → row < height → column < width → bidx < n_batchs →
      (miopenBNBwdPerActivationRunHost n_batchs channels height width x_ptr dy_ptr scale_ptr epsilon false savedMean savedInvVariance s).dx (channels*height*width*bidx + (height*width*cidx + (width*row + column)))
        = (miopenBNBwdPerActivationRunHost n_batchs channels height width x_ptr dy_ptr scale_ptr epsilon false savedMean savedInvVariance s').dx (channels*height*width*bidx + (height*width*cidx + (width*row + column)))) ∧
    (∀ (n_batchs channels height width : ℕ)
      (x_ptr dy_ptr scale_ptr savedMean savedInvVariance : ℕ → ℝ) (epsilon : ℝ)
      (s s' : BwdState) (cidx row column bidx : ℕ),
      cidx < channels → row < height → column < width → bidx < n_batchs →
      (miopenBNBwdSpatialRunHost n_batchs channels height width x_ptr dy_ptr scale_ptr epsilon false savedMean savedInvVariance s).dbias cidx = (miopenBNBwdSpatialRunHost n_batchs channels height width x_ptr dy_ptr scale_ptr epsilon false savedMean savedInvVariance s').dbias cidx ∧
      (miopenBNBwdSpatialRunHost n_batchs channels height width x_ptr dy_ptr scale_ptr epsilon false savedMean savedInvVariance s).dscale cidx = (miopenBNBwdSpatialRunHost n_batchs channels height width x_ptr dy_ptr scale_ptr epsilon false savedMean savedInvVariance s').dscale cidx ∧
      (miopenBNBwdSpatialRunHost n_batchs channels height width x_ptr dy_ptr scale_ptr epsilon false savedMean savedInvVariance s).dx (channels*height*width*bidx + (height*width*cidx + (width*row + column))) = (miopenBNBwdSpatialRunHost n_batchs channels height width x_ptr dy_ptr scale_ptr epsilon false savedMean savedInvVariance s').dx (channels*height*width*bidx + (height*width*cidx + (width*row + column)))) ∧
    (∀ (n_batchs channels height width : ℕ)
      (x_ptr dy_ptr scale_ptr savedMean savedInvVariance : ℕ → ℝ) (epsilon : ℝ)
      (s s' : BwdState) (cidx row column bidx : ℕ),
      cidx < channels → row < height → column < width → bidx < n_batchs →
      s.dbias cidx = s'.dbias cidx → s.dscale cidx = s'.dscale cidx →
      (miopenBNBwdSpatialRunHost n_batchs channels height width x_ptr dy_ptr scale_ptr epsilon true savedMean savedInvVariance s).dx (channels*height*width*bidx + (height*width*cidx + (width*row + column))) = (miopenBNBwdSpatialRunHost n_batchs channels height width x_ptr dy_ptr scale_ptr epsilon true savedMean savedInvVariance s').dx (channels*height*width*bidx + (height*width*cidx + (width*row + column)))) := by
  refine ⟨?_, ?_, ?_, ?_⟩
  · intro n_batchs channels height width x_ptr dy_ptr scale_ptr savedMean savedInvVariance epsilon s s' cidx row column bidx hc hrow hcol hbx
    exact (bwdPerActSaved_dx_eq n_batchs channels height width x_ptr dy_ptr scale_ptr savedMean savedInvVariance epsilon s cidx row column bidx hc hrow hcol hbx).trans
      (bwdPerActSaved_dx_eq n_batchs channels height width x_ptr dy_ptr scale_ptr savedMean savedInvVariance epsilon s' cidx row column bidx hc hrow hcol hbx).symm
  · intro n_batchs channels height width x_ptr dy_ptr scale_ptr savedMean savedInvVariance epsilon s s' cidx row column bidx hc hrow hcol hbx
    exact (bwdPerActRecomp_dx_eq n_batchs channels height width x_ptr dy_ptr scale_ptr savedMean savedInvVariance epsilon s cidx row column bidx hc hrow hcol hbx).trans
      (bwdPerActRecomp_dx_eq n_batchs channels height width x_ptr dy_ptr scale_ptr savedMean savedInvVariance epsilon s' cidx row column bidx hc hrow hcol hbx).symm
  · intro n_batchs channels height width x_ptr dy_ptr scale_ptr savedMean savedInvVariance epsilon s s' cidx row column bidx hc hrow hcol hbx
    have h := (bwdSpatialRecomp_eq n_batchs channels height width x_ptr dy_ptr scale_ptr savedMean savedInvVariance epsilon s cidx row column bidx hc hrow hcol hbx).trans
      (bwdSpatialRecomp_eq n_batchs channels height width x_ptr dy_ptr scale_ptr savedMean savedInvVariance epsilon s' cidx row column bidx hc hrow hcol hbx).symm
    simp only [Prod.mk.injEq] at h
    exact h
  · intro n_batchs channels height width x_ptr dy_ptr scale_ptr savedMean savedInvVariance epsilon s s' cidx row column bidx hc hrow hcol hbx
    intro hb hsc
    have h := bwdSpatialSaved_eq n_batchs channels height width x_ptr dy_ptr scale_ptr savedMean savedInvVariance epsilon s cidx row column bidx hc hrow hcol hbx
    have h' := bwdSpatialSaved_eq n_batchs channels height width x_ptr dy_ptr scale_ptr savedMean savedInvVariance epsilon s' cidx row column bidx hc hrow hcol hbx
    simp only [Prod.mk.injEq] at h h'
    rw [h.2.2, h'.2.2, hb, hsc]

/-- Witness for C6: the per-activation saved-statistics conjunct at a concrete
configuration whose two initial gradient-buffer states differ everywhere. -/
theorem C6_buffer_initial_contents_witness :
    (0:ℕ) < 1 ∧
    (miopenBNBwdPerActivationRunHost 1 1 1 1 (fun _ => 2) (fun _ => 1) (fun _ => 1) 0 true
        (fun _ => 0) (fun _ => 1) ⟨fun _ => 3, fun _ => 4, fun _ => 5⟩).dx 0
      = (miopenBNBwdPerActivationRunHost 1 1 1 1 (fun _ => 2) (fun _ => 1) (fun _ => 1) 0 true
        (fun _ => 0) (fun _ => 1) ⟨fun _ => 0, fun _ => 0, fun _ => 0⟩).dx 0 :=
  ⟨by decide,
    C6_buffer_initial_contents.1 1 1 1 1 (fun _ => 2) (fun _ => 1) (fun _ => 1) (fun _ => 0)
      (fun _ => 1) 0 ⟨fun _ => 3, fun _ => 4, fun _ => 5⟩ ⟨fun _ => 0, fun _ => 0, fun _ => 0⟩
      0 0 0 0 (by decide) (by decide) (by decide) (by decide)⟩

/-- C6 counterexample: two per-activation saved-statistics runs on identical
inputs that differ only in the initial contents of the `dbias` buffer
(`0` versus `1`) emit different final `dbias` values (`1` versus `2`). -/
theorem C6_counterexample :
    (miopenBNBwdPerActivationRunHost 1 1 1 1 (fun _ => 0) (fun _ => 1) (fun _ => 1) 0 true
        (fun _ => 0) (fun _ => 1) ⟨fun _ => 0, fun _ => 0, fun _ => 0⟩).dbias 0
      ≠ (miopenBNBwdPerActivationRunHost 1 1 1 1 (fun _ => 0) (fun _ => 1) (fun _ => 1) 0 true
        (fun _ => 0) (fun _ => 1) ⟨fun _ => 0, fun _ => 0, fun _ => 1⟩).dbias 0 := by
  have h1 := bwdPerActSaved_dbias_eq 1 1 1 1 (fun _ => 0) (fun _ => 1) (fun _ => 1)
    (fun _ => 0) (fun _ => 1) 0 ⟨fun _ => 0, fun _ => 0, fun _ => 0⟩ 0 0 0
    (by decide) (by decide) (by decide)
  have h2 := bwdPerActSaved_dbias_eq 1 1 1 1 (fun _ => 0) (fun _ => 1) (fun _ => 1)
    (fun _ => 0) (fun _ => 1) 0 ⟨fun _ => 0, fun _ => 0, fun _ => 1⟩ 0 0 0
    (by decide) (by decide) (by decide)
  norm_num [Finset.sum_range_succ] at h1 h2
  rw [h1, h2]
  norm_num

/-- At `channels = height = width = 1` the per-activation mean accumulator for
the single group coincides with the spatial per-channel one. -/
theorem meanAccum_dims1 (n : ℕ) (x : ℕ → ℝ) :
    meanAccum n 1 0 x = spatialMeanAccum n 1 1 1 0 x := by
  rw [meanAccum_eq_sum, spatialMeanAccum_eq_sum]
  simp

/-- At `channels = height = width = 1` the per-activation squared-deviation
accumulator coincides with the spatial per-channel one. -/
theorem varianceAccum_dims1 (n : ℕ) (x : ℕ → ℝ) (m : ℝ) :
    varianceAccum n 1 0 x m = spatialVarAccumNoGuard n 1 1 1 0 x m := by
  rw [varianceAccum_eq_sum, spatialVarAccumNoGuard_eq_sum]
  simp

/-- C8: corrected per-activation/spatial agreement at
`channels = height = width = 1`.  The training forwards agree on everything
they emit: the four statistics at index `0` (first conjunct) and every output
element (second conjunct).  The saved-statistics backwards agree on the
emitted `dbias` and `dscale` (third conjunct).  They do NOT agree on `dx`
(see the counterexample), because the per-activation backward replaces the
per-element `dy_i` term by a group sum. -/
theorem C8_per_act_vs_spatial_dims1 :
    (∀ (n : ℕ) (in_ptr scale_ptr bias_ptr : ℕ → ℝ) (epsilon expAvgFactor : ℝ) (s : BNState),
      (miopenBNFwdTrainPerActivationRunHost n 1 1 1 in_ptr scale_ptr bias_ptr epsilon true true expAvgFactor s).saveMean 0 = (miopenBNFwdTrainSpatialRunHost n 1 1 1 in_ptr scale_ptr bias_ptr epsilon true true expAvgFactor s).saveMean 0 ∧
      (miopenBNFwdTrainPerActivationRunHost n 1 1 1 in_ptr scale_ptr bias_ptr epsilon true true expAvgFactor s).saveInvVariance 0 = (miopenBNFwdTrainSpatialRunHost n 1 1 1 in_ptr scale_ptr bias_ptr epsilon true true expAvgFactor s).saveInvVariance 0 ∧
      (miopenBNFwdTrainPerActivationRunHost n 1 1 1 in_ptr scale_ptr bias_ptr epsilon true true expAvgFactor s).runningMean 0 = (miopenBNFwdTrainSpatialRunHost n 1 1 1 in_ptr scale_ptr bias_ptr epsilon true true expAvgFactor s).runningMean 0 ∧
      (miopenBNFwdTrainPerActivationRunHost n 1 1 1 in_ptr scale_ptr bias_ptr epsilon true true expAvgFactor s).runningVariance 0 = (miopenBNFwdTrainSpatialRunHost n 1 1 1 in_ptr scale_ptr bias_ptr epsilon true true expAvgFactor s).runningVariance 0) ∧
    (∀ (n : ℕ) (in_ptr scale_ptr bias_ptr : ℕ → ℝ) (epsilon expAvgFactor : ℝ) (s : BNState)
      (b : ℕ), b < n →
      (miopenBNFwdTrainPerActivationRunHost n 1 1 1 in_ptr scale_ptr bias_ptr epsilon true true expAvgFactor s).out b = (miopenBNFwdTrainSpatialRunHost n 1 1 1 in_ptr scale_ptr bias_ptr epsilon true true expAvgFactor s).out b) ∧
    (∀ (n : ℕ) (x_ptr dy_ptr scale_ptr savedMean savedInvVariance : ℕ → ℝ) (epsilon : ℝ)
      (s : BwdState) (b : ℕ), b < n →
      (miopenBNBwdPerActivationRunHost n 1 1 1 x_ptr dy_ptr scale_ptr epsilon true savedMean savedInvVariance s).dbias 0 = (miopenBNBwdSpatialRunHost n 1 1 1 x_ptr dy_ptr scale_ptr epsilon true savedMean savedInvVariance s).dbias 0 ∧
      (miopenBNBwdPerActivationRunHost n 1 1 1 x_ptr dy_ptr scale_ptr epsilon true savedMean savedInvVariance s).dscale 0 = (miopenBNBwdSpatialRunHost n 1 1 1 x_ptr dy_ptr scale_ptr epsilon true savedMean savedInvVariance s).dscale 0) := by
  refine ⟨?_, ?_, ?_⟩
  · intro n in_ptr scale_ptr bias_ptr epsilon expAvgFactor s
    have h1 := fwdTrainPerAct_saveMean_eq n 1 1 1 in_ptr scale_ptr bias_ptr epsilon true true expAvgFactor s 0 0 0 (by decide) (by decide) (by decide)
    have h2 := fwdTrainSpatial_saveMean_eq n 1 1 1 in_ptr scale_ptr bias_ptr epsilon true true expAvgFactor s 0 (by decide)
    have h3 := fwdTrainPerAct_saveInvVariance_eq n 1 1 1 in_ptr scale_ptr bias_ptr epsilon true true expAvgFactor s 0 0 0 (by decide) (by decide) (by decide)
    have h4 := fwdTrainSpatial_saveInvVariance_eq n 1 1 1 in_ptr scale_ptr bias_ptr epsilon true true expAvgFactor s 0 (by decide)
    have h5 := fwdTrainPerAct_runningMean_eq n 1 1 1 in_ptr scale_ptr bias_ptr epsilon true true expAvgFactor s 0 0 0 (by decide) (by decide) (by decide)
    have h6 := fwdTrainSpatial_runningMean_eq n 1 1 1 in_ptr scale_ptr bias_ptr epsilon true true expAvgFactor s 0 (by decide)
    have h7 := fwdTrainPerAct_runningVariance_eq n 1 1 1 in_ptr scale_ptr bias_ptr epsilon true true expAvgFactor s 0 0 0 (by decide) (by decide) (by decide)
    have h8 := fwdTrainSpatial_runningVariance_eq n 1 1 1 in_ptr scale_ptr bias_ptr epsilon true true expAvgFactor s 0 (by decide)
    norm_num [meanAccum_dims1, varianceAccum_dims1] at h1 h2 h3 h4 h5 h6 h7 h8
    refine ⟨?_, ?_, ?_, ?_⟩
    · rw [h1, h2]
    · rw [h3, h4]
    · rw [h5, h6]
    · rw [h7, h8]
  · intro n in_ptr scale_ptr bias_ptr epsilon expAvgFactor s b hb
    have h1 := fwdTrainPerAct_out_eq n 1 1 1 in_ptr scale_ptr bias_ptr epsilon true true expAvgFactor s 0 0 0 b (by decide) (by decide) (by decide) hb
    have h2 := fwdTrainSpatial_out_eq n 1 1 1 in_ptr scale_ptr bias_ptr epsilon true true expAvgFactor s 0 0 0 b (by decide) (by decide) (by decide) hb
    norm_num [meanAccum_dims1, varianceAccum_dims1] at h1 h2
    rw [h1, h2]
    ring
  · intro n x_ptr dy_ptr scale_ptr savedMean savedInvVariance epsilon s b hb
    have h1 := bwdPerActSaved_dbias_eq n 1 1 1 x_ptr dy_ptr scale_ptr savedMean savedInvVariance epsilon s 0 0 0 (by decide) (by decide) (by decide)
    have h2 := bwdPerActSaved_dscale_eq n 1 1 1 x_ptr dy_ptr scale_ptr savedMean savedInvVariance epsilon s 0 0 0 (by decide) (by decide) (by decide)
    have h3 := bwdSpatialSaved_eq n 1 1 1 x_ptr dy_ptr scale_ptr savedMean savedInvVariance epsilon s 0 0 0 b (by decide) (by decide) (by decide) hb
    simp only [Prod.mk.injEq] at h3
    norm_num at h1 h2 h3
    refine ⟨?_, ?_⟩
    · rw [h1, h3.1]
    · rw [h2, h3.2.1]

/-- Witness for C8: the training-forward output conjunct at a concrete
one-element configuration. -/
theorem C8_per_act_vs_spatial_dims1_witness :
    (0:ℕ) < 1 ∧
    (miopenBNFwdTrainPerActivationRunHost 1 1 1 1 (fun _ => 3) (fun _ => 1) (fun _ => 0) 1
        true true (1/2) ⟨fun _ => 0, fun _ => 0, fun _ => 0, fun _ => 0, fun _ => 0⟩).out 0
      = (miopenBNFwdTrainSpatialRunHost 1 1 1 1 (fun _ => 3) (fun _ => 1) (fun _ => 0) 1
        true true (1/2) ⟨fun _ => 0, fun _ => 0, fun _ => 0, fun _ => 0, fun _ => 0⟩).out 0 :=
  ⟨by decide,
    C8_per_act_vs_spatial_dims1.2.1 1 (fun _ => 3) (fun _ => 1) (fun _ => 0) 1 (1/2)
      ⟨fun _ => 0, fun _ => 0, fun _ => 0, fun _ => 0, fun _ => 0⟩ 0 (by decide)⟩

/-- C8 counterexample: with `n_batchs = 2`, `channels = height = width = 1`,
`x = dy = (1,0)`, `scale = 1`, `savedMean = 0`, `savedInvVariance = 1` and
zero-initialised gradient buffers, the per-activation backward writes
`dx_0 = 0` while the spatial backward writes `dx_0 = 1/4`. -/
theorem C8_counterexample :
    (miopenBNBwdPerActivationRunHost 2 1 1 1 (fun i => if i = 0 then (1:ℝ) else 0)
        (fun i => if i = 0 then (1:ℝ) else 0) (fun _ => 1) 0 true (fun _ => 0) (fun _ => 1)
        ⟨fun _ => 0, fun _ => 0, fun _ => 0⟩).dx 0
      ≠ (miopenBNBwdSpatialRunHost 2 1 1 1 (fun i => if i = 0 then (1:ℝ) else 0)
        (fun i => if i = 0 then (1:ℝ) else 0) (fun _ => 1) 0 true (fun _ => 0) (fun _ => 1)
        ⟨fun _ => 0, fun _ => 0, fun _ => 0⟩).dx 0 := by
  have h1 := bwdPerActSaved_dx_eq 2 1 1 1 (fun i => if i = 0 then (1:ℝ) else 0)
    (fun i => if i = 0 then (1:ℝ) else 0) (fun _ => 1) (fun _ => 0) (fun _ => 1) 0
    ⟨fun _ => 0, fun _ => 0, fun _ => 0⟩ 0 0 0 0
    (by decide) (by decide) (by decide) (by decide)
  have h2 := bwdSpatialSaved_eq 2 1 1 1 (fun i => if i = 0 then (1:ℝ) else 0)
    (fun i => if i = 0 then (1:ℝ) else 0) (fun _ => 1) (fun _ => 0) (fun _ => 1) 0
    ⟨fun _ => 0, fun _ => 0, fun _ => 0⟩ 0 0 0 0
    (by decide) (by decide) (by decide) (by decide)
  simp only [Prod.mk.injEq] at h2
  norm_num [Finset.sum_range_succ] at h1 h2
  rw [h1, h2.2.2]
  norm_num
